import Mathlib

set_option maxRecDepth 100000

/-!
Verification of the cctz format/parse engine (`src/time_zone_format.cc`).

The development shallowly embeds the engine over `List Char` strings and
unbounded `Int`/`Nat` arithmetic (with the fixed-width bounds of the C types
made explicit where the code depends on them).  The zone and civil-calendar
collaborators are not part of the source file; they are modelled from the
specification (proleptic Gregorian calendar, UTC zone, saturating sentinels)
and marked as such.  The platform strftime/strptime collaborators are
parameters of the embedded `format` and `parse`.
-/

namespace CCTZ

/-- ASCII digit character for a value in `[0, 9]` (the `kDigits` table). -/
def digitChar (d : Nat) : Char := Char.ofNat (48 + d)

/-- The NUL character, which terminates the C mode strings. -/
def nulChar : Char := Char.ofNat 0

/-- C `isspace` in the POSIX locale: space, tab, newline, vertical tab,
form feed, carriage return. -/
def isSpace (c : Char) : Bool :=
  c == ' ' || c == '\t' || c == '\n' || c.toNat == 11 || c.toNat == 12 || c == '\r'

/-! ## Civil-calendar collaborator (modelled from the spec)

The civil-calendar arithmetic lives in `cctz/civil_time.h`, an external
collaborator of the source file.  It is the proleptic Gregorian calendar; we
model it with the standard era decomposition (eras of 400 years = 146097
days), locating the year within an era by bounded search. -/

/-- Modelled from the spec: days from the start of a 400-year Gregorian era to
the start of march-based year `yoe` (`0 ≤ yoe ≤ 399`) of the era. -/
def yearStartOfEra (yoe : Nat) : Nat := 365 * yoe + yoe / 4 - yoe / 100

/-- Modelled from the spec: the civil-calendar collaborator's conversion from a
day serial number (days since 1970-01-01) to a proleptic Gregorian
(year, month, day). -/
def civilFromDays (z : Int) : Int × Int × Int :=
  let a := z + 719468
  let era : Int := a / 146097
  let doe : Nat := (a % 146097).toNat
  let yoe : Nat := Nat.findGreatest (fun y => yearStartOfEra y ≤ doe) 399
  let doy : Nat := doe - yearStartOfEra yoe
  let mp : Nat := (5 * doy + 2) / 153
  let d : Nat := doy - (153 * mp + 2) / 5 + 1
  let m : Nat := if mp < 10 then mp + 3 else mp - 9
  (era * 400 + yoe + (if m ≤ 2 then 1 else 0), (m : Int), (d : Int))

/-- Modelled from the spec: the civil-calendar collaborator's conversion from a
proleptic Gregorian date to its day serial number.  `d` may lie outside the
month (the collaborator normalizes such fields by day arithmetic). -/
def daysFromCivil (y m d : Int) : Int :=
  let y' := if m ≤ 2 then y - 1 else y
  let era : Int := y' / 400
  let yoe : Nat := (y' - era * 400).toNat
  let mp : Nat := (if 2 < m then m - 3 else m + 9).toNat
  let doy : Int := ((153 * mp + 2) / 5 : Nat) + d - 1
  era * 146097 + (yearStartOfEra yoe : Int) + doy - 719468

/-- A civil second: the calendar tuple (year, month, day, hour, minute,
second), kept normalized. -/
structure CivilSecond where
  y : Int
  m : Int
  d : Int
  hh : Int
  mi : Int
  ss : Int
deriving DecidableEq

/-- Unix seconds of a normalized civil second (UTC interpretation). -/
def toUnix (cs : CivilSecond) : Int :=
  daysFromCivil cs.y cs.m cs.d * 86400 + cs.hh * 3600 + cs.mi * 60 + cs.ss

/-- The normalized civil second of a Unix-seconds instant (UTC). -/
def fromUnixCivil (t : Int) : CivilSecond :=
  let days := t / 86400
  let tod : Nat := (t % 86400).toNat
  let ymd := civilFromDays days
  ⟨ymd.1, ymd.2.1, ymd.2.2, (tod / 3600 : Nat), (tod % 3600 / 60 : Nat), (tod % 60 : Nat)⟩

/-- Modelled from the spec: the `civil_second` constructor, which normalizes
arbitrary field values (seconds into minutes into hours into days, months into
years, and excess days by day arithmetic). -/
def civilFromFields (y m d hh mi ss : Int) : CivilSecond :=
  let mo := m - 1
  let y1 := y + mo / 12
  let m1 := mo % 12 + 1
  let t := hh * 3600 + mi * 60 + ss
  let dayShift := t / 86400
  let tod : Nat := (t % 86400).toNat
  let z := daysFromCivil y1 m1 d + dayShift
  let ymd := civilFromDays z
  ⟨ymd.1, ymd.2.1, ymd.2.2, (tod / 3600 : Nat), (tod % 3600 / 60 : Nat), (tod % 60 : Nat)⟩

/-- Modelled from the spec: civil-second plus a signed seconds offset, with
normalization (the collaborator's `operator+`/`operator-`). -/
def civilPlus (cs : CivilSecond) (k : Int) : CivilSecond := fromUnixCivil (toUnix cs + k)

/-- Strict order on normalized civil seconds (lexicographic on the fields,
equivalently by Unix seconds). -/
def civilLt (a b : CivilSecond) : Prop := toUnix a < toUnix b

instance (a b : CivilSecond) : Decidable (civilLt a b) := by
  unfold civilLt; infer_instance

/-! ## Fixed-width bounds of the C integer types, and instant sentinels -/

/-- Smallest value of the C `int` type (32 bits). -/
def intMin32 : Int := -2147483648

/-- Smallest value of `std::int_fast64_t` / `year_t` (64 bits). -/
def intMin64 : Int := -9223372036854775808

/-- Largest value of `std::int_fast64_t` / `year_t` (64 bits). -/
def intMax64 : Int := 9223372036854775807

/-- Modelled from the spec: `time_point<seconds>::max()`, the saturating
upper sentinel of the 64-bit instant type. -/
def tpMax : Int := 9223372036854775807

/-- Modelled from the spec: `time_point<seconds>::min()`. -/
def tpMin : Int := -9223372036854775808

/-- Modelled from the spec: `civil_second::max()`, a saturating sentinel far
above every representable instant. -/
def civilSecondMax : CivilSecond := ⟨9223372036854775807, 12, 31, 23, 59, 59⟩

/-- Modelled from the spec: `civil_second::min()`. -/
def civilSecondMin : CivilSecond := ⟨-9223372036854775808, 1, 1, 0, 0, 0⟩

/-! ## Time-zone collaborator (modelled from the spec) -/

/-- Result of an absolute lookup: civil time, offset seconds east of UTC,
DST flag and abbreviation. -/
structure AbsoluteLookup where
  cs : CivilSecond
  offset : Int
  is_dst : Bool
  abbr : List Char

/-- Result of a civil lookup; only the `pre` instant is consulted by `parse`. -/
structure CivilLookup where
  pre : Int

/-- Modelled from the spec: the time-zone collaborator, a pair of total lookup
functions. -/
structure TimeZone where
  lookupAbs : Int → AbsoluteLookup
  lookupCiv : CivilSecond → CivilLookup

/-- Saturate an unbounded second count into the 64-bit instant range. -/
def clampTp (t : Int) : Int := if t < tpMin then tpMin else if tpMax < t then tpMax else t

/-- Modelled from the spec: `utc_time_zone()`, the distinguished zone with zero
offset; its civil lookup saturates at the instant sentinels. -/
def utcTimeZone : TimeZone where
  lookupAbs := fun t => ⟨fromUnixCivil t, 0, false, ['U', 'T', 'C']⟩
  lookupCiv := fun cs => ⟨clampTp (toUnix cs)⟩

/-- `ToUnixSeconds` on the embedded instant type (seconds since epoch). -/
def ToUnixSeconds (t : Int) : Int := t

/-- `FromUnixSeconds` on the embedded instant type. -/
def FromUnixSeconds (t : Int) : Int := t

/-! ## Integer encoder (`Format64`, `Format02d`) -/

/-- Decimal digits of a natural number, most significant first; the fuel
argument dominates the number of digits. -/
def natDigitsAux : Nat → Nat → List Char → List Char
  | 0, _, acc => acc
  | fuel + 1, v, acc =>
    if v < 10 then digitChar v :: acc
    else natDigitsAux fuel (v / 10) (digitChar (v % 10) :: acc)

/-- Decimal digits of a natural number, most significant first. -/
def natDigits (v : Nat) : List Char := natDigitsAux (v + 1) v []

/-- `Format64`: decimal of a signed 64-bit value, zero padded to `width`
characters (the sign counts against the width).  The source writes digits
right to left; the embedding builds the same string left to right. -/
def Format64 (width : Int) (v : Int) : List Char :=
  if v < 0 then
    let ds := natDigits (-v).toNat
    '-' :: (List.replicate (width - 1 - ds.length).toNat '0' ++ ds)
  else
    let ds := natDigits v.toNat
    List.replicate (width - ds.length).toNat '0' ++ ds

/-- `Format02d`: formats `[0 .. 99]` as `%02d`. -/
def Format02d (v : Nat) : List Char := [digitChar (v / 10 % 10), digitChar (v % 10)]

/-- `FormatOffset`: formats a UTC offset under a three-character mode string
(`sep`, `'*'`, `':'` flags; absent positions read as NUL).  Built in the same
right-to-left order as the source: seconds part, minutes part, hours, sign. -/
def FormatOffset (offset : Int) (mode : List Char) : List Char :=
  let sign := if offset < 0 then '-' else '+'
  let o := if offset < 0 then -offset else offset
  let seconds : Nat := (o % 60).toNat
  let minutes : Nat := (o / 60 % 60).toNat
  let hours : Nat := (o / 60 / 60).toNat
  let sep := mode.getD 0 nulChar
  let ext := sep ≠ nulChar ∧ mode.getD 1 nulChar = '*'
  let ccc := ext ∧ mode.getD 2 nulChar = ':'
  let renderSecs := ext ∧ (¬ ccc ∨ seconds ≠ 0)
  -- if we are not rendering seconds, sub-minute negative offsets get a '+'
  let sign := if renderSecs then sign else if hours = 0 ∧ minutes = 0 then '+' else sign
  let secsPart := if renderSecs then sep :: Format02d seconds else []
  let minsPart :=
    if ¬ ccc ∨ minutes ≠ 0 ∨ seconds ≠ 0 then
      (if sep ≠ nulChar then [sep] else []) ++ Format02d minutes
    else []
  sign :: Format02d hours ++ minsPart ++ secsPart

/-- The `kExp10` table: powers of ten representable in 64 bits. -/
def kExp10 (n : Nat) : Int := 10 ^ n

/-! ## Integer decoder (`ParseInt`) -/

/-- The digit-consuming loop of `ParseInt`.  `kmin` is the smallest value of
the destination C type; the value is accumulated negatively, guarded exactly
as in the source.  Returns the accumulated (negated) value and the rest of the
input, or `none` if a guard fired. -/
def ParseIntLoop (kmin : Int) : List Char → Int → Int → Option (Int × List Char)
  | [], _, value => some (value, [])
  | c :: cs, width, value =>
    let d : Int := (c.toNat : Int) - 48
    if d < 0 ∨ 10 ≤ d then some (value, c :: cs)
    else if value < Int.tdiv kmin 10 then none
    else if value * 10 < kmin + d then none
    else if width = 1 then some (value * 10 - d, cs)
    else ParseIntLoop kmin cs (if width > 1 then width - 1 else width) (value * 10 - d)

/-- The post-sign half of `ParseInt`: run the digit loop, reject when no
digit was consumed, when positive accumulation landed exactly on `kmin`, when
a `-` sign preceded a zero value, or when the value leaves `[mn, mx]`. -/
def ParseIntAfterSign (kmin mn mx : Int) (neg : Bool) (w : Int) (s1 : List Char) :
    Option (Int × List Char) :=
  match ParseIntLoop kmin s1 w 0 with
  | none => none
  | some vr =>
    if vr.2.length = s1.length then none
    else if ¬ neg ∧ vr.1 = kmin then none
    else if neg ∧ vr.1 = 0 then none
    else
      let value := if ¬ neg then -vr.1 else vr.1
      if mn ≤ value ∧ value ≤ mx then some (value, vr.2) else none

/-- `ParseInt`: optional leading `-` (counted against a positive width), then
up to `width` digits (0 disables the cap), negative accumulation with overflow
guards against `kmin`, failure when no digit was consumed or the value leaves
`[mn, mx]`.  Returns the value and the cursor past the last digit. -/
def ParseInt (kmin : Int) (width : Int) (mn mx : Int) (s : List Char) :
    Option (Int × List Char) :=
  if s.head? = some '-' then
    if width = 1 then none
    else ParseIntAfterSign kmin mn mx true (if width > 1 then width - 1 else width) s.tail
  else ParseIntAfterSign kmin mn mx false width s

/-! ## Offset, zone-name and subsecond decoders -/

/-- `ParseOffset`: a literal `Z` means zero; otherwise a mandatory sign, two
hour digits, then optional (separator-respecting) minute and second pairs.
As in the source, a successfully decoded minute or second value whose digit
pair is short still contributes to the offset without advancing the cursor. -/
def ParseOffset (mode : List Char) (data : List Char) : Option (Int × List Char) :=
  match data with
  | [] => none
  | first :: d0 =>
    if first = 'Z' then some (0, d0)
    else if first ≠ '+' ∧ first ≠ '-' then none
    else
      let sep := mode.getD 0 nulChar
      match ParseInt intMin32 2 0 23 d0 with
      | none => none
      | some (hours, he0) =>
        if d0.length - he0.length ≠ 2 then none
        else
          let he := if sep ≠ nulChar ∧ he0.head? = some sep then he0.tail else he0
          let msr : Int × Int × List Char :=
            match ParseInt intMin32 2 0 59 he with
            | none => (0, 0, he)
            | some (minutes, me0) =>
              if he.length - me0.length ≠ 2 then (minutes, 0, he)
              else
                let me := if sep ≠ nulChar ∧ me0.head? = some sep then me0.tail else me0
                match ParseInt intMin32 2 0 59 me with
                | none => (minutes, 0, me)
                | some (seconds, se0) =>
                  if me.length - se0.length ≠ 2 then (minutes, seconds, me)
                  else (minutes, seconds, se0)
          let off := (hours * 60 + msr.1) * 60 + msr.2.1
          some (if first = '-' then -off else off, msr.2.2)

/-- `ParseZone`: consumes a non-empty run of non-space characters (the zone
abbreviation, which the caller ignores). -/
def ParseZone (data : List Char) : Option (List Char) :=
  let dp := data.dropWhile (fun c => ! isSpace c)
  if dp.length = data.length then none else some dp

/-- The digit loop of `ParseSubSeconds`: consumes every digit but accumulates
only the first 15. -/
def ParseSubSecondsLoop : List Char → Int → Nat → Int × Nat × List Char
  | [], v, exp => (v, exp, [])
  | c :: cs, v, exp =>
    let d : Int := (c.toNat : Int) - 48
    if d < 0 ∨ 10 ≤ d then (v, exp, c :: cs)
    else if exp < 15 then ParseSubSecondsLoop cs (v * 10 + d) (exp + 1)
    else ParseSubSecondsLoop cs v exp

/-- `ParseSubSeconds`: reads at least one digit, scales the first 15 digits to
a femtosecond count. -/
def ParseSubSeconds (s : List Char) : Option (Int × List Char) :=
  let r := ParseSubSecondsLoop s 0 0
  if r.2.2.length = s.length then none
  else some (r.1 * kExp10 (15 - r.2.1), r.2.2)

/-! ## Format engine

The engine walks the format keeping three disjoint regions: already produced,
pending-unhandled (`acc` here, the source's `[pending .. cur)`), and
unexamined (`rem`).  Ordinary runs and matched `%%` pairs are copied directly
only while nothing is pending; a pending run is flushed through the strftime
collaborator right before each internally-handled specifier and at the end.
The fuel argument dominates the length of `rem`; `format` supplies
`rem.length`, and every iteration consumes at least one character. -/

/-- Remove trailing `'0'` characters (the fraction-trimming loop). -/
def trimZeros (l : List Char) : List Char := (l.reverse.dropWhile (fun c => c == '0')).reverse

/-- Render `%E*S` / `%E*f` (full fractional precision). -/
def formatFullSubseconds (which : Char) (fs : Int) (sec : Int) : List Char :=
  let trimmed := trimZeros (Format64 15 fs)
  if which = 'S' then
    Format02d sec.toNat ++ (if trimmed.isEmpty then [] else '.' :: trimmed)
  else
    if trimmed.isEmpty then ['0'] else trimmed

/-- Render `%E#S` / `%E#f` for a width `n` in `[0, 1024]` (capped at 18). -/
def formatWidthSubseconds (which : Char) (n : Int) (fs : Int) (sec : Int) : List Char :=
  let n1 := if n > 18 then 18 else n
  let digits :=
    if n1 > 0 then
      Format64 n1 (if n1 > 15 then fs * kExp10 (n1 - 15).toNat else fs / kExp10 (15 - n1).toNat)
    else []
  let frac := if n1 > 0 ∧ which = 'S' then '.' :: digits else digits
  if which = 'S' then Format02d sec.toNat ++ frac else frac

/-- The main loop of `format` (see the section comment). -/
def formatLoop (ftm : List Char → List Char) (al : AbsoluteLookup) (tp fs : Int) :
    Nat → List Char → List Char → List Char
  | _, [], acc => if acc.isEmpty then [] else ftm acc
  | 0, _ :: _, _ => []
  | fuel + 1, rem, acc =>
    let run := rem.takeWhile (fun c => c != '%')
    let rest1 := rem.dropWhile (fun c => c != '%')
    let ps := rest1.takeWhile (fun c => c == '%')
    let rest2 := rest1.dropWhile (fun c => c == '%')
    let k := ps.length
    let oa1 : List Char × List Char := if acc.isEmpty then (run, []) else ([], acc ++ run)
    let out1 := oa1.1
    let acc1 := oa1.2
    let oa2 : List Char × List Char :=
      if acc1.isEmpty then
        let pairs := List.replicate (k / 2) '%'
        if k % 2 = 1 then
          if rest2.isEmpty then (pairs ++ ['%'], []) else (pairs, ['%'])
        else (pairs, [])
      else ([], acc1 ++ ps)
    let out2 := oa2.1
    let acc2 := oa2.2
    let flush := if acc2.dropLast.isEmpty then [] else ftm acc2.dropLast
    out1 ++ out2 ++
      match rest2 with
      | [] => formatLoop ftm al tp fs fuel [] acc2
      | c :: rest3 =>
        if k % 2 = 0 then formatLoop ftm al tp fs fuel (c :: rest3) acc2
        else
          match c, rest3 with
          | 'Y', r => flush ++ Format64 0 al.cs.y ++ formatLoop ftm al tp fs fuel r []
          | 'm', r => flush ++ Format02d al.cs.m.toNat ++ formatLoop ftm al tp fs fuel r []
          | 'd', r => flush ++ Format02d al.cs.d.toNat ++ formatLoop ftm al tp fs fuel r []
          | 'e', r =>
            flush ++
              (match Format02d al.cs.d.toNat with
               | '0' :: t => ' ' :: t
               | l => l) ++ formatLoop ftm al tp fs fuel r []
          | 'H', r => flush ++ Format02d al.cs.hh.toNat ++ formatLoop ftm al tp fs fuel r []
          | 'M', r => flush ++ Format02d al.cs.mi.toNat ++ formatLoop ftm al tp fs fuel r []
          | 'S', r => flush ++ Format02d al.cs.ss.toNat ++ formatLoop ftm al tp fs fuel r []
          | 'z', r => flush ++ FormatOffset al.offset [] ++ formatLoop ftm al tp fs fuel r []
          | 'Z', r => flush ++ al.abbr ++ formatLoop ftm al tp fs fuel r []
          | 's', r => flush ++ Format64 0 (ToUnixSeconds tp) ++ formatLoop ftm al tp fs fuel r []
          | ':', 'z' :: r => flush ++ FormatOffset al.offset [':'] ++ formatLoop ftm al tp fs fuel r []
          | ':', ':' :: 'z' :: r =>
            flush ++ FormatOffset al.offset [':', '*'] ++ formatLoop ftm al tp fs fuel r []
          | ':', ':' :: ':' :: 'z' :: r =>
            flush ++ FormatOffset al.offset [':', '*', ':'] ++ formatLoop ftm al tp fs fuel r []
          | 'E', [] => formatLoop ftm al tp fs fuel [] (acc2 ++ ['E'])
          | 'E', 'z' :: r => flush ++ FormatOffset al.offset [':'] ++ formatLoop ftm al tp fs fuel r []
          | 'E', '*' :: 'z' :: r =>
            flush ++ FormatOffset al.offset [':', '*'] ++ formatLoop ftm al tp fs fuel r []
          | 'E', '*' :: 'S' :: r =>
            flush ++ formatFullSubseconds 'S' fs al.cs.ss ++ formatLoop ftm al tp fs fuel r []
          | 'E', '*' :: 'f' :: r =>
            flush ++ formatFullSubseconds 'f' fs al.cs.ss ++ formatLoop ftm al tp fs fuel r []
          | 'E', '4' :: 'Y' :: r => flush ++ Format64 4 al.cs.y ++ formatLoop ftm al tp fs fuel r []
          | 'E', e1 :: r1 =>
            if 48 ≤ e1.toNat ∧ e1.toNat ≤ 57 then
              match ParseInt intMin32 0 0 1024 (e1 :: r1) with
              | some np =>
                match np.2 with
                | 'S' :: r => flush ++ formatWidthSubseconds 'S' np.1 fs al.cs.ss ++
                    formatLoop ftm al tp fs fuel r []
                | 'f' :: r => flush ++ formatWidthSubseconds 'f' np.1 fs al.cs.ss ++
                    formatLoop ftm al tp fs fuel r []
                | _ => formatLoop ftm al tp fs fuel (e1 :: r1) (acc2 ++ ['E'])
              | none => formatLoop ftm al tp fs fuel (e1 :: r1) (acc2 ++ ['E'])
            else formatLoop ftm al tp fs fuel (e1 :: r1) (acc2 ++ ['E'])
          | c', r => formatLoop ftm al tp fs fuel (c' :: r) acc2

/-- `format`: formats an instant (`tp` Unix seconds, `fs` femtoseconds) in a
zone.  `ftm` is the strftime collaborator composed with `ToTM` (both external
to the source file); it receives the pending sub-format and the absolute
lookup. -/
def format (ftm : List Char → AbsoluteLookup → List Char) (fmt : List Char)
    (tp fs : Int) (tz : TimeZone) : List Char :=
  let al := tz.lookupAbs tp
  formatLoop (fun f => ftm f al) al tp fs fmt.length fmt []

/-! ## Parse engine

The loop walks format and input in lockstep.  The source's `zone` string is
written by `%Z` but never read afterwards, so the embedding discards the
parsed zone name.  Specifiers that the source delegates to the platform
`strptime` are routed through the `Strptime` parameter. -/

/-- The broken-down-time structure handed to the strptime collaborator. -/
structure Tm where
  tm_year : Int
  tm_mon : Int
  tm_mday : Int
  tm_hour : Int
  tm_min : Int
  tm_sec : Int
  tm_wday : Int
  tm_yday : Int
  tm_isdst : Int
deriving DecidableEq

/-- A zero-initialized `std::tm` (the `%p` probe's scratch value). -/
def zeroTm : Tm := ⟨0, 0, 0, 0, 0, 0, 0, 0, 0⟩

/-- State accumulated by the parse loop. -/
structure ParseState where
  saw_year : Bool
  year : Int
  tm : Tm
  subseconds : Int
  saw_offset : Bool
  offset : Int
  twelve_hour : Bool
  afternoon : Bool
  saw_percent_s : Bool
  percent_s : Int
deriving DecidableEq

/-- The default field values set before the walk (1970-01-01 00:00:00). -/
def initParseState : ParseState where
  saw_year := false
  year := 1970
  tm := ⟨70, 0, 1, 0, 0, 0, 4, 0, 0⟩
  subseconds := 0
  saw_offset := false
  offset := 0
  twelve_hour := false
  afternoon := false
  saw_percent_s := false
  percent_s := 0

/-- Modelled from the spec: the platform `strptime` collaborator.  Given the
remaining input, a single-specifier format, and the current broken-down time,
it may return the number of input characters consumed and the updated
broken-down time. -/
def Strptime : Type := List Char → List Char → Tm → Option (Nat × Tm)

/-- The fixed parse-failure diagnostic. -/
def parseErr {α : Type} : Except String α := Except.error "Failed to parse input"

/-- One delegated-specifier step: run the collaborator on the remaining input;
after a successful `%p`, reparse the consumed bytes with the probe format
`%I%p` and a synthetic leading `1` to learn whether the hour was shifted to
the afternoon. -/
def runStrptime (sp : Strptime) (spec : List Char) (st : ParseState) (inp : List Char) :
    Except String (ParseState × List Char) :=
  match sp inp spec st.tm with
  | none => parseErr
  | some ktm =>
    let st1 := { st with tm := ktm.2 }
    let st2 :=
      if spec = ['%', 'p'] then
        let tmp :=
          match sp ('1' :: inp.take ktm.1) ['%', 'I', '%', 'p'] zeroTm with
          | some r => r.2
          | none => zeroTm
        { st1 with afternoon := tmp.tm_hour == (13 : Int) }
      else st1
    Except.ok (st2, inp.drop ktm.1)

/-- The lockstep walk of `parse`.  The fuel dominates the format length
(every iteration consumes at least one format character); `parse` supplies
`fmt.length`. -/
def parseLoop (sp : Strptime) : Nat → List Char → List Char → ParseState →
    Except String (ParseState × List Char)
  | _, _, [], st => Except.ok (st, [])
  | _, [], inp, st => Except.ok (st, inp)
  | 0, _ :: _, _ :: _, _ => parseErr
  | fuel + 1, f :: fr, i :: ir, st =>
    if isSpace f then
      parseLoop sp fuel (fr.dropWhile (fun x => isSpace x)) ((i :: ir).dropWhile (fun x => isSpace x)) st
    else if f ≠ '%' then
      if f = i then parseLoop sp fuel fr ir st else parseErr
    else
      match fr with
      | [] => parseErr
      | 'Y' :: fr2 =>
        match ParseInt intMin64 0 intMin64 intMax64 (i :: ir) with
        | none => parseErr
        | some vi => parseLoop sp fuel fr2 vi.2 { st with year := vi.1, saw_year := true }
      | 'm' :: fr2 =>
        match ParseInt intMin32 2 1 12 (i :: ir) with
        | none => parseErr
        | some vi => parseLoop sp fuel fr2 vi.2 { st with tm := { st.tm with tm_mon := vi.1 - 1 } }
      | 'd' :: fr2 =>
        match ParseInt intMin32 2 1 31 (i :: ir) with
        | none => parseErr
        | some vi => parseLoop sp fuel fr2 vi.2 { st with tm := { st.tm with tm_mday := vi.1 } }
      | 'e' :: fr2 =>
        match ParseInt intMin32 2 1 31 (i :: ir) with
        | none => parseErr
        | some vi => parseLoop sp fuel fr2 vi.2 { st with tm := { st.tm with tm_mday := vi.1 } }
      | 'H' :: fr2 =>
        match ParseInt intMin32 2 0 23 (i :: ir) with
        | none => parseErr
        | some vi =>
          parseLoop sp fuel fr2 vi.2
            { st with tm := { st.tm with tm_hour := vi.1 }, twelve_hour := false }
      | 'M' :: fr2 =>
        match ParseInt intMin32 2 0 59 (i :: ir) with
        | none => parseErr
        | some vi => parseLoop sp fuel fr2 vi.2 { st with tm := { st.tm with tm_min := vi.1 } }
      | 'S' :: fr2 =>
        match ParseInt intMin32 2 0 60 (i :: ir) with
        | none => parseErr
        | some vi => parseLoop sp fuel fr2 vi.2 { st with tm := { st.tm with tm_sec := vi.1 } }
      | 'z' :: fr2 =>
        match ParseOffset [] (i :: ir) with
        | none => parseErr
        | some oi => parseLoop sp fuel fr2 oi.2 { st with offset := oi.1, saw_offset := true }
      | 'Z' :: fr2 =>
        match ParseZone (i :: ir) with
        | none => parseErr
        | some rest => parseLoop sp fuel fr2 rest st
      | 's' :: fr2 =>
        match ParseInt intMin64 0 intMin64 intMax64 (i :: ir) with
        | none => parseErr
        | some vi =>
          parseLoop sp fuel fr2 vi.2 { st with percent_s := vi.1, saw_percent_s := true }
      | '%' :: fr2 =>
        if i = '%' then parseLoop sp fuel fr2 ir st else parseErr
      | ':' :: 'z' :: fr3 =>
        match ParseOffset [':'] (i :: ir) with
        | none => parseErr
        | some oi => parseLoop sp fuel fr3 oi.2 { st with offset := oi.1, saw_offset := true }
      | ':' :: ':' :: 'z' :: fr3 =>
        match ParseOffset [':'] (i :: ir) with
        | none => parseErr
        | some oi => parseLoop sp fuel fr3 oi.2 { st with offset := oi.1, saw_offset := true }
      | ':' :: ':' :: ':' :: 'z' :: fr3 =>
        match ParseOffset [':'] (i :: ir) with
        | none => parseErr
        | some oi => parseLoop sp fuel fr3 oi.2 { st with offset := oi.1, saw_offset := true }
      | ':' :: fr2 =>
        match runStrptime sp ['%', ':'] st (i :: ir) with
        | Except.error e => Except.error e
        | Except.ok si => parseLoop sp fuel fr2 si.2 si.1
      | 'E' :: 'z' :: fr3 =>
        match ParseOffset [':'] (i :: ir) with
        | none => parseErr
        | some oi => parseLoop sp fuel fr3 oi.2 { st with offset := oi.1, saw_offset := true }
      | 'E' :: '*' :: 'z' :: fr3 =>
        match ParseOffset [':'] (i :: ir) with
        | none => parseErr
        | some oi => parseLoop sp fuel fr3 oi.2 { st with offset := oi.1, saw_offset := true }
      | 'E' :: '*' :: 'S' :: fr3 =>
        match ParseInt intMin32 2 0 60 (i :: ir) with
        | none => parseErr
        | some vi =>
          let st1 := { st with tm := { st.tm with tm_sec := vi.1 } }
          match vi.2 with
          | '.' :: r2 =>
            match ParseSubSeconds r2 with
            | none => parseErr
            | some sv => parseLoop sp fuel fr3 sv.2 { st1 with subseconds := sv.1 }
          | r2 => parseLoop sp fuel fr3 r2 st1
      | 'E' :: '*' :: 'f' :: fr3 =>
        if 48 ≤ i.toNat ∧ i.toNat ≤ 57 then
          match ParseSubSeconds (i :: ir) with
          | none => parseErr
          | some sv => parseLoop sp fuel fr3 sv.2 { st with subseconds := sv.1 }
        else parseLoop sp fuel fr3 (i :: ir) st
      | 'E' :: '4' :: 'Y' :: fr3 =>
        match ParseInt intMin64 4 (-999) 9999 (i :: ir) with
        | none => parseErr
        | some vi =>
          if (i :: ir).length - vi.2.length ≠ 4 then parseErr
          else parseLoop sp fuel fr3 vi.2 { st with year := vi.1, saw_year := true }
      | 'E' :: fr2 =>
        -- the fall-through below mirrors: optional twelve-hour flag update on
        -- %Ec/%EX, advance one format character, delegate "%E?" to strptime
        let delegated :=
          let st1 :=
            if fr2.head? = some 'c' ∨ fr2.head? = some 'X' then
              { st with twelve_hour := false }
            else st
          match runStrptime sp ('%' :: 'E' :: fr2.take 1) st1 (i :: ir) with
          | Except.error e => Except.error e
          | Except.ok si => parseLoop sp fuel fr2.tail si.2 si.1
        match fr2 with
        | e1 :: r1 =>
          if 48 ≤ e1.toNat ∧ e1.toNat ≤ 57 then
            match ParseInt intMin32 0 0 1024 (e1 :: r1) with
            | some np =>
              match np.2 with
              | 'S' :: fr3 =>
                match ParseInt intMin32 2 0 60 (i :: ir) with
                | none => parseErr
                | some vi =>
                  let st1 := { st with tm := { st.tm with tm_sec := vi.1 } }
                  match vi.2 with
                  | '.' :: r2 =>
                    match ParseSubSeconds r2 with
                    | none => parseErr
                    | some sv => parseLoop sp fuel fr3 sv.2 { st1 with subseconds := sv.1 }
                  | r2 => parseLoop sp fuel fr3 r2 st1
              | 'f' :: fr3 =>
                if 48 ≤ i.toNat ∧ i.toNat ≤ 57 then
                  match ParseSubSeconds (i :: ir) with
                  | none => parseErr
                  | some sv => parseLoop sp fuel fr3 sv.2 { st with subseconds := sv.1 }
                else parseLoop sp fuel fr3 (i :: ir) st
              | _ => delegated
            | none => delegated
          else delegated
        | [] => delegated
      | 'O' :: fr2 =>
        let st1 :=
          if fr2.head? = some 'H' then { st with twelve_hour := false }
          else if fr2.head? = some 'I' then { st with twelve_hour := true }
          else st
        match runStrptime sp ('%' :: 'O' :: fr2.take 1) st1 (i :: ir) with
        | Except.error e => Except.error e
        | Except.ok si => parseLoop sp fuel fr2.tail si.2 si.1
      | 'I' :: fr2 =>
        match runStrptime sp ['%', 'I'] { st with twelve_hour := true } (i :: ir) with
        | Except.error e => Except.error e
        | Except.ok si => parseLoop sp fuel fr2 si.2 si.1
      | 'l' :: fr2 =>
        match runStrptime sp ['%', 'l'] { st with twelve_hour := true } (i :: ir) with
        | Except.error e => Except.error e
        | Except.ok si => parseLoop sp fuel fr2 si.2 si.1
      | 'r' :: fr2 =>
        match runStrptime sp ['%', 'r'] { st with twelve_hour := true } (i :: ir) with
        | Except.error e => Except.error e
        | Except.ok si => parseLoop sp fuel fr2 si.2 si.1
      | 'R' :: fr2 =>
        match runStrptime sp ['%', 'R'] { st with twelve_hour := false } (i :: ir) with
        | Except.error e => Except.error e
        | Except.ok si => parseLoop sp fuel fr2 si.2 si.1
      | 'T' :: fr2 =>
        match runStrptime sp ['%', 'T'] { st with twelve_hour := false } (i :: ir) with
        | Except.error e => Except.error e
        | Except.ok si => parseLoop sp fuel fr2 si.2 si.1
      | 'c' :: fr2 =>
        match runStrptime sp ['%', 'c'] { st with twelve_hour := false } (i :: ir) with
        | Except.error e => Except.error e
        | Except.ok si => parseLoop sp fuel fr2 si.2 si.1
      | 'X' :: fr2 =>
        match runStrptime sp ['%', 'X'] { st with twelve_hour := false } (i :: ir) with
        | Except.error e => Except.error e
        | Except.ok si => parseLoop sp fuel fr2 si.2 si.1
      | c' :: fr2 =>
        match runStrptime sp ['%', c'] st (i :: ir) with
        | Except.error e => Except.error e
        | Except.ok si => parseLoop sp fuel fr2 si.2 si.1

/-- Finalization after the walk: twelve-hour fixup, trailing-data check, `%s`
override, leap-second normalization, year widening, normalization rejection,
offset-overflow guard, zone lookup and saturation checks. -/
def parseFinish (st0 : ParseState) (rem : List Char) (tz : TimeZone) :
    Except String (Int × Int) :=
  let st :=
    if st0.twelve_hour ∧ st0.afternoon ∧ st0.tm.tm_hour < 12 then
      { st0 with tm := { st0.tm with tm_hour := st0.tm.tm_hour + 12 } }
    else st0
  let rem1 := rem.dropWhile (fun x => isSpace x)
  if rem1 ≠ [] then Except.error "Illegal trailing data in input string"
  else if st.saw_percent_s then Except.ok (FromUnixSeconds st.percent_s, 0)
  else
    let ptz := if st.saw_offset then utcTimeZone else tz
    let leap : Int × Int × Int :=
      if st.tm.tm_sec = 60 then (st.tm.tm_sec - 1, st.offset - 1, 0)
      else (st.tm.tm_sec, st.offset, st.subseconds)
    let sec1 := leap.1
    let off1 := leap.2.1
    let sub1 := leap.2.2
    match (if st.saw_year then some st.year
           else if st.tm.tm_year > intMax64 - 1900 then none
           else some (st.tm.tm_year + 1900)) with
    | none => Except.error "Out-of-range year"
    | some year =>
      let month := st.tm.tm_mon + 1
      let cs := civilFromFields year month st.tm.tm_mday st.tm.tm_hour st.tm.tm_min sec1
      if cs.m ≠ month ∨ cs.d ≠ st.tm.tm_mday then Except.error "Out-of-range field"
      else if (off1 < 0 ∧ civilLt (civilPlus civilSecondMax off1) cs) ∨
          (off1 > 0 ∧ civilLt cs (civilPlus civilSecondMin off1)) then
        Except.error "Out-of-range field"
      else
        let cs2 := civilPlus cs (-off1)
        let tp := (ptz.lookupCiv cs2).pre
        if tp = tpMax ∧ civilLt (ptz.lookupAbs tpMax).cs cs2 then
          Except.error "Out-of-range field"
        else if tp = tpMin ∧ civilLt cs2 (ptz.lookupAbs tpMin).cs then
          Except.error "Out-of-range field"
        else Except.ok (tp, sub1)

/-- `parse`: strip leading input whitespace, walk format and input in
lockstep, then finalize.  `sp` is the strptime collaborator. -/
def parse (sp : Strptime) (fmt inp : List Char) (tz : TimeZone) : Except String (Int × Int) :=
  match parseLoop sp fmt.length fmt (inp.dropWhile (fun x => isSpace x)) initParseState with
  | Except.error e => Except.error e
  | Except.ok sr => parseFinish sr.1 sr.2 tz

/-! ## Reference definitions used by the claims

`parseIntSpec` is a second, spec-side description of `ParseInt`, written from
the specification's words for the refinement claim about the integer decoder;
`digitsValFrom`/`digitsTakeN` are the plain notions of digit-run value and
greedy capped digit run that it uses.  `stubStrptime` is a concrete strptime
collaborator used to instantiate witnesses. -/

/-- Value of a digit run appended to an accumulator `p` (base-10 left fold). -/
def digitsValFrom (p : Nat) (ds : List Char) : Nat :=
  ds.foldl (fun a c => a * 10 + (c.toNat - 48)) p

/-- Value of a digit run. -/
def digitsValN (ds : List Char) : Nat := digitsValFrom 0 ds

/-- Greedy run of ASCII digits, capped at `some k` digits (`none` = uncapped);
returns the run and the rest. -/
def digitsTakeN : Option Nat → List Char → List Char × List Char
  | _, [] => ([], [])
  | some 0, s => ([], s)
  | cap, c :: cs =>
    if 48 ≤ c.toNat ∧ c.toNat ≤ 57 then
      let r := digitsTakeN (cap.map fun k => k - 1) cs
      (c :: r.1, r.2)
    else ([], c :: cs)

/-- The digit cap corresponding to a `ParseInt` width counter. -/
def capOf (w : Int) : Option Nat := if w ≤ 0 then none else some w.toNat

/-- The specification's description of the integer decoder: an optional
leading `-` (counted against a positive width), then a greedy run of at most
`width` digits (`width = 0` uncapped), failing exactly when no digit was
consumed or the value lies outside `[mn, mx]`. -/
def parseIntSpec (width mn mx : Int) (s : List Char) : Option (Int × List Char) :=
  let neg := s.head? = some '-'
  let s1 := if neg then s.tail else s
  let cap : Option Nat :=
    if width ≤ 0 then none else some (width - (if neg then 1 else 0)).toNat
  let rr := digitsTakeN cap s1
  if rr.1 = [] then none
  else
    let v : Int := if neg then -(digitsValN rr.1 : Int) else (digitsValN rr.1 : Int)
    if mn ≤ v ∧ v ≤ mx then some (v, rr.2) else none

/-- A concrete strptime collaborator that rejects every delegated specifier
(used to instantiate witnesses; the claims' formats never delegate). -/
def stubStrptime : Strptime := fun _ _ _ => none

/-! ## Basic lemmas about digit runs and the integer decoder -/

theorem digitsValFrom_ge (ds : List Char) : ∀ p : Nat, p ≤ digitsValFrom p ds := by
  induction ds with
  | nil => intro p; simp [digitsValFrom]
  | cons c cs ih =>
    intro p
    have h := ih (p * 10 + (c.toNat - 48))
    simp only [digitsValFrom, List.foldl] at h ⊢
    omega

theorem digitsValFrom_cons (p : Nat) (c : Char) (ds : List Char) :
    digitsValFrom p (c :: ds) = digitsValFrom (p * 10 + (c.toNat - 48)) ds := rfl

theorem digitsTakeN_append : ∀ (cap : Option Nat) (s : List Char),
    (digitsTakeN cap s).1 ++ (digitsTakeN cap s).2 = s := by
  intro cap s
  induction s generalizing cap with
  | nil => cases cap <;> simp [digitsTakeN]
  | cons c cs ih =>
    match cap with
    | none =>
      simp only [digitsTakeN]
      split
      · simpa using ih none
      · simp
    | some 0 => simp [digitsTakeN]
    | some (k + 1) =>
      simp only [digitsTakeN]
      split
      · simpa using ih (some k)
      · simp

theorem tdiv_of_neg (kmin : Int) (hk : kmin < 0) : Int.tdiv kmin 10 = -((-kmin) / 10) := by
  have h1 : Int.tdiv (-(-kmin)) 10 = -(Int.tdiv (-kmin) 10) := Int.neg_tdiv (-kmin) 10
  have h2 : Int.tdiv (-kmin) 10 = (-kmin) / 10 := Int.tdiv_eq_ediv (by omega) (by norm_num)
  simp only [neg_neg] at h1
  omega

/-- Full characterization of the `ParseInt` digit loop against the greedy
capped digit run: with accumulated magnitude `p ≤ -kmin`, either the run's
value stays within the representable magnitude `-kmin` and the loop returns
exactly the run's (negated) value with the rest of the input, or the loop
fails and the run's value exceeds `-kmin`. -/
theorem ParseIntLoop_char (kmin : Int) (hk : kmin < 0) :
    ∀ (s : List Char) (w : Int) (p : Nat), p ≤ -kmin →
    ((digitsValFrom p (digitsTakeN (capOf w) s).1 : Int) ≤ -kmin →
      ParseIntLoop kmin s w (-(p : Int)) =
        some (-(digitsValFrom p (digitsTakeN (capOf w) s).1 : Int), (digitsTakeN (capOf w) s).2)) ∧
    (ParseIntLoop kmin s w (-(p : Int)) = none →
      -kmin + 1 ≤ (digitsValFrom p (digitsTakeN (capOf w) s).1 : Int)) := by
  have htd := tdiv_of_neg kmin hk
  intro s
  induction s with
  | nil =>
    intro w p hp
    constructor
    · intro _
      simp [ParseIntLoop, digitsTakeN]
      cases h : capOf w <;> simp [digitsTakeN, digitsValFrom]
    · intro hnone
      simp [ParseIntLoop] at hnone
  | cons c cs ih =>
    intro w p hp
    by_cases hd : (48 : Int) ≤ (c.toNat : Int) - 48 + 48 ∧ (c.toNat : Int) - 48 < 10
    case neg =>
      -- c is not a digit: the loop and the run both stop immediately
      have hnd : ((c.toNat : Int) - 48 < 0 ∨ 10 ≤ (c.toNat : Int) - 48) := by omega
      have hloop : ParseIntLoop kmin (c :: cs) w (-(p : Int)) = some (-(p : Int), c :: cs) := by
        simp only [ParseIntLoop]
        rw [if_pos hnd]
      have hrun : (digitsTakeN (capOf w) (c :: cs)).1 = [] ∧
          (digitsTakeN (capOf w) (c :: cs)).2 = c :: cs := by
        have hcd : ¬ (48 ≤ c.toNat ∧ c.toNat ≤ 57) := by omega
        cases hcap : capOf w with
        | none => simp [digitsTakeN, hcd]
        | some k =>
          cases k with
          | zero => simp [digitsTakeN]
          | succ k' => simp [digitsTakeN, hcd]
      constructor
      · intro _
        rw [hloop, hrun.1, hrun.2]
        simp [digitsValFrom]
      · intro hnone
        rw [hloop] at hnone
        exact absurd hnone (by simp)
    case pos =>
      -- c is a digit
      have hcd : 48 ≤ c.toNat ∧ c.toNat ≤ 57 := by omega
      set d : Int := (c.toNat : Int) - 48 with hdint
      have hd09 : 0 ≤ d ∧ d ≤ 9 := by omega
      have hndfalse : ¬ (d < 0 ∨ 10 ≤ d) := by omega
      -- the greedy run takes c then continues with the decremented cap
      have hrun : ∀ k : Option Nat, k ≠ some 0 →
          digitsTakeN k (c :: cs) =
            (c :: (digitsTakeN (k.map fun x => x - 1) cs).1,
             (digitsTakeN (k.map fun x => x - 1) cs).2) := by
        intro k hk0
        match k with
        | none => simp [digitsTakeN, hcd]
        | some 0 => exact absurd rfl hk0
        | some (x + 1) => simp [digitsTakeN, hcd]
      have hcap0 : capOf w ≠ some 0 := by
        unfold capOf
        split
        · simp
        · rename_i hw
          simp
          omega
      rw [hrun (capOf w) hcap0]
      set p' : Nat := p * 10 + (c.toNat - 48) with hp'
      have hpd : (p' : Int) = (p : Int) * 10 + d := by
        simp only [hp', hdint]
        push_cast
        omega
      by_cases hg1 : -(p : Int) < Int.tdiv kmin 10
      case pos =>
        -- first overflow guard fires
        have hloop : ParseIntLoop kmin (c :: cs) w (-(p : Int)) = none := by
          simp only [ParseIntLoop]
          rw [if_neg hndfalse, if_pos hg1]
        have hbig : -kmin + 1 ≤ (p' : Int) := by
          rw [htd] at hg1
          omega
        have hmono : p' ≤ digitsValFrom p' (digitsTakeN ((capOf w).map fun x => x - 1) cs).1 :=
          digitsValFrom_ge _ p'
        constructor
        · intro hle
          rw [digitsValFrom_cons, ← hp'] at hle
          omega
        · intro _
          rw [digitsValFrom_cons, ← hp']
          omega
      case neg =>
        by_cases hg2 : -(p : Int) * 10 < kmin + d
        case pos =>
          -- second overflow guard fires
          have hloop : ParseIntLoop kmin (c :: cs) w (-(p : Int)) = none := by
            simp only [ParseIntLoop]
            rw [if_neg hndfalse, if_neg hg1, if_pos hg2]
          have hbig : -kmin + 1 ≤ (p' : Int) := by omega
          have hmono : p' ≤ digitsValFrom p' (digitsTakeN ((capOf w).map fun x => x - 1) cs).1 :=
            digitsValFrom_ge _ p'
          constructor
          · intro hle
            rw [digitsValFrom_cons, ← hp'] at hle
            omega
          · intro _
            rw [digitsValFrom_cons, ← hp']
            omega
        case neg =>
          have hp'le : (p' : Int) ≤ -kmin := by omega
          have hval : -(p : Int) * 10 - d = -(p' : Int) := by omega
          by_cases hw1 : w = 1
          case pos =>
            -- width exhausted after this digit: the loop stops here
            have hloop : ParseIntLoop kmin (c :: cs) w (-(p : Int)) =
                some (-(p' : Int), cs) := by
              simp only [ParseIntLoop]
              rw [if_neg hndfalse, if_neg hg1, if_neg hg2, if_pos hw1, hval]
            have hcapw : (capOf w).map (fun x => x - 1) = some 0 := by
              subst hw1
              simp [capOf]
            have hrest : digitsTakeN (some 0) cs = ([], cs) := by
              cases cs <;> simp [digitsTakeN]
            constructor
            · intro _
              rw [hloop, hcapw, hrest, digitsValFrom_cons, ← hp']
              simp [digitsValFrom]
            · intro hnone
              rw [hloop] at hnone
              exact absurd hnone (by simp)
          case neg =>
            -- consume the digit and continue
            have hloop : ParseIntLoop kmin (c :: cs) w (-(p : Int)) =
                ParseIntLoop kmin cs (if w > 1 then w - 1 else w) (-(p' : Int)) := by
              simp only [ParseIntLoop]
              rw [if_neg hndfalse, if_neg hg1, if_neg hg2, if_neg hw1, hval]
            have hcapeq : capOf (if w > 1 then w - 1 else w) = (capOf w).map fun x => x - 1 := by
              by_cases hw2 : w > 1
              · rw [if_pos hw2]
                unfold capOf
                rw [if_neg (by omega), if_neg (by omega)]
                simp
              · rw [if_neg hw2]
                unfold capOf
                have hwle : w ≤ 0 := by omega
                rw [if_pos hwle]
                simp
            have hp'nat : p' ≤ (-kmin).toNat := by omega
            have ihres := ih (if w > 1 then w - 1 else w) p' (by omega)
            rw [hcapeq] at ihres
            constructor
            · intro hle
              rw [digitsValFrom_cons, ← hp'] at hle ⊢
              rw [hloop]
              exact ihres.1 hle
            · intro hnone
              rw [hloop] at hnone
              rw [digitsValFrom_cons, ← hp']
              exact ihres.2 hnone

/-- A successful run of the `ParseInt` digit loop always consumes exactly the
greedy capped digit run and returns its (negated) value. -/
theorem ParseIntLoop_some (kmin : Int) :
    ∀ (s : List Char) (w : Int) (p : Nat) (v : Int) (r : List Char),
    ParseIntLoop kmin s w (-(p : Int)) = some (v, r) →
    v = -(digitsValFrom p (digitsTakeN (capOf w) s).1 : Int) ∧
    r = (digitsTakeN (capOf w) s).2 := by
  intro s
  induction s with
  | nil =>
    intro w p v r hsome
    simp [ParseIntLoop] at hsome
    obtain ⟨hv, hr⟩ := hsome
    have h1 : digitsTakeN (capOf w) ([] : List Char) = ([], []) := by
      cases capOf w <;> simp [digitsTakeN]
    rw [h1, hr]
    exact ⟨hv.symm, rfl⟩
  | cons c cs ih =>
    intro w p v r hsome
    by_cases hd : (48 : Int) ≤ (c.toNat : Int) - 48 + 48 ∧ (c.toNat : Int) - 48 < 10
    case neg =>
      have hnd : ((c.toNat : Int) - 48 < 0 ∨ 10 ≤ (c.toNat : Int) - 48) := by omega
      have hcd : ¬ (48 ≤ c.toNat ∧ c.toNat ≤ 57) := by omega
      simp only [ParseIntLoop] at hsome
      rw [if_pos hnd] at hsome
      have hrun : (digitsTakeN (capOf w) (c :: cs)).1 = [] ∧
          (digitsTakeN (capOf w) (c :: cs)).2 = c :: cs := by
        cases hcap : capOf w with
        | none => simp [digitsTakeN, hcd]
        | some k =>
          cases k with
          | zero => simp [digitsTakeN]
          | succ k' => simp [digitsTakeN, hcd]
      simp at hsome
      rw [hrun.1, hrun.2]
      simpa [digitsValFrom, hsome.1.symm, hsome.2.symm] using And.intro rfl rfl
    case pos =>
      have hcd : 48 ≤ c.toNat ∧ c.toNat ≤ 57 := by omega
      set d : Int := (c.toNat : Int) - 48 with hdint
      have hndfalse : ¬ (d < 0 ∨ 10 ≤ d) := by omega
      have hrun : ∀ k : Option Nat, k ≠ some 0 →
          digitsTakeN k (c :: cs) =
            (c :: (digitsTakeN (k.map fun x => x - 1) cs).1,
             (digitsTakeN (k.map fun x => x - 1) cs).2) := by
        intro k hk0
        match k with
        | none => simp [digitsTakeN, hcd]
        | some 0 => exact absurd rfl hk0
        | some (x + 1) => simp [digitsTakeN, hcd]
      have hcap0 : capOf w ≠ some 0 := by
        unfold capOf
        split
        · simp
        · rename_i hw
          simp
          omega
      rw [hrun (capOf w) hcap0]
      set p' : Nat := p * 10 + (c.toNat - 48) with hp'
      have hval : -(p : Int) * 10 - d = -(p' : Int) := by
        simp only [hp', hdint]
        push_cast
        omega
      simp only [ParseIntLoop] at hsome
      rw [if_neg hndfalse] at hsome
      by_cases hg1 : -(p : Int) < Int.tdiv kmin 10
      case pos => rw [if_pos hg1] at hsome; exact absurd hsome (by simp)
      case neg =>
        rw [if_neg hg1] at hsome
        by_cases hg2 : -(p : Int) * 10 < kmin + d
        case pos => rw [if_pos hg2] at hsome; exact absurd hsome (by simp)
        case neg =>
          rw [if_neg hg2] at hsome
          by_cases hw1 : w = 1
          case pos =>
            rw [if_pos hw1, hval] at hsome
            have hcapw : (capOf w).map (fun x => x - 1) = some 0 := by
              subst hw1
              simp [capOf]
            have hrest : digitsTakeN (some 0) cs = ([], cs) := by
              cases cs <;> simp [digitsTakeN]
            rw [hcapw, hrest]
            simp at hsome
            rw [digitsValFrom_cons, ← hp']
            simpa [digitsValFrom, hsome.1.symm, hsome.2.symm] using And.intro rfl rfl
          case neg =>
            rw [if_neg hw1, hval] at hsome
            have hcapeq : capOf (if w > 1 then w - 1 else w) = (capOf w).map fun x => x - 1 := by
              by_cases hw2 : w > 1
              · rw [if_pos hw2]
                unfold capOf
                rw [if_neg (by omega), if_neg (by omega)]
                simp
              · rw [if_neg hw2]
                unfold capOf
                have hwle : w ≤ 0 := by omega
                rw [if_pos hwle]
                simp
            have ihres := ih (if w > 1 then w - 1 else w) p' v r hsome
            rw [hcapeq] at ihres
            rw [digitsValFrom_cons, ← hp']
            exact ihres

/-- `ParseIntAfterSign` against the spec-side description: it consumes the
greedy capped digit run and fails exactly on an empty run, a negative zero,
or a value outside `[mn, mx]` (given that `[mn, mx]` lies within the
destination type's range). -/
theorem ParseIntAfterSign_char (kmin mn mx : Int) (neg : Bool) (w : Int) (s1 : List Char)
    (hk : kmin < 0) (hmn : kmin ≤ mn) (hmx : mx ≤ -kmin - 1) :
    ParseIntAfterSign kmin mn mx neg w s1 =
      (if (digitsTakeN (capOf w) s1).1 = [] then none
       else if neg = true ∧ (digitsValFrom 0 (digitsTakeN (capOf w) s1).1 : Int) = 0 then none
       else if mn ≤ (if neg then -(digitsValFrom 0 (digitsTakeN (capOf w) s1).1 : Int)
                     else (digitsValFrom 0 (digitsTakeN (capOf w) s1).1 : Int)) ∧
               (if neg then -(digitsValFrom 0 (digitsTakeN (capOf w) s1).1 : Int)
                else (digitsValFrom 0 (digitsTakeN (capOf w) s1).1 : Int)) ≤ mx then
         some ((if neg then -(digitsValFrom 0 (digitsTakeN (capOf w) s1).1 : Int)
                else (digitsValFrom 0 (digitsTakeN (capOf w) s1).1 : Int)),
               (digitsTakeN (capOf w) s1).2)
       else none) := by
  have hchar := ParseIntLoop_char kmin hk s1 w 0 (by omega)
  simp only [Nat.cast_zero, neg_zero] at hchar
  set run := (digitsTakeN (capOf w) s1).1 with hrundef
  set rest := (digitsTakeN (capOf w) s1).2 with hrestdef
  have happ : run ++ rest = s1 := digitsTakeN_append (capOf w) s1
  set V : Nat := digitsValFrom 0 run with hVdef
  cases hl : ParseIntLoop kmin s1 w 0 with
  | none =>
    have hstep : ParseIntAfterSign kmin mn mx neg w s1 = none := by
      unfold ParseIntAfterSign
      rw [hl]
    rw [hstep]
    have hbig : -kmin + 1 ≤ (V : Int) := hchar.2 hl
    have hrne : run ≠ [] := by
      intro hc
      rw [hc] at hVdef
      simp [digitsValFrom] at hVdef
      omega
    rw [if_neg hrne]
    rw [if_neg (by
      intro hcontra
      have := hcontra.2
      omega)]
    rw [if_neg (by
      intro hcontra
      rcases hcontra with ⟨h1, h2⟩
      cases neg <;> simp only [if_true, if_false, Bool.false_eq_true] at h1 h2 <;> omega)]
  | some vr =>
    have hstep : ParseIntAfterSign kmin mn mx neg w s1 =
        (if vr.2.length = s1.length then none
         else if ¬ neg ∧ vr.1 = kmin then none
         else if neg ∧ vr.1 = 0 then none
         else if mn ≤ (if ¬ neg then -vr.1 else vr.1) ∧ (if ¬ neg then -vr.1 else vr.1) ≤ mx
           then some ((if ¬ neg then -vr.1 else vr.1), vr.2) else none) := by
      unfold ParseIntAfterSign
      rw [hl]
    rw [hstep]
    have hvr := ParseIntLoop_some kmin s1 w 0 vr.1 vr.2 (by simpa using hl)
    rw [← hrundef, ← hrestdef, ← hVdef] at hvr
    obtain ⟨hv1, hv2⟩ := hvr
    have hlen : vr.2.length = s1.length ↔ run = [] := by
      constructor
      · intro heq
        rw [hv2] at heq
        have hsl : s1.length = run.length + rest.length := by
          conv_lhs => rw [← happ]
          simp
        rcases run with _ | ⟨x, xs⟩
        · rfl
        · simp at hsl
          omega
      · intro hempty
        rw [hv2]
        conv_rhs => rw [← happ, hempty]
        simp
    by_cases hrnil : run = []
    · rw [if_pos (hlen.2 hrnil), if_pos hrnil]
    · rw [if_neg (fun hcontra => hrnil (hlen.1 hcontra)), if_neg hrnil]
      simp only [hv1, hv2]
      cases neg with
      | false =>
        simp only [Bool.false_eq_true, not_false_eq_true, true_and, false_and, if_false,
          if_true, neg_neg]
        by_cases hkm : -(V : Int) = kmin
        · rw [if_pos hkm]
          rw [if_neg (by omega)]
        · rw [if_neg hkm]
      | true =>
        simp only [Bool.false_eq_true, not_true_eq_false, false_and, true_and, if_false,
          if_true, neg_neg]
        by_cases hV0 : (V : Int) = 0
        · rw [if_pos (by omega), if_pos hV0]
        · rw [if_neg (by omega), if_neg hV0]

theorem digitsTakeN_zero (l : List Char) : digitsTakeN (some 0) l = ([], l) := by
  cases l <;> simp [digitsTakeN]

/-! ## Calendar lemmas: the era decomposition is a bijection -/

theorem yoe_facts (doe : Nat) (h : doe ≤ 146096) :
    Nat.findGreatest (fun y => yearStartOfEra y ≤ doe) 399 ≤ 399 ∧
    yearStartOfEra (Nat.findGreatest (fun y => yearStartOfEra y ≤ doe) 399) ≤ doe ∧
    (Nat.findGreatest (fun y => yearStartOfEra y ≤ doe) 399 < 399 →
      doe < yearStartOfEra (Nat.findGreatest (fun y => yearStartOfEra y ≤ doe) 399 + 1)) := by
  refine ⟨Nat.findGreatest_le 399, ?_, ?_⟩
  · exact @Nat.findGreatest_spec 0 (fun y => yearStartOfEra y ≤ doe) _ 399
      (Nat.zero_le 399) (by norm_num [yearStartOfEra])
  · intro hlt
    have hng := Nat.findGreatest_is_greatest
      (show Nat.findGreatest (fun y => yearStartOfEra y ≤ doe) 399 <
          Nat.findGreatest (fun y => yearStartOfEra y ≤ doe) 399 + 1 from Nat.lt_succ_self _)
      (show Nat.findGreatest (fun y => yearStartOfEra y ≤ doe) 399 + 1 ≤ 399 by omega)
    have hng2 : ¬ yearStartOfEra (Nat.findGreatest (fun y => yearStartOfEra y ≤ doe) 399 + 1) ≤
        doe := hng
    omega

/-- The day-of-era of a `civilFromDays` decomposition stays within one
march-based year (at most 365 days past the year start). -/
theorem doy_bound (doe : Nat) (h : doe ≤ 146096) :
    doe - yearStartOfEra (Nat.findGreatest (fun y => yearStartOfEra y ≤ doe) 399) ≤ 365 := by
  obtain ⟨h1, h2, h3⟩ := yoe_facts doe h
  set yoe := Nat.findGreatest (fun y => yearStartOfEra y ≤ doe) 399 with hy
  by_cases hcase : yoe < 399
  · have h4 := h3 hcase
    have hgap : yearStartOfEra (yoe + 1) ≤ yearStartOfEra yoe + 366 := by
      unfold yearStartOfEra
      omega
    omega
  · have h399 : yoe = 399 := by omega
    rw [h399]
    have h145731 : yearStartOfEra 399 = 145731 := by decide
    omega

/-- Left inverse: `daysFromCivil` undoes `civilFromDays`, and the produced
month and day fields lie in their usual ranges. -/
theorem civilFromDays_facts (z : Int) :
    daysFromCivil (civilFromDays z).1 (civilFromDays z).2.1 (civilFromDays z).2.2 = z ∧
    1 ≤ (civilFromDays z).2.1 ∧ (civilFromDays z).2.1 ≤ 12 ∧
    1 ≤ (civilFromDays z).2.2 ∧ (civilFromDays z).2.2 ≤ 31 := by
  have hmod : 0 ≤ (z + 719468) % 146097 ∧ (z + 719468) % 146097 < 146097 := by omega
  have hdiv : (z + 719468) / 146097 * 146097 + (z + 719468) % 146097 = z + 719468 := by omega
  simp only [civilFromDays]
  set a : Int := z + 719468 with ha
  set era : Int := a / 146097 with hera
  set doe : Nat := (a % 146097).toNat with hdoe
  have hdoeI : (doe : Int) = a % 146097 := by omega
  have hdoele : doe ≤ 146096 := by omega
  obtain ⟨hy1, hy2, hy3⟩ := yoe_facts doe hdoele
  have hdoy := doy_bound doe hdoele
  set yoe := Nat.findGreatest (fun y => yearStartOfEra y ≤ doe) 399 with hyoe
  set doy : Nat := doe - yearStartOfEra yoe with hdoyd
  set mp : Nat := (5 * doy + 2) / 153 with hmp
  have hmp11 : mp ≤ 11 := by
    rw [hmp]
    omega
  have hbase : (153 * mp + 2) / 5 ≤ doy := by
    rw [hmp]
    omega
  have hd31 : doy - (153 * mp + 2) / 5 + 1 ≤ 31 := by
    rw [hmp]
    omega
  set d : Nat := doy - (153 * mp + 2) / 5 + 1 with hd
  set m : Nat := if mp < 10 then mp + 3 else mp - 9 with hm
  have hm112 : 1 ≤ m ∧ m ≤ 12 := by
    rw [hm]
    split <;> omega
  have hmadj : ((m : Int) ≤ 2) ↔ 10 ≤ mp := by
    rw [hm]
    split <;> (push_cast; omega)
  refine ⟨?_, by push_cast; omega, by push_cast; omega, by push_cast; omega, by push_cast; omega⟩
  simp only [daysFromCivil]
  -- the year written back, minus the Jan/Feb adjustment, is era*400 + yoe
  have hyr : (if (m : Int) ≤ 2 then era * 400 + (yoe : Int) + (if m ≤ 2 then (1 : Int) else 0) - 1
      else era * 400 + (yoe : Int) + (if m ≤ 2 then (1 : Int) else 0)) = era * 400 + yoe := by
    by_cases hmle : (m : Int) ≤ 2
    · rw [if_pos hmle, if_pos (by exact_mod_cast hmle)]
      omega
    · rw [if_neg hmle, if_neg (by exact_mod_cast hmle)]
      omega
  rw [show (if (m : Int) ≤ 2 then
        era * 400 + (yoe : Int) + (if m ≤ 2 then (1 : Int) else 0) - 1
      else era * 400 + (yoe : Int) + (if m ≤ 2 then (1 : Int) else 0)) =
      era * 400 + yoe from hyr]
  have hera400 : (era * 400 + (yoe : Int)) / 400 = era := by omega
  rw [hera400]
  have hyoeback : (era * 400 + (yoe : Int) - era * 400).toNat = yoe := by omega
  rw [hyoeback]
  have hmpback : ((if 2 < (m : Int) then (m : Int) - 3 else (m : Int) + 9)).toNat = mp := by
    rw [hm]
    by_cases hmp10 : mp < 10
    · rw [if_pos (by rw [if_pos hmp10]; push_cast; omega)]
      rw [if_pos hmp10]
      push_cast
      omega
    · rw [if_neg (by rw [if_neg hmp10]; push_cast; omega)]
      rw [if_neg hmp10]
      push_cast
      omega
  rw [hmpback]
  have hfd : (yearStartOfEra yoe : Int) + ((((153 * mp + 2) / 5 : Nat) : Int) + (d : Int) - 1) =
      (doe : Int) := by
    have hfdoy : yearStartOfEra yoe + doy = doe := by omega
    push_cast
    omega
  omega

/-- Round trip: `toUnix` undoes `fromUnixCivil`. -/
theorem toUnix_fromUnixCivil (t : Int) : toUnix (fromUnixCivil t) = t := by
  simp only [fromUnixCivil, toUnix]
  rw [(civilFromDays_facts (t / 86400)).1]
  omega

/-- Field ranges of `fromUnixCivil`. -/
theorem fromUnixCivil_ranges (t : Int) :
    1 ≤ (fromUnixCivil t).m ∧ (fromUnixCivil t).m ≤ 12 ∧
    1 ≤ (fromUnixCivil t).d ∧ (fromUnixCivil t).d ≤ 31 ∧
    0 ≤ (fromUnixCivil t).hh ∧ (fromUnixCivil t).hh ≤ 23 ∧
    0 ≤ (fromUnixCivil t).mi ∧ (fromUnixCivil t).mi ≤ 59 ∧
    0 ≤ (fromUnixCivil t).ss ∧ (fromUnixCivil t).ss ≤ 59 := by
  obtain ⟨_, hm1, hm2, hd1, hd2⟩ := civilFromDays_facts (t / 86400)
  simp only [fromUnixCivil]
  refine ⟨hm1, hm2, hd1, hd2, ?_, ?_, ?_, ?_, ?_, ?_⟩ <;> omega

/-- A year in `[-999, 9999]` pins the day serial number to a small range. -/
theorem civilFromDays_year_bound (z : Int) (h1 : -999 ≤ (civilFromDays z).1)
    (h2 : (civilFromDays z).1 ≤ 9999) : -2000000 ≤ z ∧ z ≤ 3000000 := by
  have hdoele : ((z + 719468) % 146097).toNat ≤ 146096 := by omega
  have hyoe := (yoe_facts ((z + 719468) % 146097).toNat hdoele).1
  simp only [civilFromDays] at h1 h2
  set doe : Nat := ((z + 719468) % 146097).toNat with hdoe
  set yoe : Nat := Nat.findGreatest (fun y => yearStartOfEra y ≤ doe) 399 with hyoe2
  set mp : Nat := (5 * (doe - yearStartOfEra yoe) + 2) / 153 with hmp
  set m : Nat := if mp < 10 then mp + 3 else mp - 9 with hm
  have hadjb : (0 : Int) ≤ (if m ≤ 2 then (1 : Int) else 0) ∧
      (if m ≤ 2 then (1 : Int) else 0) ≤ 1 := by
    by_cases hc : m ≤ 2
    · rw [if_pos hc]
      norm_num
    · rw [if_neg hc]
      norm_num
  omega

/-- A year in `[-999, 9999]` keeps the instant far inside the 64-bit range. -/
theorem fromUnixCivil_year_t_bound (t : Int) (h1 : -999 ≤ (fromUnixCivil t).y)
    (h2 : (fromUnixCivil t).y ≤ 9999) :
    -200000000000 ≤ t ∧ t ≤ 300000000000 := by
  have hb := civilFromDays_year_bound (t / 86400)
    (by simpa [fromUnixCivil] using h1) (by simpa [fromUnixCivil] using h2)
  omega

/-- Rebuilding a civil second from the six fields of `fromUnixCivil` is the
identity: normalization does not move any field. -/
theorem civilFromFields_fromUnix (t : Int) :
    civilFromFields (fromUnixCivil t).y (fromUnixCivil t).m (fromUnixCivil t).d
      (fromUnixCivil t).hh (fromUnixCivil t).mi (fromUnixCivil t).ss = fromUnixCivil t := by
  obtain ⟨hdays, hm1, hm2, hd1, hd2⟩ := civilFromDays_facts (t / 86400)
  have htod : 0 ≤ t % 86400 ∧ t % 86400 ≤ 86399 := by omega
  simp only [fromUnixCivil, civilFromFields]
  have hmo : ((civilFromDays (t / 86400)).2.1 - 1) / 12 = 0 := by omega
  have hmomod : ((civilFromDays (t / 86400)).2.1 - 1) % 12 + 1 =
      (civilFromDays (t / 86400)).2.1 := by omega
  rw [hmo, hmomod, add_zero]
  set tod : Nat := (t % 86400).toNat with htodd
  have htsum : (↑(tod / 3600) : Int) * 3600 + ↑(tod % 3600 / 60) * 60 + ↑(tod % 60) = ↑tod := by
    omega
  rw [htsum]
  have hshift : (tod : Int) / 86400 = 0 := by omega
  have hmod2 : ((tod : Int) % 86400).toNat = tod := by omega
  rw [hshift, hmod2, hdays, add_zero]

/-! ## Claim C8: the integer decoder -/

/-- Claim C8, counterexample: on input `"-0"` with width 0 and range `[-5, 5]`
(destination type `int`), a digit is consumed and the accumulated value 0 lies
inside the range — the spec-side decoder accepts — yet `ParseInt` fails
(the source rejects a negative zero). -/
theorem claim8_counterexample :
    ParseInt intMin32 0 (-5) 5 ['-', '0'] = none ∧
    parseIntSpec 0 (-5) 5 ['-', '0'] = some (0, []) := by
  constructor
  · rfl
  · rfl

/-- Claim C8 (amended): for every destination type (given by its smallest
value `kmin`), every bound pair `[mn, mx]` within the type's range, every
nonnegative width and every input, `ParseInt` behaves exactly as the
specification's greedy decoder — optional `-` counted against a positive
width, at most `width` digits (0 = uncapped), failure exactly when no digit
was consumed or the value leaves `[mn, mx]` — except that an input whose sign
is `-` and whose digit run has value 0 is additionally rejected. -/
theorem claim8_parseint_decode (kmin width mn mx : Int) (s : List Char)
    (hk : kmin < 0) (hmn : kmin ≤ mn) (hmx : mx ≤ -kmin - 1) (hw : 0 ≤ width) :
    ParseInt kmin width mn mx s =
      ((parseIntSpec width mn mx s).bind fun vr =>
        if s.head? = some '-' ∧ vr.1 = 0 then none else some vr) := by
  by_cases hneg : s.head? = some '-'
  case pos =>
    rw [ParseInt, if_pos hneg]
    by_cases hw1 : width = 1
    case pos =>
      subst hw1
      rw [if_pos rfl]
      cases s with
      | nil => exact absurd hneg (by simp)
      | cons c t =>
        have hc : c = '-' := by simpa using hneg
        subst hc
        have hspec : parseIntSpec 1 mn mx ('-' :: t) = none := by
          simp [parseIntSpec, digitsTakeN_zero]
        rw [hspec]
        rfl
    case neg =>
      rw [if_neg hw1]
      rw [ParseIntAfterSign_char kmin mn mx true (if width > 1 then width - 1 else width)
        s.tail hk hmn hmx]
      have hcap : (if width ≤ 0 then (none : Option Nat) else some (width - 1).toNat) =
          capOf (if width > 1 then width - 1 else width) := by
        by_cases hw2 : width > 1
        · rw [if_pos hw2, if_neg (by omega)]
          unfold capOf
          rw [if_neg (by omega)]
        · have hw0 : width = 0 := by omega
          subst hw0
          simp [capOf]
      simp only [parseIntSpec, if_pos hneg, digitsValN]
      rw [hcap]
      set run := (digitsTakeN (capOf (if width > 1 then width - 1 else width)) s.tail).1 with hr1
      set rest := (digitsTakeN (capOf (if width > 1 then width - 1 else width)) s.tail).2 with hr2
      set V : Nat := digitsValFrom 0 run with hVd
      simp only [eq_self_iff_true, true_and, if_true]
      by_cases hrnil : run = []
      · simp [hrnil]
      · simp only [if_neg hrnil]
        by_cases hrange : mn ≤ -(V : Int) ∧ -(V : Int) ≤ mx
        · by_cases hV0 : (V : Int) = 0
          · have h0 : mn ≤ (0 : Int) ∧ (0 : Int) ≤ mx := by omega
            simp [hV0, hneg, h0]
          · simp [hrange, hV0]
        · simp [hrange]
  case neg =>
    rw [ParseInt, if_neg hneg]
    rw [ParseIntAfterSign_char kmin mn mx false width s hk hmn hmx]
    have hcap : (if width ≤ 0 then (none : Option Nat) else some (width - 0).toNat) =
        capOf width := by
      unfold capOf
      by_cases hw2 : width ≤ 0
      · rw [if_pos hw2, if_pos hw2]
      · rw [if_neg hw2, if_neg hw2]
        simp
    simp only [parseIntSpec, if_neg hneg, digitsValN]
    rw [hcap]
    set run := (digitsTakeN (capOf width) s).1 with hr1
    set rest := (digitsTakeN (capOf width) s).2 with hr2
    set V : Nat := digitsValFrom 0 run with hVd
    simp only [Bool.false_eq_true, false_and, if_false]
    by_cases hrnil : run = []
    · rw [if_pos hrnil]
      rfl
    · rw [if_neg hrnil]
      by_cases hrange : mn ≤ (V : Int) ∧ (V : Int) ≤ mx
      · rw [if_pos hrange, Option.some_bind]
        rw [if_neg (fun hc => hneg hc.1)]
      · rw [if_neg hrange]
        rfl

/-- Claim C8, witness: the amended characterization applied to the 2-digit
minute decoder on input `"59x"`. -/
theorem claim8_witness :
    (intMin32 < 0 ∧ intMin32 ≤ 0 ∧ (59 : Int) ≤ -intMin32 - 1 ∧ (0 : Int) ≤ 2) ∧
    ParseInt intMin32 2 0 59 ['5', '9', 'x'] =
      ((parseIntSpec 2 0 59 ['5', '9', 'x']).bind fun vr =>
        if ['5', '9', 'x'].head? = some '-' ∧ vr.1 = 0 then none else some vr) :=
  ⟨by decide,
   claim8_parseint_decode intMin32 2 0 59 ['5', '9', 'x'] (by decide) (by decide) (by decide)
     (by decide)⟩

/-! ## Claim C1: the offset shape table -/

/-- Claim C1, counterexample: `FormatOffset` with mode `":"` (the `%:z`
specifier) on offset 5445 yields `+01:30`, not the `+01:30:45` demanded by the
claim's table (mode `":"` has no `'*'` flag, so seconds are never rendered). -/
theorem claim1_counterexample :
    FormatOffset 5445 [':'] = "+01:30".toList ∧
    ¬ FormatOffset 5445 [':'] = "+01:30:45".toList := by
  decide

/-- Claim C1 (amended): for offsets {0, 3600, -3600, 5400, 5445, -5445} and the
four modes of `%z`, `%:z`, `%::z`, `%:::z`, `FormatOffset` yields, offset-major,
exactly +0000, +00:00, +00:00:00, +00, +0100, +01:00, +01:00:00, +01, -0100,
-01:00, -01:00:00, -01, +0130, +01:30, +01:30:00, +01:30, +0130, +01:30,
+01:30:45, +01:30:45, -0130, -01:30, -01:30:45, -01:30:45 (the two `%:z`
entries of the ±5445 rows render without seconds). -/
theorem claim1_offset_shape_table :
    FormatOffset 0 [] = "+0000".toList ∧
    FormatOffset 0 [':'] = "+00:00".toList ∧
    FormatOffset 0 [':', '*'] = "+00:00:00".toList ∧
    FormatOffset 0 [':', '*', ':'] = "+00".toList ∧
    FormatOffset 3600 [] = "+0100".toList ∧
    FormatOffset 3600 [':'] = "+01:00".toList ∧
    FormatOffset 3600 [':', '*'] = "+01:00:00".toList ∧
    FormatOffset 3600 [':', '*', ':'] = "+01".toList ∧
    FormatOffset (-3600) [] = "-0100".toList ∧
    FormatOffset (-3600) [':'] = "-01:00".toList ∧
    FormatOffset (-3600) [':', '*'] = "-01:00:00".toList ∧
    FormatOffset (-3600) [':', '*', ':'] = "-01".toList ∧
    FormatOffset 5400 [] = "+0130".toList ∧
    FormatOffset 5400 [':'] = "+01:30".toList ∧
    FormatOffset 5400 [':', '*'] = "+01:30:00".toList ∧
    FormatOffset 5400 [':', '*', ':'] = "+01:30".toList ∧
    FormatOffset 5445 [] = "+0130".toList ∧
    FormatOffset 5445 [':'] = "+01:30".toList ∧
    FormatOffset 5445 [':', '*'] = "+01:30:45".toList ∧
    FormatOffset 5445 [':', '*', ':'] = "+01:30:45".toList ∧
    FormatOffset (-5445) [] = "-0130".toList ∧
    FormatOffset (-5445) [':'] = "-01:30".toList ∧
    FormatOffset (-5445) [':', '*'] = "-01:30:45".toList ∧
    FormatOffset (-5445) [':', '*', ':'] = "-01:30:45".toList := by
  decide

end CCTZ

/-! ## Claim C5: trailing data -/

/-- Claim C5: `parseFinish` (the stage every successful `parse` passes
through) fails with "Illegal trailing data in input string" whenever the
remaining input still holds a non-whitespace character after the final strip,
and a success implies the stripped remainder was empty; consequently a
successful `parse` consumed the entire input up to trailing whitespace. -/
theorem claim5_trailing_data :
    (∀ (st : CCTZ.ParseState) (rem : List Char) (tz : CCTZ.TimeZone),
      rem.dropWhile (fun x => CCTZ.isSpace x) ≠ [] →
      CCTZ.parseFinish st rem tz = Except.error "Illegal trailing data in input string") ∧
    (∀ (st : CCTZ.ParseState) (rem : List Char) (tz : CCTZ.TimeZone) (r : Int × Int),
      CCTZ.parseFinish st rem tz = Except.ok r →
      rem.dropWhile (fun x => CCTZ.isSpace x) = []) ∧
    (∀ (sp : CCTZ.Strptime) (fmt inp : List Char) (tz : CCTZ.TimeZone) (r : Int × Int),
      CCTZ.parse sp fmt inp tz = Except.ok r →
      ∃ st rem, CCTZ.parseLoop sp fmt.length fmt
          (inp.dropWhile (fun x => CCTZ.isSpace x)) CCTZ.initParseState =
            Except.ok (st, rem) ∧
        rem.dropWhile (fun x => CCTZ.isSpace x) = []) := by
  have h1 : ∀ (st : CCTZ.ParseState) (rem : List Char) (tz : CCTZ.TimeZone),
      rem.dropWhile (fun x => CCTZ.isSpace x) ≠ [] →
      CCTZ.parseFinish st rem tz = Except.error "Illegal trailing data in input string" := by
    intro st rem tz hne
    simp only [CCTZ.parseFinish]
    rw [if_pos hne]
  have h2 : ∀ (st : CCTZ.ParseState) (rem : List Char) (tz : CCTZ.TimeZone) (r : Int × Int),
      CCTZ.parseFinish st rem tz = Except.ok r →
      rem.dropWhile (fun x => CCTZ.isSpace x) = [] := by
    intro st rem tz r hok
    by_cases hne : rem.dropWhile (fun x => CCTZ.isSpace x) ≠ []
    · rw [h1 st rem tz hne] at hok
      exact absurd hok (by simp)
    · simpa using hne
  refine ⟨h1, h2, ?_⟩
  intro sp fmt inp tz r hok
  unfold CCTZ.parse at hok
  cases hl : CCTZ.parseLoop sp fmt.length fmt
      (inp.dropWhile (fun x => CCTZ.isSpace x)) CCTZ.initParseState with
  | error e => rw [hl] at hok; exact absurd hok (by simp)
  | ok sr =>
    rw [hl] at hok
    obtain ⟨st0, rem0⟩ := sr
    exact ⟨st0, rem0, rfl, h2 st0 rem0 tz r hok⟩

/-- Claim C5, witness: the first conjunct applied to the initial state, the
remainder `"x"`, and the UTC zone. -/
theorem claim5_witness :
    (['x'].dropWhile (fun x => CCTZ.isSpace x) ≠ []) ∧
    CCTZ.parseFinish CCTZ.initParseState ['x'] CCTZ.utcTimeZone =
      Except.error "Illegal trailing data in input string" :=
  ⟨by decide, claim5_trailing_data.1 CCTZ.initParseState ['x'] CCTZ.utcTimeZone (by decide)⟩

/-! ## Claim C6: %s overrides everything -/

/-- Claim C6: once the walk saw `%s`, finalization (after the trailing-data
check) returns `FromUnixSeconds` of the parsed value with zero femtoseconds,
ignoring all other fields, any parsed offset, and the caller zone; in
particular `parse "%Y %s" "1999 0"` yields the Unix epoch in any zone and
for any strptime collaborator. -/
theorem claim6_percent_s_overrides :
    (∀ (st : CCTZ.ParseState) (rem : List Char) (tz : CCTZ.TimeZone),
      st.saw_percent_s = true →
      rem.dropWhile (fun x => CCTZ.isSpace x) = [] →
      CCTZ.parseFinish st rem tz = Except.ok (CCTZ.FromUnixSeconds st.percent_s, 0)) ∧
    (∀ (sp : CCTZ.Strptime) (tz : CCTZ.TimeZone),
      CCTZ.parse sp "%Y %s".toList "1999 0".toList tz = Except.ok (0, 0)) := by
  constructor
  · intro st rem tz hs hrem
    simp only [CCTZ.parseFinish]
    rw [if_neg (by simpa using hrem)]
    have hs2 : (if st.twelve_hour = true ∧ st.afternoon = true ∧ st.tm.tm_hour < 12 then
        { st with tm := { st.tm with tm_hour := st.tm.tm_hour + 12 } }
      else st).saw_percent_s = true := by
      split <;> simpa using hs
    rw [if_pos hs2]
    have hp : (if st.twelve_hour = true ∧ st.afternoon = true ∧ st.tm.tm_hour < 12 then
        { st with tm := { st.tm with tm_hour := st.tm.tm_hour + 12 } }
      else st).percent_s = st.percent_s := by
      split <;> rfl
    rw [hp]
  · intro sp tz
    rfl

/-- Claim C6, witness: the first conjunct applied to a state that saw `%s`
with value 77, an empty remainder and the UTC zone. -/
theorem claim6_witness :
    (({ CCTZ.initParseState with
        saw_percent_s := true,
        percent_s := 77 } : CCTZ.ParseState).saw_percent_s = true ∧
      ([] : List Char).dropWhile (fun x => CCTZ.isSpace x) = []) ∧
    CCTZ.parseFinish
      { CCTZ.initParseState with
        saw_percent_s := true,
        percent_s := 77 }
      [] CCTZ.utcTimeZone = Except.ok (CCTZ.FromUnixSeconds 77, 0) :=
  ⟨⟨rfl, rfl⟩,
   claim6_percent_s_overrides.1 _ [] CCTZ.utcTimeZone rfl rfl⟩

/-! ## Claim C3: leap-second acceptance -/

/-- Claim C3: when the parsed second field is 60, finalization behaves exactly
as if the second were decremented, the offset decremented, and the subseconds
zeroed (carrying 23:59:60 to the following 00:00:00); in particular parsing
`2016-12-31T23:59:60` as UTC succeeds and yields the instant
2017-01-01T00:00:00Z (Unix 1483228800) with zero subseconds. -/
theorem claim3_leap_second :
    (∀ (st : CCTZ.ParseState) (rem : List Char) (tz : CCTZ.TimeZone),
      st.tm.tm_sec = 60 →
      CCTZ.parseFinish st rem tz =
        CCTZ.parseFinish
          { st with
            tm := { st.tm with tm_sec := st.tm.tm_sec - 1 },
            offset := st.offset - 1,
            subseconds := 0 } rem tz) ∧
    (∀ sp : CCTZ.Strptime,
      CCTZ.parse sp "%Y-%m-%dT%H:%M:%S".toList "2016-12-31T23:59:60".toList CCTZ.utcTimeZone =
        Except.ok (1483228800, 0)) := by
  constructor
  · intro st rem tz hsec
    obtain ⟨sy, yr, tm, sub, so, off, twe, af, sps, ps⟩ := st
    obtain ⟨t1, t2, t3, t4, t5, t6, t7, t8, t9⟩ := tm
    simp only at hsec
    subst hsec
    by_cases h12 : twe = true ∧ af = true ∧ t4 < 12
    · simp [CCTZ.parseFinish, h12]
    · simp [CCTZ.parseFinish, h12]
  · intro sp
    rfl

/-- Claim C3, witness: the general leap normalization applied to a state with
second field 60. -/
theorem claim3_witness :
    (({ CCTZ.initParseState with
        tm := { CCTZ.initParseState.tm with tm_sec := 60 } } : CCTZ.ParseState).tm.tm_sec = 60) ∧
    CCTZ.parseFinish
      { CCTZ.initParseState with
        tm := { CCTZ.initParseState.tm with tm_sec := 60 } } [] CCTZ.utcTimeZone =
      CCTZ.parseFinish
        { CCTZ.initParseState with
          tm := { CCTZ.initParseState.tm with tm_sec := 60 - 1 },
          offset := CCTZ.initParseState.offset - 1,
          subseconds := 0 } [] CCTZ.utcTimeZone :=
  ⟨rfl, claim3_leap_second.1 _ [] CCTZ.utcTimeZone rfl⟩

/-! ## Claim C4: normalization rejection -/

/-- Claim C4: once finalization reaches the CivilSecond built from the parsed
fields, it fails with "Out-of-range field" whenever normalization changed the
month or the day; in particular `2023-09-31` and `2023-02-29` are rejected. -/
theorem claim4_normalization_rejection :
    (∀ (st : CCTZ.ParseState) (rem : List Char) (tz : CCTZ.TimeZone),
      rem.dropWhile (fun x => CCTZ.isSpace x) = [] →
      st.saw_percent_s = false →
      st.twelve_hour = false →
      st.saw_year = true →
      st.tm.tm_sec ≠ 60 →
      ((CCTZ.civilFromFields st.year (st.tm.tm_mon + 1) st.tm.tm_mday st.tm.tm_hour
          st.tm.tm_min st.tm.tm_sec).m ≠ st.tm.tm_mon + 1 ∨
       (CCTZ.civilFromFields st.year (st.tm.tm_mon + 1) st.tm.tm_mday st.tm.tm_hour
          st.tm.tm_min st.tm.tm_sec).d ≠ st.tm.tm_mday) →
      CCTZ.parseFinish st rem tz = Except.error "Out-of-range field") ∧
    (∀ sp : CCTZ.Strptime,
      CCTZ.parse sp "%Y-%m-%d".toList "2023-09-31".toList CCTZ.utcTimeZone =
        Except.error "Out-of-range field") ∧
    (∀ sp : CCTZ.Strptime,
      CCTZ.parse sp "%Y-%m-%d".toList "2023-02-29".toList CCTZ.utcTimeZone =
        Except.error "Out-of-range field") := by
  refine ⟨?_, fun sp => rfl, fun sp => rfl⟩
  intro st rem tz hrem hs h12 hy hsec hnorm
  obtain ⟨sy, yr, tm, sub, so, off, twe, af, sps, ps⟩ := st
  obtain ⟨t1, t2, t3, t4, t5, t6, t7, t8, t9⟩ := tm
  simp only at hrem hs h12 hy hsec hnorm
  subst hs h12 hy
  simp only [CCTZ.parseFinish, Bool.false_eq_true, false_and, if_false, if_true,
    hrem, if_neg (by simp : ¬ (([] : List Char) ≠ []))]
  have hleap : (if t6 = 60 then (t6 - 1, off - 1, (0 : Int)) else (t6, off, sub)) =
      (t6, off, sub) := if_neg hsec
  rw [hleap]
  dsimp only
  rw [if_pos (by simpa using hnorm)]

/-- Claim C4, witness: the rejection applied to the parsed fields of
`2023-09-31` (month September, day 31). -/
theorem claim4_witness :
    (([] : List Char).dropWhile (fun x => CCTZ.isSpace x) = [] ∧
      ({ CCTZ.initParseState with
         saw_year := true,
         year := 2023,
         tm := { CCTZ.initParseState.tm with tm_mon := 8, tm_mday := 31 } } :
           CCTZ.ParseState).saw_percent_s = false) ∧
    CCTZ.parseFinish
      { CCTZ.initParseState with
        saw_year := true,
        year := 2023,
        tm := { CCTZ.initParseState.tm with tm_mon := 8, tm_mday := 31 } }
      [] CCTZ.utcTimeZone = Except.error "Out-of-range field" :=
  ⟨⟨rfl, rfl⟩,
   claim4_normalization_rejection.1 _ [] CCTZ.utcTimeZone rfl rfl rfl rfl (by decide)
     (by decide)⟩

/-! ## Claim C9: the %Z token is ignored -/

/-- The zone-name decoder consumes exactly a maximal non-space token. -/
theorem ParseZone_token (t rest : List Char) (ht : t ≠ [])
    (hns : ∀ c ∈ t, CCTZ.isSpace c = false)
    (hrest : rest = [] ∨ ∃ r rs, rest = r :: rs ∧ CCTZ.isSpace r = true) :
    CCTZ.ParseZone (t ++ rest) = some rest := by
  have hdrop : ∀ (u : List Char), (∀ c ∈ u, CCTZ.isSpace c = false) →
      (u ++ rest).dropWhile (fun c => ! CCTZ.isSpace c) = rest := by
    intro u
    induction u with
    | nil =>
      intro _
      rcases hrest with h | ⟨r, rs, hr, hsp⟩
      · simp [h]
      · simp [hr, List.dropWhile, hsp]
    | cons c u' ih =>
      intro hns2
      have hc : CCTZ.isSpace c = false := hns2 c (by simp)
      simp only [List.cons_append, List.dropWhile, hc]
      exact ih (fun x hx => hns2 x (by simp [hx]))
  unfold CCTZ.ParseZone
  rw [hdrop t hns]
  rw [if_neg (by
    rcases t with _ | ⟨a, t'⟩
    · exact absurd rfl ht
    · simp
      omega)]

set_option maxHeartbeats 1000000 in
/-- Claim C9: the token matched by `%Z` never influences the parse result:
at any point of the walk (any state, any remaining format after `%Z`, any
fuel) and for the whole of `parse`, two inputs that differ only in the
non-empty non-space token consumed by `%Z` parse identically. -/
theorem claim9_Z_token_ignored :
    (∀ (sp : CCTZ.Strptime) (fuel : Nat) (fmtS t1 t2 rest : List Char)
        (st : CCTZ.ParseState),
      t1 ≠ [] → t2 ≠ [] →
      (∀ c ∈ t1, CCTZ.isSpace c = false) → (∀ c ∈ t2, CCTZ.isSpace c = false) →
      (rest = [] ∨ ∃ r rs, rest = r :: rs ∧ CCTZ.isSpace r = true) →
      CCTZ.parseLoop sp (fuel + 1) ('%' :: 'Z' :: fmtS) (t1 ++ rest) st =
        CCTZ.parseLoop sp (fuel + 1) ('%' :: 'Z' :: fmtS) (t2 ++ rest) st) ∧
    (∀ (sp : CCTZ.Strptime) (fmtS t1 t2 rest : List Char) (tz : CCTZ.TimeZone),
      t1 ≠ [] → t2 ≠ [] →
      (∀ c ∈ t1, CCTZ.isSpace c = false) → (∀ c ∈ t2, CCTZ.isSpace c = false) →
      (rest = [] ∨ ∃ r rs, rest = r :: rs ∧ CCTZ.isSpace r = true) →
      CCTZ.parse sp ('%' :: 'Z' :: fmtS) (t1 ++ rest) tz =
        CCTZ.parse sp ('%' :: 'Z' :: fmtS) (t2 ++ rest) tz) := by
  have hstep : ∀ (sp : CCTZ.Strptime) (fuel : Nat) (fmtS t rest : List Char)
      (st : CCTZ.ParseState),
      t ≠ [] → (∀ c ∈ t, CCTZ.isSpace c = false) →
      (rest = [] ∨ ∃ r rs, rest = r :: rs ∧ CCTZ.isSpace r = true) →
      CCTZ.parseLoop sp (fuel + 1) ('%' :: 'Z' :: fmtS) (t ++ rest) st =
        CCTZ.parseLoop sp fuel fmtS rest st := by
    intro sp fuel fmtS t rest st ht hns hrest
    rcases t with _ | ⟨a, t'⟩
    · exact absurd rfl ht
    · have hone : CCTZ.parseLoop sp (fuel + 1) ('%' :: 'Z' :: fmtS)
          (a :: (t' ++ rest)) st =
          (match CCTZ.ParseZone (a :: (t' ++ rest)) with
           | none => CCTZ.parseErr
           | some r => CCTZ.parseLoop sp fuel fmtS r st) := rfl
      have hz := ParseZone_token (a :: t') rest (by simp) hns hrest
      rw [List.cons_append] at hz
      rw [List.cons_append, hone, hz]
  constructor
  · intro sp fuel fmtS t1 t2 rest st h1 h2 hns1 hns2 hrest
    rw [hstep sp fuel fmtS t1 rest st h1 hns1 hrest,
      hstep sp fuel fmtS t2 rest st h2 hns2 hrest]
  · intro sp fmtS t1 t2 rest tz h1 h2 hns1 hns2 hrest
    have hdw : ∀ t : List Char, t ≠ [] → (∀ c ∈ t, CCTZ.isSpace c = false) →
        (t ++ rest).dropWhile (fun x => CCTZ.isSpace x) = t ++ rest := by
      intro t ht hns
      rcases t with _ | ⟨a, t'⟩
      · exact absurd rfl ht
      · simp [List.dropWhile, hns a (by simp)]
    unfold CCTZ.parse
    rw [hdw t1 h1 hns1, hdw t2 h2 hns2]
    have hlen : ('%' :: 'Z' :: fmtS).length = fmtS.length + 1 + 1 := by simp
    rw [hlen]
    rw [hstep sp (fmtS.length + 1) fmtS t1 rest CCTZ.initParseState h1 hns1 hrest,
      hstep sp (fmtS.length + 1) fmtS t2 rest CCTZ.initParseState h2 hns2 hrest]

/-- Claim C9, witness: the parse-level conjunct applied to tokens `PST` and
`XYZA` before an empty remainder. -/
theorem claim9_witness :
    (('P' :: ['S', 'T']) ≠ [] ∧ ('X' :: ['Y', 'Z', 'A']) ≠ []) ∧
    CCTZ.parse CCTZ.stubStrptime ('%' :: 'Z' :: []) (['P', 'S', 'T'] ++ []) CCTZ.utcTimeZone =
      CCTZ.parse CCTZ.stubStrptime ('%' :: 'Z' :: []) (['X', 'Y', 'Z', 'A'] ++ [])
        CCTZ.utcTimeZone :=
  ⟨⟨by decide, by decide⟩,
   claim9_Z_token_ignored.2 CCTZ.stubStrptime [] ['P', 'S', 'T'] ['X', 'Y', 'Z', 'A'] []
     CCTZ.utcTimeZone (by decide) (by decide) (by decide) (by decide) (Or.inl rfl)⟩

/-! ## Claim C10: exhausted input skips the rest of the format -/

/-- Claim C10: if the input is exhausted, the walk stops at once — the whole
remaining format is skipped without error and the state is returned as is, so
every unset field keeps its default (year 1970, Jan 1, 00:00:00, no offset,
zero subseconds); in particular `parse "%Y-%m-%d" "2023"` succeeds in any
zone whose lookup of 2023-01-01 00:00:00 does not saturate, and yields that
civil time interpreted in the given zone. -/
theorem claim10_input_exhausted :
    (∀ (sp : CCTZ.Strptime) (fuel : Nat) (fmt : List Char) (st : CCTZ.ParseState),
      CCTZ.parseLoop sp fuel fmt [] st = Except.ok (st, [])) ∧
    (∀ (sp : CCTZ.Strptime) (tz : CCTZ.TimeZone),
      (tz.lookupCiv ⟨2023, 1, 1, 0, 0, 0⟩).pre ≠ CCTZ.tpMax →
      (tz.lookupCiv ⟨2023, 1, 1, 0, 0, 0⟩).pre ≠ CCTZ.tpMin →
      CCTZ.parse sp "%Y-%m-%d".toList "2023".toList tz =
        Except.ok ((tz.lookupCiv ⟨2023, 1, 1, 0, 0, 0⟩).pre, 0)) := by
  constructor
  · intro sp fuel fmt st
    cases fuel <;> cases fmt <;> rfl
  · intro sp tz hmax hmin
    have hred : CCTZ.parse sp "%Y-%m-%d".toList "2023".toList tz =
        (if (tz.lookupCiv ⟨2023, 1, 1, 0, 0, 0⟩).pre = CCTZ.tpMax ∧
            CCTZ.civilLt (tz.lookupAbs CCTZ.tpMax).cs ⟨2023, 1, 1, 0, 0, 0⟩ then
          Except.error "Out-of-range field"
        else if (tz.lookupCiv ⟨2023, 1, 1, 0, 0, 0⟩).pre = CCTZ.tpMin ∧
            CCTZ.civilLt ⟨2023, 1, 1, 0, 0, 0⟩ (tz.lookupAbs CCTZ.tpMin).cs then
          Except.error "Out-of-range field"
        else Except.ok ((tz.lookupCiv ⟨2023, 1, 1, 0, 0, 0⟩).pre, 0)) := rfl
    rw [hred, if_neg (fun hc => hmax hc.1), if_neg (fun hc => hmin hc.1)]

/-- Claim C10, witness: the example in the UTC zone, where the lookup of
2023-01-01 does not saturate, yields Unix seconds 1672531200. -/
theorem claim10_witness :
    ((CCTZ.utcTimeZone.lookupCiv ⟨2023, 1, 1, 0, 0, 0⟩).pre ≠ CCTZ.tpMax ∧
      (CCTZ.utcTimeZone.lookupCiv ⟨2023, 1, 1, 0, 0, 0⟩).pre ≠ CCTZ.tpMin) ∧
    CCTZ.parse CCTZ.stubStrptime "%Y-%m-%d".toList "2023".toList CCTZ.utcTimeZone =
      Except.ok ((CCTZ.utcTimeZone.lookupCiv ⟨2023, 1, 1, 0, 0, 0⟩).pre, 0) :=
  ⟨⟨by decide, by decide⟩,
   claim10_input_exhausted.2 CCTZ.stubStrptime CCTZ.utcTimeZone (by decide) (by decide)⟩

/-! ## Digit-string lemmas for the subsecond-width specifier -/

namespace CCTZ

theorem natDigitsAux_append (fuel : Nat) : ∀ (v : Nat) (acc : List Char),
    natDigitsAux fuel v acc = natDigitsAux fuel v [] ++ acc := by
  induction fuel with
  | zero => intro v acc; simp [natDigitsAux]
  | succ f ih =>
    intro v acc
    by_cases hv : v < 10
    · simp [natDigitsAux, hv]
    · simp only [natDigitsAux, if_neg hv]
      rw [ih (v / 10) (digitChar (v % 10) :: acc), ih (v / 10) [digitChar (v % 10)]]
      simp

theorem natDigitsAux_fuel : ∀ (fuel fuel' v : Nat), v < 10 ^ fuel → v < 10 ^ fuel' →
    1 ≤ fuel → 1 ≤ fuel' → natDigitsAux fuel v [] = natDigitsAux fuel' v [] := by
  intro fuel
  induction fuel with
  | zero => intro fuel' v _ _ h3 _; omega
  | succ f ih =>
    intro fuel' v h1 h2 _ h4
    cases fuel' with
    | zero => omega
    | succ f' =>
      by_cases hv : v < 10
      · simp [natDigitsAux, hv]
      · simp only [natDigitsAux, if_neg hv]
        rw [natDigitsAux_append f, natDigitsAux_append f']
        have hp1 : 10 ^ (f + 1) = 10 ^ f * 10 := pow_succ 10 f
        have hp2 : 10 ^ (f' + 1) = 10 ^ f' * 10 := pow_succ 10 f'
        have hf1 : 1 ≤ f := by
          by_contra hc
          have hf0 : (10 : Nat) ^ f = 1 := by
            have hz : f = 0 := by omega
            simp [hz]
          omega
        have hf2 : 1 ≤ f' := by
          by_contra hc
          have hf0 : (10 : Nat) ^ f' = 1 := by
            have hz : f' = 0 := by omega
            simp [hz]
          omega
        rw [ih f' (v / 10) (by omega) (by omega) hf1 hf2]

theorem pow10_gt (n : Nat) : n < 10 ^ n := by
  induction n with
  | zero => norm_num
  | succ k ih =>
    have hp : 10 ^ (k + 1) = 10 ^ k * 10 := pow_succ 10 k
    omega

theorem natDigits_lt10 (v : Nat) (hv : v < 10) : natDigits v = [digitChar v] := by
  simp [natDigits, natDigitsAux, hv]

theorem natDigits_recur (v : Nat) (hv : 10 ≤ v) :
    natDigits v = natDigits (v / 10) ++ [digitChar (v % 10)] := by
  have h1 : natDigitsAux (v + 1) v [] = natDigitsAux v (v / 10) [digitChar (v % 10)] := by
    simp [natDigitsAux, Nat.not_lt.2 hv]
  unfold natDigits
  rw [h1, natDigitsAux_append]
  have hq1 : v / 10 < 10 ^ v := lt_of_le_of_lt (Nat.div_le_self v 10) (pow10_gt v)
  have hq2 : v / 10 < 10 ^ (v / 10 + 1) :=
    lt_of_lt_of_le (pow10_gt (v / 10)) (Nat.pow_le_pow_right (by norm_num) (by omega))
  rw [natDigitsAux_fuel v (v / 10 + 1) (v / 10) hq1 hq2 (by omega) (by omega)]

theorem digitChar_toNat (d : Nat) (hd : d ≤ 9) : (digitChar d).toNat = 48 + d := by
  interval_cases d <;> rfl

theorem digitsValFrom_append_one (p : Nat) (l : List Char) (c : Char) :
    digitsValFrom p (l ++ [c]) = digitsValFrom p l * 10 + (c.toNat - 48) := by
  simp [digitsValFrom, List.foldl_append]

theorem natDigits_facts (v : Nat) :
    natDigits v ≠ [] ∧
    (∀ c ∈ natDigits v, 48 ≤ c.toNat ∧ c.toNat ≤ 57) ∧
    digitsValN (natDigits v) = v ∧
    ∀ k : Nat, 1 ≤ k → v < 10 ^ k → (natDigits v).length ≤ k := by
  induction v using Nat.strong_induction_on with
  | _ v ih =>
    by_cases hv : v < 10
    · rw [natDigits_lt10 v hv]
      have hdc := digitChar_toNat v (by omega)
      refine ⟨by simp, ?_, ?_, ?_⟩
      · intro c hc
        simp at hc
        subst hc
        omega
      · simp [digitsValN, digitsValFrom, hdc]
      · intro k hk _
        simpa using hk
    · rw [natDigits_recur v (by omega)]
      obtain ⟨ih1, ih2, ih3, ih4⟩ := ih (v / 10) (by omega)
      have hdc := digitChar_toNat (v % 10) (by omega)
      refine ⟨by simp, ?_, ?_, ?_⟩
      · intro c hc
        rcases List.mem_append.1 hc with h | h
        · exact ih2 c h
        · simp at h
          subst h
          omega
      · rw [digitsValN, digitsValFrom_append_one]
        have : digitsValFrom 0 (natDigits (v / 10)) = v / 10 := ih3
        rw [this, hdc]
        omega
      · intro k hk hlt
        have hk2 : 2 ≤ k := by
          by_contra hc
          have hk1 : k = 1 := by omega
          rw [hk1] at hlt
          norm_num at hlt
          omega
        have hpow : 10 ^ k = 10 ^ (k - 1) * 10 := by
          rw [← pow_succ]
          congr 1
          omega
        have hlen := ih4 (k - 1) (by omega) (by omega)
        rw [List.length_append]
        simp
        omega

theorem digitsValFrom_zeros : ∀ (j : Nat) (ds : List Char),
    digitsValFrom 0 (List.replicate j '0' ++ ds) = digitsValFrom 0 ds := by
  intro j
  induction j with
  | zero => intro ds; simp
  | succ i ih =>
    intro ds
    rw [List.replicate_succ, List.cons_append, digitsValFrom_cons]
    simpa using ih ds

theorem digitsTakeN_none_run : ∀ (run rest : List Char),
    (∀ c ∈ run, 48 ≤ c.toNat ∧ c.toNat ≤ 57) →
    (∀ c, rest.head? = some c → ¬ (48 ≤ c.toNat ∧ c.toNat ≤ 57)) →
    digitsTakeN none (run ++ rest) = (run, rest) := by
  intro run
  induction run with
  | nil =>
    intro rest _ hrest
    cases rest with
    | nil => simp [digitsTakeN]
    | cons c cs => simp [digitsTakeN, hrest c rfl]
  | cons c cs ih =>
    intro rest hrun hrest
    have hc := hrun c (List.mem_cons_self c cs)
    rw [List.cons_append]
    have hrec := ih rest (fun x hx => hrun x (List.mem_cons_of_mem c hx)) hrest
    simp only [digitsTakeN, if_pos hc]
    rw [show Option.map (fun k => k - 1) (none : Option Nat) = none from rfl, hrec]

theorem ParseInt_digit_run (n : Nat) (hn : n ≤ 1024) :
    ParseInt intMin32 0 0 1024 (natDigits n ++ ['S']) = some ((n : Int), ['S']) := by
  obtain ⟨h1, h2, h3, _⟩ := natDigits_facts n
  have hcap : capOf 0 = none := by simp [capOf]
  have hrun : digitsTakeN (capOf 0) (natDigits n ++ ['S']) = (natDigits n, ['S']) := by
    rw [hcap]
    refine digitsTakeN_none_run (natDigits n) ['S'] h2 ?_
    intro c hc
    simp at hc
    subst hc
    decide
  have hhead : ¬ (natDigits n ++ ['S']).head? = some '-' := by
    obtain ⟨e1, r1, hcons⟩ := List.exists_cons_of_ne_nil h1
    have he1 := h2 e1 (by rw [hcons]; exact List.mem_cons_self e1 r1)
    rw [hcons]
    simp only [List.cons_append, List.head?]
    intro hcontra
    have : e1 = '-' := by injection hcontra
    rw [this] at he1
    revert he1
    decide
  unfold ParseInt
  rw [if_neg hhead]
  rw [ParseIntAfterSign_char intMin32 0 1024 false 0 (natDigits n ++ ['S'])
    (by norm_num [intMin32]) (by norm_num [intMin32]) (by norm_num [intMin32])]
  rw [hrun]
  have h3' : digitsValFrom 0 (natDigits n) = n := h3
  rw [if_neg h1]
  rw [if_neg (by simp)]
  simp only [Bool.false_eq_true, if_false, h3']
  rw [if_pos (by constructor <;> [positivity; exact_mod_cast hn])]

theorem Format64_digits (w v : Int) (hv : 0 ≤ v) (hw : 1 ≤ w)
    (hlt : v < 10 ^ w.toNat) :
    (Format64 w v).length = w.toNat ∧
    (∀ c ∈ Format64 w v, 48 ≤ c.toNat ∧ c.toNat ≤ 57) ∧
    (digitsValN (Format64 w v) : Int) = v := by
  obtain ⟨h1, h2, h3, h4⟩ := natDigits_facts v.toNat
  have hvn : v.toNat < 10 ^ w.toNat := by
    have hc : ((10 : Nat) ^ w.toNat : Int) = (10 : Int) ^ w.toNat := by push_cast; ring
    omega
  have hlen : (natDigits v.toNat).length ≤ w.toNat := h4 w.toNat (by omega) hvn
  have hform : Format64 w v =
      List.replicate (w - (natDigits v.toNat).length).toNat '0' ++ natDigits v.toNat := by
    unfold Format64
    rw [if_neg (by omega)]
  rw [hform]
  refine ⟨?_, ?_, ?_⟩
  · simp
    omega
  · intro c hc
    rcases List.mem_append.1 hc with h | h
    · have : c = '0' := List.eq_of_mem_replicate h
      rw [this]
      decide
    · exact h2 c h
  · rw [digitsValN, digitsValFrom_zeros]
    have h3' : digitsValFrom 0 (natDigits v.toNat) = v.toNat := h3
    rw [h3']
    omega

theorem char_digit_cases (c : Char) (hd : 48 ≤ c.toNat ∧ c.toNat ≤ 57) :
    c = '0' ∨ c = '1' ∨ c = '2' ∨ c = '3' ∨ c = '4' ∨
    c = '5' ∨ c = '6' ∨ c = '7' ∨ c = '8' ∨ c = '9' := by
  have hofn := Char.ofNat_toNat c
  have hnat : c.toNat = 48 ∨ c.toNat = 49 ∨ c.toNat = 50 ∨ c.toNat = 51 ∨ c.toNat = 52 ∨
      c.toNat = 53 ∨ c.toNat = 54 ∨ c.toNat = 55 ∨ c.toNat = 56 ∨ c.toNat = 57 := by omega
  rcases hnat with h|h|h|h|h|h|h|h|h|h <;> rw [h] at hofn
  · exact Or.inl hofn.symm
  · exact Or.inr (Or.inl hofn.symm)
  · exact Or.inr (Or.inr (Or.inl hofn.symm))
  · exact Or.inr (Or.inr (Or.inr (Or.inl hofn.symm)))
  · exact Or.inr (Or.inr (Or.inr (Or.inr (Or.inl hofn.symm))))
  · exact Or.inr (Or.inr (Or.inr (Or.inr (Or.inr (Or.inl hofn.symm)))))
  · exact Or.inr (Or.inr (Or.inr (Or.inr (Or.inr (Or.inr (Or.inl hofn.symm))))))
  · exact Or.inr (Or.inr (Or.inr (Or.inr (Or.inr (Or.inr (Or.inr (Or.inl hofn.symm)))))))
  · exact Or.inr (Or.inr (Or.inr (Or.inr (Or.inr (Or.inr (Or.inr (Or.inr (Or.inl hofn.symm))))))))
  · exact Or.inr (Or.inr (Or.inr (Or.inr (Or.inr (Or.inr (Or.inr (Or.inr (Or.inr hofn.symm))))))))

theorem formatLoop_empty (ftm : List Char → List Char) (al : AbsoluteLookup)
    (tp fs : Int) (fuel : Nat) : formatLoop ftm al tp fs fuel [] [] = [] := by
  cases fuel <;> rfl

theorem formatLoop_E_step4 (ftm : List Char → List Char) (al : AbsoluteLookup)
    (tp fs : Int) (fuel : Nat) (r1 : List Char)
    (hnext : r1 = [] ∨ ∃ y t, r1 = y :: t ∧ (48 ≤ y.toNat ∧ y.toNat ≤ 57 ∨ y = 'S')) :
    formatLoop ftm al tp fs (fuel + 1) ('%' :: 'E' :: '4' :: r1) [] =
      (match ParseInt intMin32 0 0 1024 ('4' :: r1) with
       | some np =>
         (match np.2 with
          | 'S' :: r =>
            formatWidthSubseconds 'S' np.1 fs al.cs.ss ++ formatLoop ftm al tp fs fuel r []
          | 'f' :: r =>
            formatWidthSubseconds 'f' np.1 fs al.cs.ss ++ formatLoop ftm al tp fs fuel r []
          | _ => formatLoop ftm al tp fs fuel ('4' :: r1) ['%', 'E'])
       | none => formatLoop ftm al tp fs fuel ('4' :: r1) ['%', 'E']) := by
  rcases hnext with hn | ⟨y, t, hyt, hy⟩
  · subst hn
    with_unfolding_all rfl
  · subst hyt
    rcases hy with hy2 | hy2
    · rcases char_digit_cases y hy2 with g|g|g|g|g|g|g|g|g|g <;> subst g <;>
        with_unfolding_all rfl
    · subst hy2
      with_unfolding_all rfl

theorem formatLoop_E_step (ftm : List Char → List Char) (al : AbsoluteLookup)
    (tp fs : Int) (fuel : Nat) (e1 : Char) (r1 : List Char)
    (hd : 48 ≤ e1.toNat ∧ e1.toNat ≤ 57)
    (hnext : r1 = [] ∨ ∃ y t, r1 = y :: t ∧ (48 ≤ y.toNat ∧ y.toNat ≤ 57 ∨ y = 'S')) :
    formatLoop ftm al tp fs (fuel + 1) ('%' :: 'E' :: e1 :: r1) [] =
      (match ParseInt intMin32 0 0 1024 (e1 :: r1) with
       | some np =>
         (match np.2 with
          | 'S' :: r =>
            formatWidthSubseconds 'S' np.1 fs al.cs.ss ++ formatLoop ftm al tp fs fuel r []
          | 'f' :: r =>
            formatWidthSubseconds 'f' np.1 fs al.cs.ss ++ formatLoop ftm al tp fs fuel r []
          | _ => formatLoop ftm al tp fs fuel (e1 :: r1) ['%', 'E'])
       | none => formatLoop ftm al tp fs fuel (e1 :: r1) ['%', 'E']) := by
  rcases char_digit_cases e1 hd with h|h|h|h|h|h|h|h|h|h <;> subst h <;>
    first
      | with_unfolding_all rfl
      | exact formatLoop_E_step4 ftm al tp fs fuel r1 hnext

theorem formatLoop_E_width_S (ftm : List Char → List Char) (al : AbsoluteLookup)
    (tp fs : Int) (fuel : Nat) (e1 : Char) (r1 : List Char) (n : Int)
    (hd : 48 ≤ e1.toNat ∧ e1.toNat ≤ 57)
    (hnext : r1 = [] ∨ ∃ y t, r1 = y :: t ∧ (48 ≤ y.toNat ∧ y.toNat ≤ 57 ∨ y = 'S'))
    (hP : ParseInt intMin32 0 0 1024 (e1 :: r1) = some (n, ['S'])) :
    formatLoop ftm al tp fs (fuel + 1) ('%' :: 'E' :: e1 :: r1) [] =
      formatWidthSubseconds 'S' n fs al.cs.ss := by
  rw [formatLoop_E_step ftm al tp fs fuel e1 r1 hd hnext, hP]
  show formatWidthSubseconds 'S' n fs al.cs.ss ++ formatLoop ftm al tp fs fuel [] [] =
    formatWidthSubseconds 'S' n fs al.cs.ss
  rw [formatLoop_empty, List.append_nil]

theorem format_E_width_S_red (ftm : List Char → AbsoluteLookup → List Char)
    (tp fs : Int) (tz : TimeZone) (m : Nat) (hm : m ≤ 1024) :
    format ftm ('%' :: 'E' :: (natDigits m ++ ['S'])) tp fs tz =
      formatWidthSubseconds 'S' (m : Int) fs (tz.lookupAbs tp).cs.ss := by
  obtain ⟨h1, h2, _, _⟩ := natDigits_facts m
  obtain ⟨e1, r1', hcons⟩ := List.exists_cons_of_ne_nil h1
  have hP := ParseInt_digit_run m hm
  have hfmt : format ftm ('%' :: 'E' :: (natDigits m ++ ['S'])) tp fs tz =
      formatLoop (fun f => ftm f (tz.lookupAbs tp)) (tz.lookupAbs tp) tp fs
        ((natDigits m ++ ['S']).length + 1 + 1) ('%' :: 'E' :: (natDigits m ++ ['S'])) [] := rfl
  rw [hfmt, hcons, List.cons_append]
  refine formatLoop_E_width_S _ _ tp fs _ e1 (r1' ++ ['S']) (m : Int) ?_ ?_ ?_
  · exact h2 e1 (hcons ▸ List.mem_cons_self e1 r1')
  · cases r1' with
    | nil => exact Or.inr ⟨'S', [], rfl, Or.inr rfl⟩
    | cons y t =>
      refine Or.inr ⟨y, t ++ ['S'], rfl, Or.inl ?_⟩
      exact h2 y (hcons ▸ List.mem_cons_of_mem e1 (List.mem_cons_self y t))
  · rw [← List.cons_append, ← hcons]
    exact hP

/-- Claim C7: for every femtosecond count `fs` in `[0, 10^15)` and width `#`
in `[0, 1024]`, formatting `%E#S` with `#` greater than 18 produces exactly
the same output as with `# = 18`; with `# = 0` the output is only the
two-digit seconds with no dot; otherwise the output is the two-digit seconds,
a dot, and exactly `min(#, 18)` digits whose value is `fs * 10 ^ (# - 15)`
when `# >= 15` and `fs / 10 ^ (15 - #)` when `# < 15`. -/
theorem claim7_subsecond_width (ftm : List Char → AbsoluteLookup → List Char)
    (tp fs : Int) (tz : TimeZone) (n : Nat)
    (hn : n ≤ 1024) (hfs0 : 0 ≤ fs) (hfs : fs < 10 ^ 15) :
    (18 < n →
      format ftm ('%' :: 'E' :: (natDigits n ++ ['S'])) tp fs tz =
        format ftm ('%' :: 'E' :: (natDigits 18 ++ ['S'])) tp fs tz) ∧
    (n = 0 →
      format ftm ('%' :: 'E' :: (natDigits n ++ ['S'])) tp fs tz =
        Format02d (tz.lookupAbs tp).cs.ss.toNat) ∧
    (1 ≤ n → n ≤ 18 →
      ∃ ds : List Char,
        format ftm ('%' :: 'E' :: (natDigits n ++ ['S'])) tp fs tz =
          Format02d (tz.lookupAbs tp).cs.ss.toNat ++ '.' :: ds ∧
        ds.length = n ∧
        (∀ c ∈ ds, 48 ≤ c.toNat ∧ c.toNat ≤ 57) ∧
        (digitsValN ds : Int) =
          (if 15 ≤ n then fs * 10 ^ (n - 15) else fs / 10 ^ (15 - n))) := by
  refine ⟨?_, ?_, ?_⟩
  · intro h18
    rw [format_E_width_S_red ftm tp fs tz n hn,
        format_E_width_S_red ftm tp fs tz 18 (by norm_num)]
    have hkey : ∀ w1 w2 : Int, (if w1 > 18 then (18:Int) else w1) = (if w2 > 18 then (18:Int) else w2) →
        formatWidthSubseconds 'S' w1 fs (tz.lookupAbs tp).cs.ss =
          formatWidthSubseconds 'S' w2 fs (tz.lookupAbs tp).cs.ss := by
      intro w1 w2 h
      unfold formatWidthSubseconds
      rw [h]
    refine hkey _ _ ?_
    rw [if_pos (show ((n : Int)) > 18 by exact_mod_cast h18), if_neg (by norm_num)]
    norm_num
  · intro h0
    subst h0
    rw [format_E_width_S_red ftm tp fs tz 0 (by norm_num)]
    simp [formatWidthSubseconds]
  · intro h1n h18n
    rw [format_E_width_S_red ftm tp fs tz n hn]
    have hgt18 : ¬ ((n : Int) > 18) := by omega
    have hpos : ((n : Int) > 0) := by omega
    unfold formatWidthSubseconds
    simp only [eq_self_iff_true, and_true, if_true]
    rw [if_neg hgt18, if_pos hpos, if_pos hpos]
    by_cases h15 : ((n : Int) > 15)
    · rw [if_pos h15]
      have hexp : ((n : Int) - 15).toNat = n - 15 := by omega
      have hval0 : (0 : Int) ≤ fs * kExp10 ((n : Int) - 15).toNat := by
        have := pow_pos (show (0:Int) < 10 by norm_num) (((n : Int) - 15).toNat)
        unfold kExp10
        positivity
      have hvallt : fs * kExp10 ((n : Int) - 15).toNat < 10 ^ ((n : Int)).toNat := by
        unfold kExp10
        rw [hexp]
        have hp : (10 : Int) ^ 15 * 10 ^ (n - 15) = 10 ^ ((n : Int)).toNat := by
          rw [← pow_add]
          congr 1
          omega
        rw [← hp]
        have hten : (0 : Int) < 10 ^ (n - 15) := pow_pos (by norm_num) (n - 15)
        exact mul_lt_mul_of_pos_right hfs hten
      obtain ⟨hl, hd, hv⟩ := Format64_digits ((n : Int)) (fs * kExp10 ((n : Int) - 15).toNat)
        hval0 (by omega) hvallt
      refine ⟨Format64 ((n : Int)) (fs * kExp10 ((n : Int) - 15).toNat), rfl, ?_, hd, ?_⟩
      · rw [hl]
        omega
      · rw [hv, if_pos (by omega : 15 ≤ n)]
        unfold kExp10
        rw [hexp]
    · rw [if_neg h15]
      have hexp : ((15 : Int) - (n : Int)).toNat = 15 - n := by omega
      have hval0 : (0 : Int) ≤ fs / kExp10 ((15 : Int) - (n : Int)).toNat := by
        unfold kExp10
        exact Int.ediv_nonneg hfs0 (by positivity)
      have hvallt : fs / kExp10 ((15 : Int) - (n : Int)).toNat < 10 ^ ((n : Int)).toNat := by
        unfold kExp10
        rw [hexp]
        have hden : (0 : Int) < 10 ^ (15 - n) := pow_pos (by norm_num) (15 - n)
        rw [Int.ediv_lt_iff_lt_mul hden]
        have hp : (10 : Int) ^ ((n : Int)).toNat * 10 ^ (15 - n) = 10 ^ 15 := by
          rw [← pow_add]
          congr 1
          omega
        rw [hp]
        exact hfs
      obtain ⟨hl, hd, hv⟩ := Format64_digits ((n : Int)) (fs / kExp10 ((15 : Int) - (n : Int)).toNat)
        hval0 (by omega) hvallt
      refine ⟨Format64 ((n : Int)) (fs / kExp10 ((15 : Int) - (n : Int)).toNat), rfl, ?_, hd, ?_⟩
      · rw [hl]
        omega
      · rw [hv]
        by_cases h15e : 15 ≤ n
        · have hne : n = 15 := by omega
          subst hne
          rw [if_pos (by omega : 15 ≤ 15)]
          unfold kExp10
          norm_num
        · rw [if_neg h15e]
          unfold kExp10
          rw [hexp]

/-- Claim C7, witness: at width 20 (over the cap) with 5 femtoseconds, the
output equals the width-18 output, all hypotheses holding at these inputs. -/
theorem claim7_witness :
    ((20 : Nat) ≤ 1024 ∧ (0 : Int) ≤ 5 ∧ (5 : Int) < 10 ^ 15 ∧ 18 < 20) ∧
    format (fun _ _ => []) ('%' :: 'E' :: (natDigits 20 ++ ['S'])) 0 5 utcTimeZone =
      format (fun _ _ => []) ('%' :: 'E' :: (natDigits 18 ++ ['S'])) 0 5 utcTimeZone :=
  ⟨⟨by norm_num, by norm_num, by norm_num, by norm_num⟩,
   (claim7_subsecond_width (fun _ _ => []) 0 5 utcTimeZone 20
     (by norm_num) (by norm_num) (by norm_num)).1 (by norm_num)⟩

/-! ## Round-trip infrastructure for the seconds format -/

theorem Format02d_facts (v : Nat) (hv : v ≤ 99) :
    (∀ c ∈ Format02d v, 48 ≤ c.toNat ∧ c.toNat ≤ 57) ∧ digitsValN (Format02d v) = v := by
  constructor
  · intro c hc
    have h1 := digitChar_toNat (v / 10 % 10) (by omega)
    have h2 := digitChar_toNat (v % 10) (by omega)
    simp [Format02d] at hc
    rcases hc with h | h <;> subst h <;> omega
  · have h1 := digitChar_toNat (v / 10 % 10) (by omega)
    have h2 := digitChar_toNat (v % 10) (by omega)
    simp [Format02d, digitsValN, digitsValFrom]
    omega

theorem digitsTakeN_cap_run : ∀ (run rest : List Char),
    (∀ c ∈ run, 48 ≤ c.toNat ∧ c.toNat ≤ 57) →
    digitsTakeN (some run.length) (run ++ rest) = (run, rest) := by
  intro run
  induction run with
  | nil =>
    intro rest _
    cases rest <;> simp [digitsTakeN]
  | cons c cs ih =>
    intro rest hd
    have hc := hd c (List.mem_cons_self c cs)
    have hrec := ih rest (fun x hx => hd x (List.mem_cons_of_mem c hx))
    simp only [List.length_cons, List.cons_append, digitsTakeN, if_pos hc]
    rw [show (Option.map (fun k => k - 1) (some (cs.length + 1))) = some cs.length by simp]
    rw [show cs.append rest = cs ++ rest from rfl, hrec]

theorem ParseInt_run (kmin width mn mx : Int) (run rest : List Char) (v : Nat)
    (hk : kmin < 0) (hmn : kmin ≤ mn) (hmx : mx ≤ -kmin - 1)
    (hd : ∀ c ∈ run, 48 ≤ c.toNat ∧ c.toNat ≤ 57)
    (hne : run ≠ [])
    (hcap : capOf width = some run.length)
    (hval : digitsValN run = v)
    (hlo : mn ≤ (v : Int)) (hhi : (v : Int) ≤ mx) :
    ParseInt kmin width mn mx (run ++ rest) = some ((v : Int), rest) := by
  obtain ⟨c0, cs0, hcons⟩ := List.exists_cons_of_ne_nil hne
  have hc0 := hd c0 (hcons ▸ List.mem_cons_self c0 cs0)
  have hhead : ¬ (run ++ rest).head? = some '-' := by
    rw [hcons]
    simp only [List.cons_append, List.head?]
    intro hcontra
    have he : c0 = '-' := by injection hcontra
    rw [he] at hc0
    revert hc0
    decide
  unfold ParseInt
  rw [if_neg hhead]
  rw [ParseIntAfterSign_char kmin mn mx false width (run ++ rest) hk hmn hmx]
  rw [hcap, digitsTakeN_cap_run run rest hd]
  have hV : digitsValFrom 0 run = v := hval
  rw [if_neg hne, if_neg (by simp), hV]
  simp only [Bool.false_eq_true, if_false]
  rw [if_pos ⟨hlo, hhi⟩]

theorem isSpace_of_digit (c : Char) (hd : 48 ≤ c.toNat ∧ c.toNat ≤ 57) :
    isSpace c = false := by
  rcases char_digit_cases c hd with h|h|h|h|h|h|h|h|h|h <;> subst h <;> decide

theorem exists_len4 (l : List Char) (h : l.length = 4) :
    ∃ a b c d : Char, l = [a, b, c, d] := by
  match l, h with
  | [a, b, c, d], _ => exact ⟨a, b, c, d, rfl⟩

theorem parseFinish_utc_round (st : ParseState) (t : Int)
    (h12 : st.twelve_hour = false) (hps : st.saw_percent_s = false)
    (hsy : st.saw_year = true)
    (hoff : st.offset = 0) (hsub : st.subseconds = 0) (hss : st.tm.tm_sec ≠ 60)
    (hcs : civilFromFields st.year (st.tm.tm_mon + 1) st.tm.tm_mday st.tm.tm_hour
        st.tm.tm_min st.tm.tm_sec = fromUnixCivil t)
    (hm : (fromUnixCivil t).m = st.tm.tm_mon + 1)
    (hd : (fromUnixCivil t).d = st.tm.tm_mday)
    (htlo : -200000000000 ≤ t) (hthi : t ≤ 300000000000) :
    parseFinish st [] utcTimeZone = Except.ok (t, 0) := by
  obtain ⟨sy, yr, tm, sub, so, off, twe, af, sps, ps⟩ := st
  obtain ⟨t1, t2, t3, t4, t5, t6, t7, t8, t9⟩ := tm
  simp only at h12 hps hsy hoff hsub hss hcs hm hd
  subst h12 hps hsy hoff hsub
  simp only [parseFinish, Bool.false_eq_true, false_and, if_false, if_true, ite_self,
    List.dropWhile_nil, if_neg (by simp : ¬ (([] : List Char) ≠ []))]
  have hleap : (if t6 = 60 then (t6 - 1, (0 : Int) - 1, (0 : Int)) else (t6, (0 : Int), (0 : Int))) =
      (t6, (0 : Int), (0 : Int)) := if_neg hss
  rw [hleap]
  dsimp only
  rw [hcs]
  rw [if_neg (by push_neg; exact ⟨hm, hd⟩)]
  rw [if_neg (by rintro (⟨hc, -⟩ | ⟨hc, -⟩) <;> omega)]
  have hcs2 : civilPlus (fromUnixCivil t) (-0) = fromUnixCivil t := by
    unfold civilPlus
    rw [toUnix_fromUnixCivil]
    norm_num
  rw [hcs2]
  have htp : (utcTimeZone.lookupCiv (fromUnixCivil t)).pre =
      clampTp (toUnix (fromUnixCivil t)) := rfl
  rw [htp, toUnix_fromUnixCivil]
  have hclamp : clampTp t = t := by
    simp only [clampTp, tpMin, tpMax]
    rw [if_neg (by omega), if_neg (by omega)]
  rw [hclamp]
  rw [if_neg (by rintro ⟨hc, -⟩; simp only [tpMax] at hc; omega)]
  rw [if_neg (by rintro ⟨hc, -⟩; simp only [tpMin] at hc; omega)]

theorem Format64_four_len (y : Int) (hlo : -999 ≤ y) (hhi : y ≤ 9999) :
    (Format64 4 y).length = 4 := by
  by_cases hneg : y < 0
  · obtain ⟨h1, _, _, h4⟩ := natDigits_facts (-y).toNat
    have hlen3 : (natDigits (-y).toNat).length ≤ 3 := h4 3 (by omega) (by omega)
    have hlen1 : 1 ≤ (natDigits (-y).toNat).length := by
      rcases hnd : natDigits (-y).toNat with _ | ⟨x, xs⟩
      · exact absurd hnd h1
      · simp
    unfold Format64
    rw [if_pos hneg]
    simp only [List.length_cons, List.length_append, List.length_replicate]
    omega
  · have hy4 : y < 10 ^ ((4 : Int)).toNat := by
      have hp : (10 : Int) ^ ((4 : Int)).toNat = 10000 := by decide
      omega
    exact (Format64_digits 4 y (by omega) (by norm_num) hy4).1

theorem Format64_not_space (y : Int) (hlo : -999 ≤ y) (hhi : y ≤ 9999) :
    ∀ x ∈ Format64 4 y, isSpace x = false := by
  intro x hx
  by_cases hneg : y < 0
  · unfold Format64 at hx
    rw [if_pos hneg] at hx
    rcases List.mem_cons.1 hx with h | h
    · rw [h]
      decide
    · rcases List.mem_append.1 h with h2 | h2
      · rw [List.eq_of_mem_replicate h2]
        decide
      · exact isSpace_of_digit x ((natDigits_facts (-y).toNat).2.1 x h2)
  · have hy4 : y < 10 ^ ((4 : Int)).toNat := by
      have hp : (10 : Int) ^ ((4 : Int)).toNat = 10000 := by decide
      omega
    exact isSpace_of_digit x ((Format64_digits 4 y (by omega) (by norm_num) hy4).2.1 x hx)

theorem ParseInt_neg_run (B rest : List Char) (v : Nat)
    (hbd : ∀ c ∈ B, 48 ≤ c.toNat ∧ c.toNat ≤ 57)
    (hblen : B.length = 3)
    (hbval : digitsValN B = v)
    (h1 : 1 ≤ v) (h999 : v ≤ 999) :
    ParseInt intMin64 4 (-999) 9999 (('-' :: B) ++ rest) = some (-(v : Int), rest) := by
  rw [List.cons_append]
  show ParseIntAfterSign intMin64 (-999) 9999 true 3 (B ++ rest) = some (-(v : Int), rest)
  rw [ParseIntAfterSign_char intMin64 (-999) 9999 true 3 (B ++ rest)
    (by norm_num [intMin64]) (by norm_num [intMin64]) (by norm_num [intMin64])]
  have hcap : capOf 3 = some B.length := by
    rw [hblen]
    rfl
  rw [hcap, digitsTakeN_cap_run B rest hbd]
  have hne : B ≠ [] := by
    intro hc
    rw [hc] at hblen
    simp at hblen
  have hV : digitsValFrom 0 B = v := hbval
  rw [if_neg hne, hV]
  rw [if_neg (by rintro ⟨-, hc⟩; omega)]
  show (if (-999 : Int) ≤ -(v : Int) ∧ -(v : Int) ≤ 9999 then some (-(v : Int), rest) else none) =
    some (-(v : Int), rest)
  rw [if_pos (show (-999 : Int) ≤ -(v : Int) ∧ -(v : Int) ≤ 9999 from ⟨by omega, by omega⟩)]

theorem ParseInt_E4Y (y : Int) (rest : List Char) (hlo : -999 ≤ y) (hhi : y ≤ 9999) :
    ParseInt intMin64 4 (-999) 9999 (Format64 4 y ++ rest) = some (y, rest) := by
  by_cases hneg : y < 0
  · have hbody : Format64 4 y =
        '-' :: (List.replicate ((4 : Int) - 1 - (natDigits (-y).toNat).length).toNat '0' ++
          natDigits (-y).toNat) := by
      unfold Format64
      rw [if_pos hneg]
    obtain ⟨h1, h2, h3, h4⟩ := natDigits_facts (-y).toNat
    have hlen3 : (natDigits (-y).toNat).length ≤ 3 := by
      refine h4 3 (by omega) ?_
      have hp : (10 : Nat) ^ 3 = 1000 := by norm_num
      omega
    have hlen1 : 1 ≤ (natDigits (-y).toNat).length := by
      rcases hnd : natDigits (-y).toNat with _ | ⟨x, xs⟩
      · exact absurd hnd h1
      · simp
    rw [hbody]
    have hres := ParseInt_neg_run
      (List.replicate ((4 : Int) - 1 - (natDigits (-y).toNat).length).toNat '0' ++
        natDigits (-y).toNat) rest (-y).toNat
      (by
        intro c hc
        rcases List.mem_append.1 hc with h | h
        · rw [List.eq_of_mem_replicate h]
          decide
        · exact h2 c h)
      (by
        simp only [List.length_append, List.length_replicate]
        omega)
      (by
        rw [digitsValN, digitsValFrom_zeros]
        exact h3)
      (by omega) (by omega)
    rw [show (-(((-y).toNat : Nat) : Int)) = y from by omega] at hres
    exact hres
  · have hy4 : y < 10 ^ ((4 : Int)).toNat := by
      have hp : (10 : Int) ^ ((4 : Int)).toNat = 10000 := by decide
      omega
    obtain ⟨hl4, hd4, hv4⟩ := Format64_digits 4 y (by omega) (by norm_num) hy4
    have hvn : digitsValN (Format64 4 y) = y.toNat := by omega
    have hrun := ParseInt_run intMin64 4 (-999) 9999 (Format64 4 y) rest y.toNat
      (by norm_num [intMin64]) (by norm_num [intMin64]) (by norm_num [intMin64])
      hd4 (by
        intro hc
        rw [hc] at hl4
        simp at hl4)
      (by rw [hl4]; rfl) hvn (by omega) (by omega)
    rw [show ((y.toNat : Nat) : Int) = y from by omega] at hrun
    exact hrun

theorem FormatOffset_colon_nonneg (off : Int) (h0 : 0 ≤ off) :
    FormatOffset off [':'] =
      '+' :: (Format02d (off / 60 / 60).toNat ++ ':' :: Format02d (off / 60 % 60).toNat) := by
  unfold FormatOffset
  rw [if_neg (show ¬ off < 0 by omega), if_neg (show ¬ off < 0 by omega)]
  dsimp only
  rw [if_neg (fun h => absurd h.1.2 (by decide))]
  rw [ite_self]
  rw [if_pos (Or.inl (fun hc => absurd hc.1.2 (by decide)))]
  rw [if_pos (by decide)]
  rw [if_neg (fun h => absurd h.1.2 (by decide))]
  rfl

theorem FormatOffset_colon_neg (off : Int) (hneg : off < 0) (hmin : off % 60 = 0) :
    FormatOffset off [':'] =
      '-' :: (Format02d (-off / 60 / 60).toNat ++ ':' :: Format02d (-off / 60 % 60).toNat) := by
  unfold FormatOffset
  rw [if_pos hneg, if_pos hneg]
  dsimp only
  rw [if_neg (fun h => absurd h.1.2 (by decide))]
  rw [if_neg (show ¬ ((-off / 60 / 60).toNat = 0 ∧ (-off / 60 % 60).toNat = 0) by omega)]
  rw [if_pos (Or.inl (fun hc => absurd hc.1.2 (by decide)))]
  rw [if_pos (by decide)]
  rw [if_neg (fun h => absurd h.1.2 (by decide))]
  rfl

theorem ParseOffset_pairs_pos (hN mN : Nat) (hh : hN ≤ 23) (hm : mN ≤ 59) :
    ParseOffset [':'] ('+' :: (Format02d hN ++ ':' :: Format02d mN)) = some (((hN : Int) * 60 + (mN : Int)) * 60, []) := by
  have hPIhr : ParseInt intMin32 2 0 23 (Format02d hN ++ ':' :: Format02d mN) = some ((hN : Int), ':' :: Format02d mN) := by
    have hrun := ParseInt_run intMin32 2 0 23 (Format02d hN) (':' :: Format02d mN) hN
      (by norm_num [intMin32]) (by norm_num [intMin32]) (by norm_num [intMin32])
      (Format02d_facts hN (by omega)).1 (by simp [Format02d]) rfl
      (Format02d_facts hN (by omega)).2 (by omega) (by omega)
    exact hrun
  have hPImn : ParseInt intMin32 2 0 59 (Format02d mN) = some ((mN : Int), []) := by
    have hrun := ParseInt_run intMin32 2 0 59 (Format02d mN) [] mN
      (by norm_num [intMin32]) (by norm_num [intMin32]) (by norm_num [intMin32])
      (Format02d_facts mN (by omega)).1 (by simp [Format02d]) rfl
      (Format02d_facts mN (by omega)).2 (by omega) (by omega)
    rwa [List.append_nil] at hrun
  rw [show ParseOffset [':'] ('+' :: (Format02d hN ++ ':' :: Format02d mN)) =
      (match ParseInt intMin32 2 0 23 (Format02d hN ++ ':' :: Format02d mN) with
       | none => none
       | some (hours, he0) =>
         if (Format02d hN ++ ':' :: Format02d mN).length - he0.length ≠ 2 then none
         else
           let he := if (':' : Char) ≠ nulChar ∧ he0.head? = some ':' then he0.tail else he0
           let msr : Int × Int × List Char :=
             match ParseInt intMin32 2 0 59 he with
             | none => (0, 0, he)
             | some (minutes, me0) =>
               if he.length - me0.length ≠ 2 then (minutes, 0, he)
               else
                 let me := if (':' : Char) ≠ nulChar ∧ me0.head? = some ':' then me0.tail else me0
                 match ParseInt intMin32 2 0 59 me with
                 | none => (minutes, 0, me)
                 | some (seconds, se0) =>
                   if me.length - se0.length ≠ 2 then (minutes, seconds, me)
                   else (minutes, seconds, se0)
           some (((hours * 60 + msr.1) * 60 + msr.2.1), msr.2.2))
      from rfl]
  rw [hPIhr]
  show (let msr : Int × Int × List Char :=
      match ParseInt intMin32 2 0 59 (Format02d mN) with
      | none => (0, 0, Format02d mN)
      | some (minutes, me0) =>
        if (Format02d mN).length - me0.length ≠ 2 then (minutes, 0, Format02d mN)
        else
          let me := if (':' : Char) ≠ nulChar ∧ me0.head? = some ':' then me0.tail else me0
          match ParseInt intMin32 2 0 59 me with
          | none => (minutes, 0, me)
          | some (seconds, se0) =>
            if me.length - se0.length ≠ 2 then (minutes, seconds, me)
            else (minutes, seconds, se0)
    some ((((hN : Int) * 60 + msr.1) * 60 + msr.2.1), msr.2.2)) =
    some (((hN : Int) * 60 + (mN : Int)) * 60, [])
  rw [hPImn]
  show some ((((hN : Int) * 60 + (mN : Int)) * 60 + 0), ([] : List Char)) =
    some (((hN : Int) * 60 + (mN : Int)) * 60, [])
  rw [show (((hN : Int) * 60 + (mN : Int)) * 60 + 0) = ((hN : Int) * 60 + (mN : Int)) * 60 from by ring]

theorem ParseOffset_pairs_neg (hN mN : Nat) (hh : hN ≤ 23) (hm : mN ≤ 59) :
    ParseOffset [':'] ('-' :: (Format02d hN ++ ':' :: Format02d mN)) = some (-(((hN : Int) * 60 + (mN : Int)) * 60), []) := by
  have hPIhr : ParseInt intMin32 2 0 23 (Format02d hN ++ ':' :: Format02d mN) = some ((hN : Int), ':' :: Format02d mN) := by
    have hrun := ParseInt_run intMin32 2 0 23 (Format02d hN) (':' :: Format02d mN) hN
      (by norm_num [intMin32]) (by norm_num [intMin32]) (by norm_num [intMin32])
      (Format02d_facts hN (by omega)).1 (by simp [Format02d]) rfl
      (Format02d_facts hN (by omega)).2 (by omega) (by omega)
    exact hrun
  have hPImn : ParseInt intMin32 2 0 59 (Format02d mN) = some ((mN : Int), []) := by
    have hrun := ParseInt_run intMin32 2 0 59 (Format02d mN) [] mN
      (by norm_num [intMin32]) (by norm_num [intMin32]) (by norm_num [intMin32])
      (Format02d_facts mN (by omega)).1 (by simp [Format02d]) rfl
      (Format02d_facts mN (by omega)).2 (by omega) (by omega)
    rwa [List.append_nil] at hrun
  rw [show ParseOffset [':'] ('-' :: (Format02d hN ++ ':' :: Format02d mN)) =
      (match ParseInt intMin32 2 0 23 (Format02d hN ++ ':' :: Format02d mN) with
       | none => none
       | some (hours, he0) =>
         if (Format02d hN ++ ':' :: Format02d mN).length - he0.length ≠ 2 then none
         else
           let he := if (':' : Char) ≠ nulChar ∧ he0.head? = some ':' then he0.tail else he0
           let msr : Int × Int × List Char :=
             match ParseInt intMin32 2 0 59 he with
             | none => (0, 0, he)
             | some (minutes, me0) =>
               if he.length - me0.length ≠ 2 then (minutes, 0, he)
               else
                 let me := if (':' : Char) ≠ nulChar ∧ me0.head? = some ':' then me0.tail else me0
                 match ParseInt intMin32 2 0 59 me with
                 | none => (minutes, 0, me)
                 | some (seconds, se0) =>
                   if me.length - se0.length ≠ 2 then (minutes, seconds, me)
                   else (minutes, seconds, se0)
           some (-((hours * 60 + msr.1) * 60 + msr.2.1), msr.2.2))
      from rfl]
  rw [hPIhr]
  show (let msr : Int × Int × List Char :=
      match ParseInt intMin32 2 0 59 (Format02d mN) with
      | none => (0, 0, Format02d mN)
      | some (minutes, me0) =>
        if (Format02d mN).length - me0.length ≠ 2 then (minutes, 0, Format02d mN)
        else
          let me := if (':' : Char) ≠ nulChar ∧ me0.head? = some ':' then me0.tail else me0
          match ParseInt intMin32 2 0 59 me with
          | none => (minutes, 0, me)
          | some (seconds, se0) =>
            if me.length - se0.length ≠ 2 then (minutes, seconds, me)
            else (minutes, seconds, se0)
    some (-(((hN : Int) * 60 + msr.1) * 60 + msr.2.1), msr.2.2)) =
    some (-(((hN : Int) * 60 + (mN : Int)) * 60), [])
  rw [hPImn]
  show some (-(((hN : Int) * 60 + (mN : Int)) * 60 + 0), ([] : List Char)) =
    some (-(((hN : Int) * 60 + (mN : Int)) * 60), [])
  rw [show -(((hN : Int) * 60 + (mN : Int)) * 60 + 0) = -(((hN : Int) * 60 + (mN : Int)) * 60) from by ring]

theorem ParseOffset_FormatOffset (off : Int) (hmin : off % 60 = 0)
    (hlo : -86340 ≤ off) (hhi : off ≤ 86340) :
    ParseOffset [':'] (FormatOffset off [':']) = some (off, []) := by
  by_cases hneg : off < 0
  · rw [FormatOffset_colon_neg off hneg hmin]
    rw [ParseOffset_pairs_neg (-off / 60 / 60).toNat (-off / 60 % 60).toNat (by omega) (by omega)]
    rw [show -((((-off / 60 / 60).toNat : Int) * 60 + ((-off / 60 % 60).toNat : Int)) * 60) = off
      from by omega]
  · rw [FormatOffset_colon_nonneg off (by omega)]
    rw [ParseOffset_pairs_pos (off / 60 / 60).toNat (off / 60 % 60).toNat (by omega) (by omega)]
    rw [show (((off / 60 / 60).toNat : Int) * 60 + ((off / 60 % 60).toNat : Int)) * 60 = off
      from by omega]

theorem toUnix_sentinels :
    400000000000 < toUnix civilSecondMax ∧ toUnix civilSecondMin < -400000000000 := by
  constructor <;> decide

theorem parseFinish_offset_round (st : ParseState) (t off : Int) (tz : TimeZone)
    (h12 : st.twelve_hour = false) (hps : st.saw_percent_s = false)
    (hso : st.saw_offset = true) (hsy : st.saw_year = true)
    (hoff : st.offset = off) (hsub : st.subseconds = 0) (hss : st.tm.tm_sec ≠ 60)
    (hcs : civilFromFields st.year (st.tm.tm_mon + 1) st.tm.tm_mday st.tm.tm_hour
        st.tm.tm_min st.tm.tm_sec = fromUnixCivil (t + off))
    (hm : (fromUnixCivil (t + off)).m = st.tm.tm_mon + 1)
    (hd : (fromUnixCivil (t + off)).d = st.tm.tm_mday)
    (htlo : -300000000000 ≤ t) (hthi : t ≤ 400000000000) :
    parseFinish st [] tz = Except.ok (t, 0) := by
  obtain ⟨hsmax, hsmin⟩ := toUnix_sentinels
  obtain ⟨sy, yr, tm, sub, so, offv, twe, af, sps, ps⟩ := st
  obtain ⟨t1, t2, t3, t4, t5, t6, t7, t8, t9⟩ := tm
  simp only at h12 hps hso hsy hoff hsub hss hcs hm hd
  subst h12 hps hso hsy hsub
  simp only [parseFinish, hoff, Bool.false_eq_true, false_and, if_false, if_true, ite_self,
    List.dropWhile_nil, if_neg (by simp : ¬ (([] : List Char) ≠ []))]
  have hleap : (if t6 = 60 then (t6 - 1, off - 1, (0 : Int)) else (t6, off, (0 : Int))) =
      (t6, off, (0 : Int)) := if_neg hss
  rw [hleap]
  dsimp only
  rw [hcs]
  rw [if_neg (by push_neg; exact ⟨hm, hd⟩)]
  have htox : toUnix (fromUnixCivil (t + off)) = t + off := toUnix_fromUnixCivil (t + off)
  rw [if_neg (by
    rintro (⟨hc1, hc2⟩ | ⟨hc1, hc2⟩)
    · have hc2' : toUnix (civilPlus civilSecondMax off) < toUnix (fromUnixCivil (t + off)) := hc2
      rw [show toUnix (civilPlus civilSecondMax off) = toUnix civilSecondMax + off from by
        unfold civilPlus
        rw [toUnix_fromUnixCivil]] at hc2'
      rw [htox] at hc2'
      omega
    · have hc2' : toUnix (fromUnixCivil (t + off)) < toUnix (civilPlus civilSecondMin off) := hc2
      rw [show toUnix (civilPlus civilSecondMin off) = toUnix civilSecondMin + off from by
        unfold civilPlus
        rw [toUnix_fromUnixCivil]] at hc2'
      rw [htox] at hc2'
      omega)]
  have hcs2 : civilPlus (fromUnixCivil (t + off)) (-off) = fromUnixCivil t := by
    unfold civilPlus
    rw [toUnix_fromUnixCivil]
    rw [show t + off + -off = t from by ring]
  rw [hcs2]
  have htp : (utcTimeZone.lookupCiv (fromUnixCivil t)).pre =
      clampTp (toUnix (fromUnixCivil t)) := rfl
  rw [htp, toUnix_fromUnixCivil]
  have hclamp : clampTp t = t := by
    simp only [clampTp, tpMin, tpMax]
    rw [if_neg (by omega), if_neg (by omega)]
  rw [hclamp]
  rw [if_neg (by rintro ⟨hc, -⟩; simp only [tpMax] at hc; omega)]
  rw [if_neg (by rintro ⟨hc, -⟩; simp only [tpMin] at hc; omega)]

/-- Claim C2 (amended): for the exact format `%E4Y-%m-%dT%H:%M:%S%Ez`, any
strptime and strftime collaborators, and any instant with zero femtoseconds
taken in any zone whose lookup at that instant obeys the zone laws — its civil
time is the civil time of `t + offset`, its offset is a whole number of
minutes below 24 hours — and reports a local civil year in `[-999, 9999]`,
parsing the string produced by `format` for that instant, with the same format
and zone, succeeds and returns exactly the original instant with zero
subseconds. -/
theorem claim2_roundtrip_amended (sp : Strptime)
    (ftm : List Char → AbsoluteLookup → List Char) (t : Int) (tz : TimeZone)
    (hcsl : (tz.lookupAbs t).cs = fromUnixCivil (t + (tz.lookupAbs t).offset))
    (hwhole : (tz.lookupAbs t).offset % 60 = 0)
    (holo : -86340 ≤ (tz.lookupAbs t).offset) (hohi : (tz.lookupAbs t).offset ≤ 86340)
    (hylo : -999 ≤ (fromUnixCivil (t + (tz.lookupAbs t).offset)).y) (hyhi : (fromUnixCivil (t + (tz.lookupAbs t).offset)).y ≤ 9999) :
    parse sp "%E4Y-%m-%dT%H:%M:%S%Ez".toList
      (format ftm "%E4Y-%m-%dT%H:%M:%S%Ez".toList t 0 tz)
      tz = Except.ok (t, 0) := by
  obtain ⟨hm1, hm2, hd1, hd2, hh1, hh2, hmi1, hmi2, hs1, hs2⟩ := fromUnixCivil_ranges (t + (tz.lookupAbs t).offset)
  have hF4len : (Format64 4 (fromUnixCivil (t + (tz.lookupAbs t).offset)).y).length = 4 := Format64_four_len (fromUnixCivil (t + (tz.lookupAbs t).offset)).y hylo hyhi
  obtain ⟨a, b, c, d, hF4⟩ := exists_len4 (Format64 4 (fromUnixCivil (t + (tz.lookupAbs t).offset)).y) hF4len
  have hfmt : format ftm "%E4Y-%m-%dT%H:%M:%S%Ez".toList t 0 tz =
      Format64 4 (tz.lookupAbs t).cs.y ++ '-' :: (Format02d (tz.lookupAbs t).cs.m.toNat ++ '-' :: (Format02d (tz.lookupAbs t).cs.d.toNat ++ 'T' :: (Format02d (tz.lookupAbs t).cs.hh.toNat ++ ':' :: (Format02d (tz.lookupAbs t).cs.mi.toNat ++ ':' :: (Format02d (tz.lookupAbs t).cs.ss.toNat ++ (FormatOffset (tz.lookupAbs t).offset [':'] ++ [])))))) := by
    with_unfolding_all rfl
  rw [hfmt, List.append_nil, hcsl, hF4]
  have hassemble : parse sp "%E4Y-%m-%dT%H:%M:%S%Ez".toList ([a, b, c, d] ++ '-' :: (Format02d (fromUnixCivil (t + (tz.lookupAbs t).offset)).m.toNat ++ '-' :: (Format02d (fromUnixCivil (t + (tz.lookupAbs t).offset)).d.toNat ++ 'T' :: (Format02d (fromUnixCivil (t + (tz.lookupAbs t).offset)).hh.toNat ++ ':' :: (Format02d (fromUnixCivil (t + (tz.lookupAbs t).offset)).mi.toNat ++ ':' :: (Format02d (fromUnixCivil (t + (tz.lookupAbs t).offset)).ss.toNat ++ FormatOffset (tz.lookupAbs t).offset [':'])))))) tz =
      (match parseLoop sp ("%E4Y-%m-%dT%H:%M:%S%Ez".toList).length
          "%E4Y-%m-%dT%H:%M:%S%Ez".toList
          (List.dropWhile (fun x => isSpace x) ([a, b, c, d] ++ '-' :: (Format02d (fromUnixCivil (t + (tz.lookupAbs t).offset)).m.toNat ++ '-' :: (Format02d (fromUnixCivil (t + (tz.lookupAbs t).offset)).d.toNat ++ 'T' :: (Format02d (fromUnixCivil (t + (tz.lookupAbs t).offset)).hh.toNat ++ ':' :: (Format02d (fromUnixCivil (t + (tz.lookupAbs t).offset)).mi.toNat ++ ':' :: (Format02d (fromUnixCivil (t + (tz.lookupAbs t).offset)).ss.toNat ++ FormatOffset (tz.lookupAbs t).offset [':'])))))))
          initParseState with
       | Except.error e => Except.error e
       | Except.ok sr => parseFinish sr.1 sr.2 tz) := rfl
  rw [hassemble]
  have hdrop : List.dropWhile (fun x => isSpace x) ([a, b, c, d] ++ '-' :: (Format02d (fromUnixCivil (t + (tz.lookupAbs t).offset)).m.toNat ++ '-' :: (Format02d (fromUnixCivil (t + (tz.lookupAbs t).offset)).d.toNat ++ 'T' :: (Format02d (fromUnixCivil (t + (tz.lookupAbs t).offset)).hh.toNat ++ ':' :: (Format02d (fromUnixCivil (t + (tz.lookupAbs t).offset)).mi.toNat ++ ':' :: (Format02d (fromUnixCivil (t + (tz.lookupAbs t).offset)).ss.toNat ++ FormatOffset (tz.lookupAbs t).offset [':'])))))) =
      [a, b, c, d] ++ '-' :: (Format02d (fromUnixCivil (t + (tz.lookupAbs t).offset)).m.toNat ++ '-' :: (Format02d (fromUnixCivil (t + (tz.lookupAbs t).offset)).d.toNat ++ 'T' :: (Format02d (fromUnixCivil (t + (tz.lookupAbs t).offset)).hh.toNat ++ ':' :: (Format02d (fromUnixCivil (t + (tz.lookupAbs t).offset)).mi.toNat ++ ':' :: (Format02d (fromUnixCivil (t + (tz.lookupAbs t).offset)).ss.toNat ++ FormatOffset (tz.lookupAbs t).offset [':']))))) := by
    have ha : isSpace a = false :=
      Format64_not_space (fromUnixCivil (t + (tz.lookupAbs t).offset)).y hylo hyhi a (hF4 ▸ List.mem_cons_self a [b, c, d])
    rw [show ([a, b, c, d] ++ '-' :: (Format02d (fromUnixCivil (t + (tz.lookupAbs t).offset)).m.toNat ++ '-' :: (Format02d (fromUnixCivil (t + (tz.lookupAbs t).offset)).d.toNat ++ 'T' :: (Format02d (fromUnixCivil (t + (tz.lookupAbs t).offset)).hh.toNat ++ ':' :: (Format02d (fromUnixCivil (t + (tz.lookupAbs t).offset)).mi.toNat ++ ':' :: (Format02d (fromUnixCivil (t + (tz.lookupAbs t).offset)).ss.toNat ++ FormatOffset (tz.lookupAbs t).offset [':'])))))) = a :: ([b, c, d] ++ '-' :: (Format02d (fromUnixCivil (t + (tz.lookupAbs t).offset)).m.toNat ++ '-' :: (Format02d (fromUnixCivil (t + (tz.lookupAbs t).offset)).d.toNat ++ 'T' :: (Format02d (fromUnixCivil (t + (tz.lookupAbs t).offset)).hh.toNat ++ ':' :: (Format02d (fromUnixCivil (t + (tz.lookupAbs t).offset)).mi.toNat ++ ':' :: (Format02d (fromUnixCivil (t + (tz.lookupAbs t).offset)).ss.toNat ++ FormatOffset (tz.lookupAbs t).offset [':'])))))) from rfl]
    rw [List.dropWhile_cons]
    simp [ha]
  rw [hdrop]
  rw [show ("%E4Y-%m-%dT%H:%M:%S%Ez".toList : List Char) = ['%', 'E', '4', 'Y', '-', '%', 'm', '-', '%', 'd', 'T', '%', 'H', ':', '%', 'M', ':', '%', 'S', '%', 'E', 'z'] from rfl]
  have hPIy : ParseInt intMin64 4 (-999) 9999 ([a, b, c, d] ++ '-' :: (Format02d (fromUnixCivil (t + (tz.lookupAbs t).offset)).m.toNat ++ '-' :: (Format02d (fromUnixCivil (t + (tz.lookupAbs t).offset)).d.toNat ++ 'T' :: (Format02d (fromUnixCivil (t + (tz.lookupAbs t).offset)).hh.toNat ++ ':' :: (Format02d (fromUnixCivil (t + (tz.lookupAbs t).offset)).mi.toNat ++ ':' :: (Format02d (fromUnixCivil (t + (tz.lookupAbs t).offset)).ss.toNat ++ FormatOffset (tz.lookupAbs t).offset [':'])))))) =
      some ((fromUnixCivil (t + (tz.lookupAbs t).offset)).y, '-' :: (Format02d (fromUnixCivil (t + (tz.lookupAbs t).offset)).m.toNat ++ '-' :: (Format02d (fromUnixCivil (t + (tz.lookupAbs t).offset)).d.toNat ++ 'T' :: (Format02d (fromUnixCivil (t + (tz.lookupAbs t).offset)).hh.toNat ++ ':' :: (Format02d (fromUnixCivil (t + (tz.lookupAbs t).offset)).mi.toNat ++ ':' :: (Format02d (fromUnixCivil (t + (tz.lookupAbs t).offset)).ss.toNat ++ FormatOffset (tz.lookupAbs t).offset [':'])))))) := by
    have hres := ParseInt_E4Y (fromUnixCivil (t + (tz.lookupAbs t).offset)).y ('-' :: (Format02d (fromUnixCivil (t + (tz.lookupAbs t).offset)).m.toNat ++ '-' :: (Format02d (fromUnixCivil (t + (tz.lookupAbs t).offset)).d.toNat ++ 'T' :: (Format02d (fromUnixCivil (t + (tz.lookupAbs t).offset)).hh.toNat ++ ':' :: (Format02d (fromUnixCivil (t + (tz.lookupAbs t).offset)).mi.toNat ++ ':' :: (Format02d (fromUnixCivil (t + (tz.lookupAbs t).offset)).ss.toNat ++ FormatOffset (tz.lookupAbs t).offset [':'])))))) hylo hyhi
    rw [hF4] at hres
    exact hres
  have hPIm : ParseInt intMin32 2 1 12 (Format02d (fromUnixCivil (t + (tz.lookupAbs t).offset)).m.toNat ++ '-' :: (Format02d (fromUnixCivil (t + (tz.lookupAbs t).offset)).d.toNat ++ 'T' :: (Format02d (fromUnixCivil (t + (tz.lookupAbs t).offset)).hh.toNat ++ ':' :: (Format02d (fromUnixCivil (t + (tz.lookupAbs t).offset)).mi.toNat ++ ':' :: (Format02d (fromUnixCivil (t + (tz.lookupAbs t).offset)).ss.toNat ++ FormatOffset (tz.lookupAbs t).offset [':']))))) =
      some ((fromUnixCivil (t + (tz.lookupAbs t).offset)).m, '-' :: (Format02d (fromUnixCivil (t + (tz.lookupAbs t).offset)).d.toNat ++ 'T' :: (Format02d (fromUnixCivil (t + (tz.lookupAbs t).offset)).hh.toNat ++ ':' :: (Format02d (fromUnixCivil (t + (tz.lookupAbs t).offset)).mi.toNat ++ ':' :: (Format02d (fromUnixCivil (t + (tz.lookupAbs t).offset)).ss.toNat ++ FormatOffset (tz.lookupAbs t).offset [':']))))) := by
    have hrun := ParseInt_run intMin32 2 1 12 (Format02d (fromUnixCivil (t + (tz.lookupAbs t).offset)).m.toNat) ('-' :: (Format02d (fromUnixCivil (t + (tz.lookupAbs t).offset)).d.toNat ++ 'T' :: (Format02d (fromUnixCivil (t + (tz.lookupAbs t).offset)).hh.toNat ++ ':' :: (Format02d (fromUnixCivil (t + (tz.lookupAbs t).offset)).mi.toNat ++ ':' :: (Format02d (fromUnixCivil (t + (tz.lookupAbs t).offset)).ss.toNat ++ FormatOffset (tz.lookupAbs t).offset [':'])))))
      (fromUnixCivil (t + (tz.lookupAbs t).offset)).m.toNat (by norm_num [intMin32]) (by norm_num [intMin32])
      (by norm_num [intMin32])
      (Format02d_facts (fromUnixCivil (t + (tz.lookupAbs t).offset)).m.toNat (by omega)).1
      (by simp [Format02d]) rfl
      (Format02d_facts (fromUnixCivil (t + (tz.lookupAbs t).offset)).m.toNat (by omega)).2
      (by omega) (by omega)
    rw [show (((fromUnixCivil (t + (tz.lookupAbs t).offset)).m.toNat : Nat) : Int) = (fromUnixCivil (t + (tz.lookupAbs t).offset)).m from by omega] at hrun
    exact hrun
  have hPId : ParseInt intMin32 2 1 31 (Format02d (fromUnixCivil (t + (tz.lookupAbs t).offset)).d.toNat ++ 'T' :: (Format02d (fromUnixCivil (t + (tz.lookupAbs t).offset)).hh.toNat ++ ':' :: (Format02d (fromUnixCivil (t + (tz.lookupAbs t).offset)).mi.toNat ++ ':' :: (Format02d (fromUnixCivil (t + (tz.lookupAbs t).offset)).ss.toNat ++ FormatOffset (tz.lookupAbs t).offset [':'])))) =
      some ((fromUnixCivil (t + (tz.lookupAbs t).offset)).d, 'T' :: (Format02d (fromUnixCivil (t + (tz.lookupAbs t).offset)).hh.toNat ++ ':' :: (Format02d (fromUnixCivil (t + (tz.lookupAbs t).offset)).mi.toNat ++ ':' :: (Format02d (fromUnixCivil (t + (tz.lookupAbs t).offset)).ss.toNat ++ FormatOffset (tz.lookupAbs t).offset [':'])))) := by
    have hrun := ParseInt_run intMin32 2 1 31 (Format02d (fromUnixCivil (t + (tz.lookupAbs t).offset)).d.toNat) ('T' :: (Format02d (fromUnixCivil (t + (tz.lookupAbs t).offset)).hh.toNat ++ ':' :: (Format02d (fromUnixCivil (t + (tz.lookupAbs t).offset)).mi.toNat ++ ':' :: (Format02d (fromUnixCivil (t + (tz.lookupAbs t).offset)).ss.toNat ++ FormatOffset (tz.lookupAbs t).offset [':']))))
      (fromUnixCivil (t + (tz.lookupAbs t).offset)).d.toNat (by norm_num [intMin32]) (by norm_num [intMin32])
      (by norm_num [intMin32])
      (Format02d_facts (fromUnixCivil (t + (tz.lookupAbs t).offset)).d.toNat (by omega)).1
      (by simp [Format02d]) rfl
      (Format02d_facts (fromUnixCivil (t + (tz.lookupAbs t).offset)).d.toNat (by omega)).2
      (by omega) (by omega)
    rw [show (((fromUnixCivil (t + (tz.lookupAbs t).offset)).d.toNat : Nat) : Int) = (fromUnixCivil (t + (tz.lookupAbs t).offset)).d from by omega] at hrun
    exact hrun
  have hPIh : ParseInt intMin32 2 0 23 (Format02d (fromUnixCivil (t + (tz.lookupAbs t).offset)).hh.toNat ++ ':' :: (Format02d (fromUnixCivil (t + (tz.lookupAbs t).offset)).mi.toNat ++ ':' :: (Format02d (fromUnixCivil (t + (tz.lookupAbs t).offset)).ss.toNat ++ FormatOffset (tz.lookupAbs t).offset [':']))) =
      some ((fromUnixCivil (t + (tz.lookupAbs t).offset)).hh, ':' :: (Format02d (fromUnixCivil (t + (tz.lookupAbs t).offset)).mi.toNat ++ ':' :: (Format02d (fromUnixCivil (t + (tz.lookupAbs t).offset)).ss.toNat ++ FormatOffset (tz.lookupAbs t).offset [':']))) := by
    have hrun := ParseInt_run intMin32 2 0 23 (Format02d (fromUnixCivil (t + (tz.lookupAbs t).offset)).hh.toNat) (':' :: (Format02d (fromUnixCivil (t + (tz.lookupAbs t).offset)).mi.toNat ++ ':' :: (Format02d (fromUnixCivil (t + (tz.lookupAbs t).offset)).ss.toNat ++ FormatOffset (tz.lookupAbs t).offset [':'])))
      (fromUnixCivil (t + (tz.lookupAbs t).offset)).hh.toNat (by norm_num [intMin32]) (by norm_num [intMin32])
      (by norm_num [intMin32])
      (Format02d_facts (fromUnixCivil (t + (tz.lookupAbs t).offset)).hh.toNat (by omega)).1
      (by simp [Format02d]) rfl
      (Format02d_facts (fromUnixCivil (t + (tz.lookupAbs t).offset)).hh.toNat (by omega)).2
      (by omega) (by omega)
    rw [show (((fromUnixCivil (t + (tz.lookupAbs t).offset)).hh.toNat : Nat) : Int) = (fromUnixCivil (t + (tz.lookupAbs t).offset)).hh from by omega] at hrun
    exact hrun
  have hPImi : ParseInt intMin32 2 0 59 (Format02d (fromUnixCivil (t + (tz.lookupAbs t).offset)).mi.toNat ++ ':' :: (Format02d (fromUnixCivil (t + (tz.lookupAbs t).offset)).ss.toNat ++ FormatOffset (tz.lookupAbs t).offset [':'])) =
      some ((fromUnixCivil (t + (tz.lookupAbs t).offset)).mi, ':' :: (Format02d (fromUnixCivil (t + (tz.lookupAbs t).offset)).ss.toNat ++ FormatOffset (tz.lookupAbs t).offset [':'])) := by
    have hrun := ParseInt_run intMin32 2 0 59 (Format02d (fromUnixCivil (t + (tz.lookupAbs t).offset)).mi.toNat) (':' :: (Format02d (fromUnixCivil (t + (tz.lookupAbs t).offset)).ss.toNat ++ FormatOffset (tz.lookupAbs t).offset [':']))
      (fromUnixCivil (t + (tz.lookupAbs t).offset)).mi.toNat (by norm_num [intMin32]) (by norm_num [intMin32])
      (by norm_num [intMin32])
      (Format02d_facts (fromUnixCivil (t + (tz.lookupAbs t).offset)).mi.toNat (by omega)).1
      (by simp [Format02d]) rfl
      (Format02d_facts (fromUnixCivil (t + (tz.lookupAbs t).offset)).mi.toNat (by omega)).2
      (by omega) (by omega)
    rw [show (((fromUnixCivil (t + (tz.lookupAbs t).offset)).mi.toNat : Nat) : Int) = (fromUnixCivil (t + (tz.lookupAbs t).offset)).mi from by omega] at hrun
    exact hrun
  have hPIs : ParseInt intMin32 2 0 60 (Format02d (fromUnixCivil (t + (tz.lookupAbs t).offset)).ss.toNat ++ FormatOffset (tz.lookupAbs t).offset [':']) =
      some ((fromUnixCivil (t + (tz.lookupAbs t).offset)).ss, FormatOffset (tz.lookupAbs t).offset [':']) := by
    have hrun := ParseInt_run intMin32 2 0 60 (Format02d (fromUnixCivil (t + (tz.lookupAbs t).offset)).ss.toNat) (FormatOffset (tz.lookupAbs t).offset [':'])
      (fromUnixCivil (t + (tz.lookupAbs t).offset)).ss.toNat (by norm_num [intMin32]) (by norm_num [intMin32])
      (by norm_num [intMin32])
      (Format02d_facts (fromUnixCivil (t + (tz.lookupAbs t).offset)).ss.toNat (by omega)).1
      (by simp [Format02d]) rfl
      (Format02d_facts (fromUnixCivil (t + (tz.lookupAbs t).offset)).ss.toNat (by omega)).2
      (by omega) (by omega)
    rw [show (((fromUnixCivil (t + (tz.lookupAbs t).offset)).ss.toNat : Nat) : Int) = (fromUnixCivil (t + (tz.lookupAbs t).offset)).ss from by omega] at hrun
    exact hrun
  have hPOz : ParseOffset [':'] (FormatOffset (tz.lookupAbs t).offset [':']) = some ((tz.lookupAbs t).offset, []) :=
    ParseOffset_FormatOffset (tz.lookupAbs t).offset hwhole holo hohi
  have hloop : parseLoop sp (['%', 'E', '4', 'Y', '-', '%', 'm', '-', '%', 'd', 'T', '%', 'H', ':', '%', 'M', ':', '%', 'S', '%', 'E', 'z'] : List Char).length ['%', 'E', '4', 'Y', '-', '%', 'm', '-', '%', 'd', 'T', '%', 'H', ':', '%', 'M', ':', '%', 'S', '%', 'E', 'z']
      ([a, b, c, d] ++ '-' :: (Format02d (fromUnixCivil (t + (tz.lookupAbs t).offset)).m.toNat ++ '-' :: (Format02d (fromUnixCivil (t + (tz.lookupAbs t).offset)).d.toNat ++ 'T' :: (Format02d (fromUnixCivil (t + (tz.lookupAbs t).offset)).hh.toNat ++ ':' :: (Format02d (fromUnixCivil (t + (tz.lookupAbs t).offset)).mi.toNat ++ ':' :: (Format02d (fromUnixCivil (t + (tz.lookupAbs t).offset)).ss.toNat ++ FormatOffset (tz.lookupAbs t).offset [':'])))))) initParseState = Except.ok ((⟨true, (fromUnixCivil (t + (tz.lookupAbs t).offset)).y, ⟨70, (fromUnixCivil (t + (tz.lookupAbs t).offset)).m - 1, (fromUnixCivil (t + (tz.lookupAbs t).offset)).d, (fromUnixCivil (t + (tz.lookupAbs t).offset)).hh, (fromUnixCivil (t + (tz.lookupAbs t).offset)).mi, (fromUnixCivil (t + (tz.lookupAbs t).offset)).ss, 4, 0, 0⟩, 0, true, (tz.lookupAbs t).offset, false, false, false, 0⟩ : ParseState), []) := by
    rw [show parseLoop sp (['%', 'E', '4', 'Y', '-', '%', 'm', '-', '%', 'd', 'T', '%', 'H', ':', '%', 'M', ':', '%', 'S', '%', 'E', 'z'] : List Char).length ['%', 'E', '4', 'Y', '-', '%', 'm', '-', '%', 'd', 'T', '%', 'H', ':', '%', 'M', ':', '%', 'S', '%', 'E', 'z']
        ([a, b, c, d] ++ '-' :: (Format02d (fromUnixCivil (t + (tz.lookupAbs t).offset)).m.toNat ++ '-' :: (Format02d (fromUnixCivil (t + (tz.lookupAbs t).offset)).d.toNat ++ 'T' :: (Format02d (fromUnixCivil (t + (tz.lookupAbs t).offset)).hh.toNat ++ ':' :: (Format02d (fromUnixCivil (t + (tz.lookupAbs t).offset)).mi.toNat ++ ':' :: (Format02d (fromUnixCivil (t + (tz.lookupAbs t).offset)).ss.toNat ++ FormatOffset (tz.lookupAbs t).offset [':'])))))) initParseState =
        (match ParseInt intMin64 4 (-999) 9999 ([a, b, c, d] ++ '-' :: (Format02d (fromUnixCivil (t + (tz.lookupAbs t).offset)).m.toNat ++ '-' :: (Format02d (fromUnixCivil (t + (tz.lookupAbs t).offset)).d.toNat ++ 'T' :: (Format02d (fromUnixCivil (t + (tz.lookupAbs t).offset)).hh.toNat ++ ':' :: (Format02d (fromUnixCivil (t + (tz.lookupAbs t).offset)).mi.toNat ++ ':' :: (Format02d (fromUnixCivil (t + (tz.lookupAbs t).offset)).ss.toNat ++ FormatOffset (tz.lookupAbs t).offset [':'])))))) with
         | none => parseErr
         | some vi =>
           if ([a, b, c, d] ++ '-' :: (Format02d (fromUnixCivil (t + (tz.lookupAbs t).offset)).m.toNat ++ '-' :: (Format02d (fromUnixCivil (t + (tz.lookupAbs t).offset)).d.toNat ++ 'T' :: (Format02d (fromUnixCivil (t + (tz.lookupAbs t).offset)).hh.toNat ++ ':' :: (Format02d (fromUnixCivil (t + (tz.lookupAbs t).offset)).mi.toNat ++ ':' :: (Format02d (fromUnixCivil (t + (tz.lookupAbs t).offset)).ss.toNat ++ FormatOffset (tz.lookupAbs t).offset [':'])))))).length - vi.2.length ≠ 4 then parseErr
           else parseLoop sp 21 ['-', '%', 'm', '-', '%', 'd', 'T', '%', 'H', ':', '%', 'M', ':', '%', 'S', '%', 'E', 'z'] vi.2
             (⟨true, vi.1, ⟨70, 0, 1, 0, 0, 0, 4, 0, 0⟩, 0, false, 0, false, false, false,
               0⟩ : ParseState)) from rfl]
    rw [hPIy]
    show (if ([a, b, c, d] ++ '-' :: (Format02d (fromUnixCivil (t + (tz.lookupAbs t).offset)).m.toNat ++ '-' :: (Format02d (fromUnixCivil (t + (tz.lookupAbs t).offset)).d.toNat ++ 'T' :: (Format02d (fromUnixCivil (t + (tz.lookupAbs t).offset)).hh.toNat ++ ':' :: (Format02d (fromUnixCivil (t + (tz.lookupAbs t).offset)).mi.toNat ++ ':' :: (Format02d (fromUnixCivil (t + (tz.lookupAbs t).offset)).ss.toNat ++ FormatOffset (tz.lookupAbs t).offset [':'])))))).length - ('-' :: (Format02d (fromUnixCivil (t + (tz.lookupAbs t).offset)).m.toNat ++ '-' :: (Format02d (fromUnixCivil (t + (tz.lookupAbs t).offset)).d.toNat ++ 'T' :: (Format02d (fromUnixCivil (t + (tz.lookupAbs t).offset)).hh.toNat ++ ':' :: (Format02d (fromUnixCivil (t + (tz.lookupAbs t).offset)).mi.toNat ++ ':' :: (Format02d (fromUnixCivil (t + (tz.lookupAbs t).offset)).ss.toNat ++ FormatOffset (tz.lookupAbs t).offset [':'])))))).length ≠ 4 then parseErr
          else parseLoop sp 21 ['-', '%', 'm', '-', '%', 'd', 'T', '%', 'H', ':', '%', 'M', ':', '%', 'S', '%', 'E', 'z'] ('-' :: (Format02d (fromUnixCivil (t + (tz.lookupAbs t).offset)).m.toNat ++ '-' :: (Format02d (fromUnixCivil (t + (tz.lookupAbs t).offset)).d.toNat ++ 'T' :: (Format02d (fromUnixCivil (t + (tz.lookupAbs t).offset)).hh.toNat ++ ':' :: (Format02d (fromUnixCivil (t + (tz.lookupAbs t).offset)).mi.toNat ++ ':' :: (Format02d (fromUnixCivil (t + (tz.lookupAbs t).offset)).ss.toNat ++ FormatOffset (tz.lookupAbs t).offset [':'])))))) (⟨true, (fromUnixCivil (t + (tz.lookupAbs t).offset)).y, ⟨70, 0, 1, 0, 0, 0, 4, 0, 0⟩, 0, false, 0, false, false, false, 0⟩ : ParseState)) = Except.ok ((⟨true, (fromUnixCivil (t + (tz.lookupAbs t).offset)).y, ⟨70, (fromUnixCivil (t + (tz.lookupAbs t).offset)).m - 1, (fromUnixCivil (t + (tz.lookupAbs t).offset)).d, (fromUnixCivil (t + (tz.lookupAbs t).offset)).hh, (fromUnixCivil (t + (tz.lookupAbs t).offset)).mi, (fromUnixCivil (t + (tz.lookupAbs t).offset)).ss, 4, 0, 0⟩, 0, true, (tz.lookupAbs t).offset, false, false, false, 0⟩ : ParseState), [])
    rw [if_neg (by
      simp only [List.length_append, List.length_cons, List.length_nil]
      omega)]
    rw [show parseLoop sp 21 ['-', '%', 'm', '-', '%', 'd', 'T', '%', 'H', ':', '%', 'M', ':', '%', 'S', '%', 'E', 'z'] ('-' :: (Format02d (fromUnixCivil (t + (tz.lookupAbs t).offset)).m.toNat ++ '-' :: (Format02d (fromUnixCivil (t + (tz.lookupAbs t).offset)).d.toNat ++ 'T' :: (Format02d (fromUnixCivil (t + (tz.lookupAbs t).offset)).hh.toNat ++ ':' :: (Format02d (fromUnixCivil (t + (tz.lookupAbs t).offset)).mi.toNat ++ ':' :: (Format02d (fromUnixCivil (t + (tz.lookupAbs t).offset)).ss.toNat ++ FormatOffset (tz.lookupAbs t).offset [':'])))))) (⟨true, (fromUnixCivil (t + (tz.lookupAbs t).offset)).y, ⟨70, 0, 1, 0, 0, 0, 4, 0, 0⟩, 0, false, 0, false, false, false, 0⟩ : ParseState) =
        parseLoop sp 20 ['%', 'm', '-', '%', 'd', 'T', '%', 'H', ':', '%', 'M', ':', '%', 'S', '%', 'E', 'z'] (Format02d (fromUnixCivil (t + (tz.lookupAbs t).offset)).m.toNat ++ '-' :: (Format02d (fromUnixCivil (t + (tz.lookupAbs t).offset)).d.toNat ++ 'T' :: (Format02d (fromUnixCivil (t + (tz.lookupAbs t).offset)).hh.toNat ++ ':' :: (Format02d (fromUnixCivil (t + (tz.lookupAbs t).offset)).mi.toNat ++ ':' :: (Format02d (fromUnixCivil (t + (tz.lookupAbs t).offset)).ss.toNat ++ FormatOffset (tz.lookupAbs t).offset [':']))))) (⟨true, (fromUnixCivil (t + (tz.lookupAbs t).offset)).y, ⟨70, 0, 1, 0, 0, 0, 4, 0, 0⟩, 0, false, 0, false, false, false, 0⟩ : ParseState) from rfl]
    rw [show parseLoop sp 20 ['%', 'm', '-', '%', 'd', 'T', '%', 'H', ':', '%', 'M', ':', '%', 'S', '%', 'E', 'z'] (Format02d (fromUnixCivil (t + (tz.lookupAbs t).offset)).m.toNat ++ '-' :: (Format02d (fromUnixCivil (t + (tz.lookupAbs t).offset)).d.toNat ++ 'T' :: (Format02d (fromUnixCivil (t + (tz.lookupAbs t).offset)).hh.toNat ++ ':' :: (Format02d (fromUnixCivil (t + (tz.lookupAbs t).offset)).mi.toNat ++ ':' :: (Format02d (fromUnixCivil (t + (tz.lookupAbs t).offset)).ss.toNat ++ FormatOffset (tz.lookupAbs t).offset [':']))))) (⟨true, (fromUnixCivil (t + (tz.lookupAbs t).offset)).y, ⟨70, 0, 1, 0, 0, 0, 4, 0, 0⟩, 0, false, 0, false, false, false, 0⟩ : ParseState) =
        (match ParseInt intMin32 2 1 12 (Format02d (fromUnixCivil (t + (tz.lookupAbs t).offset)).m.toNat ++ '-' :: (Format02d (fromUnixCivil (t + (tz.lookupAbs t).offset)).d.toNat ++ 'T' :: (Format02d (fromUnixCivil (t + (tz.lookupAbs t).offset)).hh.toNat ++ ':' :: (Format02d (fromUnixCivil (t + (tz.lookupAbs t).offset)).mi.toNat ++ ':' :: (Format02d (fromUnixCivil (t + (tz.lookupAbs t).offset)).ss.toNat ++ FormatOffset (tz.lookupAbs t).offset [':']))))) with
         | none => parseErr
         | some vi => parseLoop sp 19 ['-', '%', 'd', 'T', '%', 'H', ':', '%', 'M', ':', '%', 'S', '%', 'E', 'z'] vi.2 (⟨true, (fromUnixCivil (t + (tz.lookupAbs t).offset)).y, ⟨70, vi.1 - 1, 1, 0, 0, 0, 4, 0, 0⟩, 0, false, 0, false, false, false, 0⟩ : ParseState)) from rfl]
    rw [hPIm]
    show parseLoop sp 19 ['-', '%', 'd', 'T', '%', 'H', ':', '%', 'M', ':', '%', 'S', '%', 'E', 'z'] ('-' :: (Format02d (fromUnixCivil (t + (tz.lookupAbs t).offset)).d.toNat ++ 'T' :: (Format02d (fromUnixCivil (t + (tz.lookupAbs t).offset)).hh.toNat ++ ':' :: (Format02d (fromUnixCivil (t + (tz.lookupAbs t).offset)).mi.toNat ++ ':' :: (Format02d (fromUnixCivil (t + (tz.lookupAbs t).offset)).ss.toNat ++ FormatOffset (tz.lookupAbs t).offset [':']))))) (⟨true, (fromUnixCivil (t + (tz.lookupAbs t).offset)).y, ⟨70, (fromUnixCivil (t + (tz.lookupAbs t).offset)).m - 1, 1, 0, 0, 0, 4, 0, 0⟩, 0, false, 0, false, false, false, 0⟩ : ParseState) = Except.ok ((⟨true, (fromUnixCivil (t + (tz.lookupAbs t).offset)).y, ⟨70, (fromUnixCivil (t + (tz.lookupAbs t).offset)).m - 1, (fromUnixCivil (t + (tz.lookupAbs t).offset)).d, (fromUnixCivil (t + (tz.lookupAbs t).offset)).hh, (fromUnixCivil (t + (tz.lookupAbs t).offset)).mi, (fromUnixCivil (t + (tz.lookupAbs t).offset)).ss, 4, 0, 0⟩, 0, true, (tz.lookupAbs t).offset, false, false, false, 0⟩ : ParseState), [])
    rw [show parseLoop sp 19 ['-', '%', 'd', 'T', '%', 'H', ':', '%', 'M', ':', '%', 'S', '%', 'E', 'z'] ('-' :: (Format02d (fromUnixCivil (t + (tz.lookupAbs t).offset)).d.toNat ++ 'T' :: (Format02d (fromUnixCivil (t + (tz.lookupAbs t).offset)).hh.toNat ++ ':' :: (Format02d (fromUnixCivil (t + (tz.lookupAbs t).offset)).mi.toNat ++ ':' :: (Format02d (fromUnixCivil (t + (tz.lookupAbs t).offset)).ss.toNat ++ FormatOffset (tz.lookupAbs t).offset [':']))))) (⟨true, (fromUnixCivil (t + (tz.lookupAbs t).offset)).y, ⟨70, (fromUnixCivil (t + (tz.lookupAbs t).offset)).m - 1, 1, 0, 0, 0, 4, 0, 0⟩, 0, false, 0, false, false, false, 0⟩ : ParseState) =
        parseLoop sp 18 ['%', 'd', 'T', '%', 'H', ':', '%', 'M', ':', '%', 'S', '%', 'E', 'z'] (Format02d (fromUnixCivil (t + (tz.lookupAbs t).offset)).d.toNat ++ 'T' :: (Format02d (fromUnixCivil (t + (tz.lookupAbs t).offset)).hh.toNat ++ ':' :: (Format02d (fromUnixCivil (t + (tz.lookupAbs t).offset)).mi.toNat ++ ':' :: (Format02d (fromUnixCivil (t + (tz.lookupAbs t).offset)).ss.toNat ++ FormatOffset (tz.lookupAbs t).offset [':'])))) (⟨true, (fromUnixCivil (t + (tz.lookupAbs t).offset)).y, ⟨70, (fromUnixCivil (t + (tz.lookupAbs t).offset)).m - 1, 1, 0, 0, 0, 4, 0, 0⟩, 0, false, 0, false, false, false, 0⟩ : ParseState) from rfl]
    rw [show parseLoop sp 18 ['%', 'd', 'T', '%', 'H', ':', '%', 'M', ':', '%', 'S', '%', 'E', 'z'] (Format02d (fromUnixCivil (t + (tz.lookupAbs t).offset)).d.toNat ++ 'T' :: (Format02d (fromUnixCivil (t + (tz.lookupAbs t).offset)).hh.toNat ++ ':' :: (Format02d (fromUnixCivil (t + (tz.lookupAbs t).offset)).mi.toNat ++ ':' :: (Format02d (fromUnixCivil (t + (tz.lookupAbs t).offset)).ss.toNat ++ FormatOffset (tz.lookupAbs t).offset [':'])))) (⟨true, (fromUnixCivil (t + (tz.lookupAbs t).offset)).y, ⟨70, (fromUnixCivil (t + (tz.lookupAbs t).offset)).m - 1, 1, 0, 0, 0, 4, 0, 0⟩, 0, false, 0, false, false, false, 0⟩ : ParseState) =
        (match ParseInt intMin32 2 1 31 (Format02d (fromUnixCivil (t + (tz.lookupAbs t).offset)).d.toNat ++ 'T' :: (Format02d (fromUnixCivil (t + (tz.lookupAbs t).offset)).hh.toNat ++ ':' :: (Format02d (fromUnixCivil (t + (tz.lookupAbs t).offset)).mi.toNat ++ ':' :: (Format02d (fromUnixCivil (t + (tz.lookupAbs t).offset)).ss.toNat ++ FormatOffset (tz.lookupAbs t).offset [':'])))) with
         | none => parseErr
         | some vi => parseLoop sp 17 ['T', '%', 'H', ':', '%', 'M', ':', '%', 'S', '%', 'E', 'z'] vi.2 (⟨true, (fromUnixCivil (t + (tz.lookupAbs t).offset)).y, ⟨70, (fromUnixCivil (t + (tz.lookupAbs t).offset)).m - 1, vi.1, 0, 0, 0, 4, 0, 0⟩, 0, false, 0, false, false, false, 0⟩ : ParseState)) from rfl]
    rw [hPId]
    show parseLoop sp 17 ['T', '%', 'H', ':', '%', 'M', ':', '%', 'S', '%', 'E', 'z'] ('T' :: (Format02d (fromUnixCivil (t + (tz.lookupAbs t).offset)).hh.toNat ++ ':' :: (Format02d (fromUnixCivil (t + (tz.lookupAbs t).offset)).mi.toNat ++ ':' :: (Format02d (fromUnixCivil (t + (tz.lookupAbs t).offset)).ss.toNat ++ FormatOffset (tz.lookupAbs t).offset [':'])))) (⟨true, (fromUnixCivil (t + (tz.lookupAbs t).offset)).y, ⟨70, (fromUnixCivil (t + (tz.lookupAbs t).offset)).m - 1, (fromUnixCivil (t + (tz.lookupAbs t).offset)).d, 0, 0, 0, 4, 0, 0⟩, 0, false, 0, false, false, false, 0⟩ : ParseState) = Except.ok ((⟨true, (fromUnixCivil (t + (tz.lookupAbs t).offset)).y, ⟨70, (fromUnixCivil (t + (tz.lookupAbs t).offset)).m - 1, (fromUnixCivil (t + (tz.lookupAbs t).offset)).d, (fromUnixCivil (t + (tz.lookupAbs t).offset)).hh, (fromUnixCivil (t + (tz.lookupAbs t).offset)).mi, (fromUnixCivil (t + (tz.lookupAbs t).offset)).ss, 4, 0, 0⟩, 0, true, (tz.lookupAbs t).offset, false, false, false, 0⟩ : ParseState), [])
    rw [show parseLoop sp 17 ['T', '%', 'H', ':', '%', 'M', ':', '%', 'S', '%', 'E', 'z'] ('T' :: (Format02d (fromUnixCivil (t + (tz.lookupAbs t).offset)).hh.toNat ++ ':' :: (Format02d (fromUnixCivil (t + (tz.lookupAbs t).offset)).mi.toNat ++ ':' :: (Format02d (fromUnixCivil (t + (tz.lookupAbs t).offset)).ss.toNat ++ FormatOffset (tz.lookupAbs t).offset [':'])))) (⟨true, (fromUnixCivil (t + (tz.lookupAbs t).offset)).y, ⟨70, (fromUnixCivil (t + (tz.lookupAbs t).offset)).m - 1, (fromUnixCivil (t + (tz.lookupAbs t).offset)).d, 0, 0, 0, 4, 0, 0⟩, 0, false, 0, false, false, false, 0⟩ : ParseState) =
        parseLoop sp 16 ['%', 'H', ':', '%', 'M', ':', '%', 'S', '%', 'E', 'z'] (Format02d (fromUnixCivil (t + (tz.lookupAbs t).offset)).hh.toNat ++ ':' :: (Format02d (fromUnixCivil (t + (tz.lookupAbs t).offset)).mi.toNat ++ ':' :: (Format02d (fromUnixCivil (t + (tz.lookupAbs t).offset)).ss.toNat ++ FormatOffset (tz.lookupAbs t).offset [':']))) (⟨true, (fromUnixCivil (t + (tz.lookupAbs t).offset)).y, ⟨70, (fromUnixCivil (t + (tz.lookupAbs t).offset)).m - 1, (fromUnixCivil (t + (tz.lookupAbs t).offset)).d, 0, 0, 0, 4, 0, 0⟩, 0, false, 0, false, false, false, 0⟩ : ParseState) from rfl]
    rw [show parseLoop sp 16 ['%', 'H', ':', '%', 'M', ':', '%', 'S', '%', 'E', 'z'] (Format02d (fromUnixCivil (t + (tz.lookupAbs t).offset)).hh.toNat ++ ':' :: (Format02d (fromUnixCivil (t + (tz.lookupAbs t).offset)).mi.toNat ++ ':' :: (Format02d (fromUnixCivil (t + (tz.lookupAbs t).offset)).ss.toNat ++ FormatOffset (tz.lookupAbs t).offset [':']))) (⟨true, (fromUnixCivil (t + (tz.lookupAbs t).offset)).y, ⟨70, (fromUnixCivil (t + (tz.lookupAbs t).offset)).m - 1, (fromUnixCivil (t + (tz.lookupAbs t).offset)).d, 0, 0, 0, 4, 0, 0⟩, 0, false, 0, false, false, false, 0⟩ : ParseState) =
        (match ParseInt intMin32 2 0 23 (Format02d (fromUnixCivil (t + (tz.lookupAbs t).offset)).hh.toNat ++ ':' :: (Format02d (fromUnixCivil (t + (tz.lookupAbs t).offset)).mi.toNat ++ ':' :: (Format02d (fromUnixCivil (t + (tz.lookupAbs t).offset)).ss.toNat ++ FormatOffset (tz.lookupAbs t).offset [':']))) with
         | none => parseErr
         | some vi => parseLoop sp 15 [':', '%', 'M', ':', '%', 'S', '%', 'E', 'z'] vi.2 (⟨true, (fromUnixCivil (t + (tz.lookupAbs t).offset)).y, ⟨70, (fromUnixCivil (t + (tz.lookupAbs t).offset)).m - 1, (fromUnixCivil (t + (tz.lookupAbs t).offset)).d, vi.1, 0, 0, 4, 0, 0⟩, 0, false, 0, false, false, false, 0⟩ : ParseState)) from rfl]
    rw [hPIh]
    show parseLoop sp 15 [':', '%', 'M', ':', '%', 'S', '%', 'E', 'z'] (':' :: (Format02d (fromUnixCivil (t + (tz.lookupAbs t).offset)).mi.toNat ++ ':' :: (Format02d (fromUnixCivil (t + (tz.lookupAbs t).offset)).ss.toNat ++ FormatOffset (tz.lookupAbs t).offset [':']))) (⟨true, (fromUnixCivil (t + (tz.lookupAbs t).offset)).y, ⟨70, (fromUnixCivil (t + (tz.lookupAbs t).offset)).m - 1, (fromUnixCivil (t + (tz.lookupAbs t).offset)).d, (fromUnixCivil (t + (tz.lookupAbs t).offset)).hh, 0, 0, 4, 0, 0⟩, 0, false, 0, false, false, false, 0⟩ : ParseState) = Except.ok ((⟨true, (fromUnixCivil (t + (tz.lookupAbs t).offset)).y, ⟨70, (fromUnixCivil (t + (tz.lookupAbs t).offset)).m - 1, (fromUnixCivil (t + (tz.lookupAbs t).offset)).d, (fromUnixCivil (t + (tz.lookupAbs t).offset)).hh, (fromUnixCivil (t + (tz.lookupAbs t).offset)).mi, (fromUnixCivil (t + (tz.lookupAbs t).offset)).ss, 4, 0, 0⟩, 0, true, (tz.lookupAbs t).offset, false, false, false, 0⟩ : ParseState), [])
    rw [show parseLoop sp 15 [':', '%', 'M', ':', '%', 'S', '%', 'E', 'z'] (':' :: (Format02d (fromUnixCivil (t + (tz.lookupAbs t).offset)).mi.toNat ++ ':' :: (Format02d (fromUnixCivil (t + (tz.lookupAbs t).offset)).ss.toNat ++ FormatOffset (tz.lookupAbs t).offset [':']))) (⟨true, (fromUnixCivil (t + (tz.lookupAbs t).offset)).y, ⟨70, (fromUnixCivil (t + (tz.lookupAbs t).offset)).m - 1, (fromUnixCivil (t + (tz.lookupAbs t).offset)).d, (fromUnixCivil (t + (tz.lookupAbs t).offset)).hh, 0, 0, 4, 0, 0⟩, 0, false, 0, false, false, false, 0⟩ : ParseState) =
        parseLoop sp 14 ['%', 'M', ':', '%', 'S', '%', 'E', 'z'] (Format02d (fromUnixCivil (t + (tz.lookupAbs t).offset)).mi.toNat ++ ':' :: (Format02d (fromUnixCivil (t + (tz.lookupAbs t).offset)).ss.toNat ++ FormatOffset (tz.lookupAbs t).offset [':'])) (⟨true, (fromUnixCivil (t + (tz.lookupAbs t).offset)).y, ⟨70, (fromUnixCivil (t + (tz.lookupAbs t).offset)).m - 1, (fromUnixCivil (t + (tz.lookupAbs t).offset)).d, (fromUnixCivil (t + (tz.lookupAbs t).offset)).hh, 0, 0, 4, 0, 0⟩, 0, false, 0, false, false, false, 0⟩ : ParseState) from rfl]
    rw [show parseLoop sp 14 ['%', 'M', ':', '%', 'S', '%', 'E', 'z'] (Format02d (fromUnixCivil (t + (tz.lookupAbs t).offset)).mi.toNat ++ ':' :: (Format02d (fromUnixCivil (t + (tz.lookupAbs t).offset)).ss.toNat ++ FormatOffset (tz.lookupAbs t).offset [':'])) (⟨true, (fromUnixCivil (t + (tz.lookupAbs t).offset)).y, ⟨70, (fromUnixCivil (t + (tz.lookupAbs t).offset)).m - 1, (fromUnixCivil (t + (tz.lookupAbs t).offset)).d, (fromUnixCivil (t + (tz.lookupAbs t).offset)).hh, 0, 0, 4, 0, 0⟩, 0, false, 0, false, false, false, 0⟩ : ParseState) =
        (match ParseInt intMin32 2 0 59 (Format02d (fromUnixCivil (t + (tz.lookupAbs t).offset)).mi.toNat ++ ':' :: (Format02d (fromUnixCivil (t + (tz.lookupAbs t).offset)).ss.toNat ++ FormatOffset (tz.lookupAbs t).offset [':'])) with
         | none => parseErr
         | some vi => parseLoop sp 13 [':', '%', 'S', '%', 'E', 'z'] vi.2 (⟨true, (fromUnixCivil (t + (tz.lookupAbs t).offset)).y, ⟨70, (fromUnixCivil (t + (tz.lookupAbs t).offset)).m - 1, (fromUnixCivil (t + (tz.lookupAbs t).offset)).d, (fromUnixCivil (t + (tz.lookupAbs t).offset)).hh, vi.1, 0, 4, 0, 0⟩, 0, false, 0, false, false, false, 0⟩ : ParseState)) from rfl]
    rw [hPImi]
    show parseLoop sp 13 [':', '%', 'S', '%', 'E', 'z'] (':' :: (Format02d (fromUnixCivil (t + (tz.lookupAbs t).offset)).ss.toNat ++ FormatOffset (tz.lookupAbs t).offset [':'])) (⟨true, (fromUnixCivil (t + (tz.lookupAbs t).offset)).y, ⟨70, (fromUnixCivil (t + (tz.lookupAbs t).offset)).m - 1, (fromUnixCivil (t + (tz.lookupAbs t).offset)).d, (fromUnixCivil (t + (tz.lookupAbs t).offset)).hh, (fromUnixCivil (t + (tz.lookupAbs t).offset)).mi, 0, 4, 0, 0⟩, 0, false, 0, false, false, false, 0⟩ : ParseState) = Except.ok ((⟨true, (fromUnixCivil (t + (tz.lookupAbs t).offset)).y, ⟨70, (fromUnixCivil (t + (tz.lookupAbs t).offset)).m - 1, (fromUnixCivil (t + (tz.lookupAbs t).offset)).d, (fromUnixCivil (t + (tz.lookupAbs t).offset)).hh, (fromUnixCivil (t + (tz.lookupAbs t).offset)).mi, (fromUnixCivil (t + (tz.lookupAbs t).offset)).ss, 4, 0, 0⟩, 0, true, (tz.lookupAbs t).offset, false, false, false, 0⟩ : ParseState), [])
    rw [show parseLoop sp 13 [':', '%', 'S', '%', 'E', 'z'] (':' :: (Format02d (fromUnixCivil (t + (tz.lookupAbs t).offset)).ss.toNat ++ FormatOffset (tz.lookupAbs t).offset [':'])) (⟨true, (fromUnixCivil (t + (tz.lookupAbs t).offset)).y, ⟨70, (fromUnixCivil (t + (tz.lookupAbs t).offset)).m - 1, (fromUnixCivil (t + (tz.lookupAbs t).offset)).d, (fromUnixCivil (t + (tz.lookupAbs t).offset)).hh, (fromUnixCivil (t + (tz.lookupAbs t).offset)).mi, 0, 4, 0, 0⟩, 0, false, 0, false, false, false, 0⟩ : ParseState) =
        parseLoop sp 12 ['%', 'S', '%', 'E', 'z'] (Format02d (fromUnixCivil (t + (tz.lookupAbs t).offset)).ss.toNat ++ FormatOffset (tz.lookupAbs t).offset [':']) (⟨true, (fromUnixCivil (t + (tz.lookupAbs t).offset)).y, ⟨70, (fromUnixCivil (t + (tz.lookupAbs t).offset)).m - 1, (fromUnixCivil (t + (tz.lookupAbs t).offset)).d, (fromUnixCivil (t + (tz.lookupAbs t).offset)).hh, (fromUnixCivil (t + (tz.lookupAbs t).offset)).mi, 0, 4, 0, 0⟩, 0, false, 0, false, false, false, 0⟩ : ParseState) from rfl]
    rw [show parseLoop sp 12 ['%', 'S', '%', 'E', 'z'] (Format02d (fromUnixCivil (t + (tz.lookupAbs t).offset)).ss.toNat ++ FormatOffset (tz.lookupAbs t).offset [':']) (⟨true, (fromUnixCivil (t + (tz.lookupAbs t).offset)).y, ⟨70, (fromUnixCivil (t + (tz.lookupAbs t).offset)).m - 1, (fromUnixCivil (t + (tz.lookupAbs t).offset)).d, (fromUnixCivil (t + (tz.lookupAbs t).offset)).hh, (fromUnixCivil (t + (tz.lookupAbs t).offset)).mi, 0, 4, 0, 0⟩, 0, false, 0, false, false, false, 0⟩ : ParseState) =
        (match ParseInt intMin32 2 0 60 (Format02d (fromUnixCivil (t + (tz.lookupAbs t).offset)).ss.toNat ++ FormatOffset (tz.lookupAbs t).offset [':']) with
         | none => parseErr
         | some vi => parseLoop sp 11 ['%', 'E', 'z'] vi.2 (⟨true, (fromUnixCivil (t + (tz.lookupAbs t).offset)).y, ⟨70, (fromUnixCivil (t + (tz.lookupAbs t).offset)).m - 1, (fromUnixCivil (t + (tz.lookupAbs t).offset)).d, (fromUnixCivil (t + (tz.lookupAbs t).offset)).hh, (fromUnixCivil (t + (tz.lookupAbs t).offset)).mi, vi.1, 4, 0, 0⟩, 0, false, 0, false, false, false, 0⟩ : ParseState)) from rfl]
    rw [hPIs]
    show parseLoop sp 11 ['%', 'E', 'z'] (FormatOffset (tz.lookupAbs t).offset [':']) (⟨true, (fromUnixCivil (t + (tz.lookupAbs t).offset)).y, ⟨70, (fromUnixCivil (t + (tz.lookupAbs t).offset)).m - 1, (fromUnixCivil (t + (tz.lookupAbs t).offset)).d, (fromUnixCivil (t + (tz.lookupAbs t).offset)).hh, (fromUnixCivil (t + (tz.lookupAbs t).offset)).mi, (fromUnixCivil (t + (tz.lookupAbs t).offset)).ss, 4, 0, 0⟩, 0, false, 0, false, false, false, 0⟩ : ParseState) = Except.ok ((⟨true, (fromUnixCivil (t + (tz.lookupAbs t).offset)).y, ⟨70, (fromUnixCivil (t + (tz.lookupAbs t).offset)).m - 1, (fromUnixCivil (t + (tz.lookupAbs t).offset)).d, (fromUnixCivil (t + (tz.lookupAbs t).offset)).hh, (fromUnixCivil (t + (tz.lookupAbs t).offset)).mi, (fromUnixCivil (t + (tz.lookupAbs t).offset)).ss, 4, 0, 0⟩, 0, true, (tz.lookupAbs t).offset, false, false, false, 0⟩ : ParseState), [])
    rw [show parseLoop sp 11 ['%', 'E', 'z'] (FormatOffset (tz.lookupAbs t).offset [':']) (⟨true, (fromUnixCivil (t + (tz.lookupAbs t).offset)).y, ⟨70, (fromUnixCivil (t + (tz.lookupAbs t).offset)).m - 1, (fromUnixCivil (t + (tz.lookupAbs t).offset)).d, (fromUnixCivil (t + (tz.lookupAbs t).offset)).hh, (fromUnixCivil (t + (tz.lookupAbs t).offset)).mi, (fromUnixCivil (t + (tz.lookupAbs t).offset)).ss, 4, 0, 0⟩, 0, false, 0, false, false, false, 0⟩ : ParseState) =
        (match ParseOffset [':'] (FormatOffset (tz.lookupAbs t).offset [':']) with
         | none => parseErr
         | some oi => parseLoop sp 10 ([] : List Char) oi.2 (⟨true, (fromUnixCivil (t + (tz.lookupAbs t).offset)).y, ⟨70, (fromUnixCivil (t + (tz.lookupAbs t).offset)).m - 1, (fromUnixCivil (t + (tz.lookupAbs t).offset)).d, (fromUnixCivil (t + (tz.lookupAbs t).offset)).hh, (fromUnixCivil (t + (tz.lookupAbs t).offset)).mi, (fromUnixCivil (t + (tz.lookupAbs t).offset)).ss, 4, 0, 0⟩, 0, true, oi.1, false, false, false, 0⟩ : ParseState)) from rfl]
    rw [hPOz]
    show parseLoop sp 10 ([] : List Char) ([] : List Char) (⟨true, (fromUnixCivil (t + (tz.lookupAbs t).offset)).y, ⟨70, (fromUnixCivil (t + (tz.lookupAbs t).offset)).m - 1, (fromUnixCivil (t + (tz.lookupAbs t).offset)).d, (fromUnixCivil (t + (tz.lookupAbs t).offset)).hh, (fromUnixCivil (t + (tz.lookupAbs t).offset)).mi, (fromUnixCivil (t + (tz.lookupAbs t).offset)).ss, 4, 0, 0⟩, 0, true, (tz.lookupAbs t).offset, false, false, false, 0⟩ : ParseState) = Except.ok ((⟨true, (fromUnixCivil (t + (tz.lookupAbs t).offset)).y, ⟨70, (fromUnixCivil (t + (tz.lookupAbs t).offset)).m - 1, (fromUnixCivil (t + (tz.lookupAbs t).offset)).d, (fromUnixCivil (t + (tz.lookupAbs t).offset)).hh, (fromUnixCivil (t + (tz.lookupAbs t).offset)).mi, (fromUnixCivil (t + (tz.lookupAbs t).offset)).ss, 4, 0, 0⟩, 0, true, (tz.lookupAbs t).offset, false, false, false, 0⟩ : ParseState), [])
    rfl
  rw [hloop]
  show parseFinish (⟨true, (fromUnixCivil (t + (tz.lookupAbs t).offset)).y, ⟨70, (fromUnixCivil (t + (tz.lookupAbs t).offset)).m - 1, (fromUnixCivil (t + (tz.lookupAbs t).offset)).d, (fromUnixCivil (t + (tz.lookupAbs t).offset)).hh, (fromUnixCivil (t + (tz.lookupAbs t).offset)).mi, (fromUnixCivil (t + (tz.lookupAbs t).offset)).ss, 4, 0, 0⟩, 0, true, (tz.lookupAbs t).offset, false, false, false, 0⟩ : ParseState) [] tz = Except.ok (t, 0)
  have hcs9 : civilFromFields (fromUnixCivil (t + (tz.lookupAbs t).offset)).y ((fromUnixCivil (t + (tz.lookupAbs t).offset)).m - 1 + 1) (fromUnixCivil (t + (tz.lookupAbs t).offset)).d (fromUnixCivil (t + (tz.lookupAbs t).offset)).hh (fromUnixCivil (t + (tz.lookupAbs t).offset)).mi (fromUnixCivil (t + (tz.lookupAbs t).offset)).ss =
      fromUnixCivil (t + (tz.lookupAbs t).offset) := by
    rw [show (fromUnixCivil (t + (tz.lookupAbs t).offset)).m - 1 + 1 = (fromUnixCivil (t + (tz.lookupAbs t).offset)).m from by omega]
    exact civilFromFields_fromUnix (t + (tz.lookupAbs t).offset)
  obtain ⟨htlo0, hthi0⟩ := fromUnixCivil_year_t_bound (t + (tz.lookupAbs t).offset) hylo hyhi
  exact parseFinish_offset_round (⟨true, (fromUnixCivil (t + (tz.lookupAbs t).offset)).y, ⟨70, (fromUnixCivil (t + (tz.lookupAbs t).offset)).m - 1, (fromUnixCivil (t + (tz.lookupAbs t).offset)).d, (fromUnixCivil (t + (tz.lookupAbs t).offset)).hh, (fromUnixCivil (t + (tz.lookupAbs t).offset)).mi, (fromUnixCivil (t + (tz.lookupAbs t).offset)).ss, 4, 0, 0⟩, 0, true, (tz.lookupAbs t).offset, false, false, false, 0⟩ : ParseState) t (tz.lookupAbs t).offset tz rfl rfl rfl rfl rfl rfl
    (show (fromUnixCivil (t + (tz.lookupAbs t).offset)).ss ≠ 60 by omega) hcs9
    (show (fromUnixCivil (t + (tz.lookupAbs t).offset)).m = (fromUnixCivil (t + (tz.lookupAbs t).offset)).m - 1 + 1 by omega) rfl (by omega) (by omega)

/-- Claim C2, counterexample: the round-trip law fails as stated.  With a
format that includes `%E4Y-%m-%dT%H:%M:%S%Ez` but also `%Y`, the epoch
instant does not round-trip (the uncapped `%Y` swallows the `%E4Y` digits);
and even with the exact format, the representable instant 10000-01-01T00:00:00Z
does not round-trip (`%E4Y` emits five digits but reads back only four). -/
theorem claim2_counterexample :
    parse stubStrptime "%Y%E4Y-%m-%dT%H:%M:%S%Ez".toList
        (format (fun _ _ => []) "%Y%E4Y-%m-%dT%H:%M:%S%Ez".toList 0 0 utcTimeZone)
        utcTimeZone = Except.error "Failed to parse input" ∧
    parse stubStrptime "%E4Y-%m-%dT%H:%M:%S%Ez".toList
        (format (fun _ _ => []) "%E4Y-%m-%dT%H:%M:%S%Ez".toList 253402300800 0 utcTimeZone)
        utcTimeZone = Except.error "Failed to parse input" :=
  ⟨rfl, rfl⟩

/-- Claim C2, witness: the amended round-trip applied in the UTC zone (whose
lookup laws hold definitionally, with zero offset) at the epoch instant
(civil year 1970) and at an instant with civil year -1. -/
theorem claim2_witness :
    ((utcTimeZone.lookupAbs 0).cs = fromUnixCivil (0 + (utcTimeZone.lookupAbs 0).offset) ∧
      (utcTimeZone.lookupAbs 0).offset % 60 = 0 ∧
      -999 ≤ (fromUnixCivil (0 + (utcTimeZone.lookupAbs 0).offset)).y ∧
      (fromUnixCivil (0 + (utcTimeZone.lookupAbs 0).offset)).y ≤ 9999 ∧
      (fromUnixCivil ((-62198755200) + (utcTimeZone.lookupAbs (-62198755200)).offset)).y = -1) ∧
    parse stubStrptime "%E4Y-%m-%dT%H:%M:%S%Ez".toList
        (format (fun _ _ => []) "%E4Y-%m-%dT%H:%M:%S%Ez".toList 0 0 utcTimeZone)
        utcTimeZone = Except.ok (0, 0) ∧
    parse stubStrptime "%E4Y-%m-%dT%H:%M:%S%Ez".toList
        (format (fun _ _ => []) "%E4Y-%m-%dT%H:%M:%S%Ez".toList (-62198755200) 0 utcTimeZone)
        utcTimeZone = Except.ok (-62198755200, 0) :=
  ⟨⟨by decide, by decide, by decide, by decide, by decide⟩,
   claim2_roundtrip_amended stubStrptime (fun _ _ => []) 0 utcTimeZone
     (by decide) (by decide) (by decide) (by decide) (by decide) (by decide),
   claim2_roundtrip_amended stubStrptime (fun _ _ => []) (-62198755200) utcTimeZone
     (by decide) (by decide) (by decide) (by decide) (by decide) (by decide)⟩

end CCTZ
